import Mathlib

/-!
# NeoQCP paint buffers

A shallow embedding of the paint-buffer layer of NeoQCP
(`src/painting/paintbuffer.h`, `src/painting/paintbuffer-pixmap.cpp`,
`src/painting/paintbuffer-glfbo.cpp` and the older copy `src/paintbuffer.cpp`).

Conventions of the embedding.

* A C++ member function that mutates `this` and the graphics environment becomes a
  function taking the object and an `Env` and returning both.
* A `double` is a rational (`ℚ`): no NaN, no infinity. The arithmetic that the
  paint-buffer code itself does on doubles, the division of the target rectangle, is the
  exact operation rounded to the nearest `double` (`roundToDouble`), and the conversion
  of its result to `int` is defined only within the range of `int` (`doubleToInt`).
  The helpers of Qt (`qFuzzyCompare`, `qRound`, `QSize * qreal`) are Qt's formulas over
  the rationals.
  An `int` is an `Int`; the 32-bit range is a hypothesis where it matters.
* A `QWeakPointer<T>` is an `Option T`: `none` is a reference that resolves to
  nothing, `some t` gives the object that `toStrongRef()` yields.
* Qt and OpenGL are collaborators. Their objects are records of the attributes the
  paint-buffer code reads or writes, and every call into them that allocates,
  binds, switches or reads back is appended to `Env.calls`.
* `qDebug()` output is appended to `Env.diagnostics` and influences nothing.
* The binding of a frame buffer object is a fact of the environment (`Env.boundFbo`), as
  in OpenGL; a buffer is Bound when its own object is the bound one.
* Undefined behaviour (a null dereference, a division by a zero ratio, the conversion to
  `int` of a quotient out of range, a member access through a wrong static cast) ends a
  call with a `Fault`.
* Where the code compares pointers (`src/paintbuffer.cpp`), a shared pointer is the
  address it holds together with the object at that address.
-/

namespace NeoQCP

/-! ## Qt value types -/

/-- Qt `QSize`: a width and a height, both `int`. -/
structure QSize where
  wd : Int
  ht : Int
deriving DecidableEq

/-- Qt `QRect` given by its top-left corner and its extent. -/
structure QRect where
  x : Int
  y : Int
  width : Int
  height : Int
deriving DecidableEq

/-- Qt `QColor` by its four floating-point channels. -/
structure QColor where
  redF : ℚ
  greenF : ℚ
  blueF : ℚ
  alphaF : ℚ
deriving DecidableEq

/-- Smallest value of a 32-bit `int`. -/
def INT_MIN : Int := -2147483648

/-- Largest value of a 32-bit `int`. -/
def INT_MAX : Int := 2147483647

/-- Both extents of the size fit a 32-bit `int`. -/
def QSize.inIntRange (s : QSize) : Prop :=
  (INT_MIN ≤ s.wd ∧ s.wd ≤ INT_MAX) ∧ (INT_MIN ≤ s.ht ∧ s.ht ≤ INT_MAX)

/-- Qt `qAbs`: `t >= 0 ? t : -t`. -/
def qAbs (t : ℚ) : ℚ := if 0 ≤ t then t else -t

/-- Qt `qMin`: `(a < b) ? a : b`. -/
def qMin (a b : ℚ) : ℚ := if a < b then a else b

/-- Qt `qFuzzyCompare(double, double)`:
`qAbs(p1 - p2) * 1000000000000. <= qMin(qAbs(p1), qAbs(p2))`. -/
def qFuzzyCompare (p1 p2 : ℚ) : Bool :=
  decide (qAbs (p1 - p2) * 1000000000000 ≤ qMin (qAbs p1) (qAbs p2))

/-- The value of the conversion of a `double` to `int`, where that conversion is defined:
truncation toward zero. The conversion is defined only when the truncated value fits an
`int`; `doubleToInt` is the conversion with that condition. -/
def toInt (d : ℚ) : Int := if 0 ≤ d then ⌊d⌋ else ⌈d⌉

/-- The nearest whole number, a tie going to the even one. -/
def roundHalfEven (x : ℚ) : Int :=
  if x - ⌊x⌋ < 1 / 2 then ⌊x⌋
  else if 1 / 2 < x - ⌊x⌋ then ⌊x⌋ + 1
  else if ⌊x⌋ % 2 = 0 then ⌊x⌋ else ⌊x⌋ + 1

/-- Number of binary digits of a natural number, counted by halving at most `fuel`
times. -/
def bitLengthAux : Nat → Nat → Nat
  | 0, _ => 0
  | fuel + 1, n => if n = 0 then 0 else bitLengthAux fuel (n / 2) + 1

/-- Number of binary digits of a natural number. -/
def bitLength (n : Nat) : Nat := bitLengthAux n n

/-- The binary exponent `e` of a rational other than zero: `2 ^ e ≤ |q| < 2 ^ (e + 1)`.
The difference of the digit counts of numerator and denominator is `e` or `e + 1`. -/
def binaryExponent (q : ℚ) : Int :=
  if (2 : ℚ) ^ ((bitLength q.num.natAbs : Int) - bitLength q.den) ≤ |q| then
    (bitLength q.num.natAbs : Int) - bitLength q.den
  else (bitLength q.num.natAbs : Int) - bitLength q.den - 1

/-- Rounding of the exact result of an arithmetic operation to a `double`: the nearest
number with a significand of 53 bits, a tie going to the even significand (IEEE 754
binary64, round to nearest even). The exponent is not bounded: a result too large for a
`double` is far outside the range of `int` anyway, and a result below the normal range
truncates to zero either way. -/
def roundToDouble (q : ℚ) : ℚ :=
  if q = 0 then 0
  else roundHalfEven (q / (2 : ℚ) ^ (binaryExponent q - 52)) * (2 : ℚ) ^ (binaryExponent q - 52)

/-- Qt 6 `qRound(double)`: `d >= 0.0 ? int(d + 0.5) : int(d - 0.5)`. -/
def qRound (d : ℚ) : Int := if 0 ≤ d then toInt (d + 1 / 2) else toInt (d - 1 / 2)

/-- Qt `operator*(const QSize &, qreal)`:
`QSize(qRound(s.width() * c), qRound(s.height() * c))`. -/
def QSize.scale (s : QSize) (c : ℚ) : QSize :=
  { wd := qRound (s.wd * c), ht := qRound (s.ht * c) }

/-! ## Surface content -/

/-- A drawing command issued through a painter handle: a rectangle painted with one
color in source composition mode. It stands for the painter primitives, which the
paint-buffer code only passes through. -/
structure PaintCmd where
  rect : QRect
  color : QColor
deriving DecidableEq

/-- The factors of `glBlendFunc`: `GL_ZERO`, `GL_ONE`, `GL_SRC_ALPHA`,
`GL_ONE_MINUS_SRC_ALPHA`, `GL_DST_ALPHA`, `GL_ONE_MINUS_DST_ALPHA`. -/
inductive BlendFactor where
  | zero
  | one
  | srcAlpha
  | oneMinusSrcAlpha
  | dstAlpha
  | oneMinusDstAlpha
deriving DecidableEq

/-- What a surface holds: nothing defined yet (fresh storage), one color everywhere
(after a fill or a clear), painter commands on top of earlier content, a quad textured
with another surface drawn over all of it by OpenGL with blending enabled and the given
factors of `glBlendFunc`, or the source-over blend of one surface onto another as the
specification words it. -/
inductive Content where
  | undefined
  | uniform (c : QColor)
  | painted (base : Content) (cmd : PaintCmd)
  | quadDrawn (sfactor dfactor : BlendFactor) (dst : Content) (src : Content)
  | blended (dst : Content) (src : Content)
deriving DecidableEq

/-- Whether the point lies inside the rectangle. -/
def QRect.contains (r : QRect) (px py : Int) : Bool :=
  decide (r.x ≤ px) && decide (px < r.x + r.width) &&
    (decide (r.y ≤ py) && decide (py < r.y + r.height))

/-- The weight a factor of `glBlendFunc` stands for, given the incoming (source) color and
the color already in the frame buffer (destination). -/
def BlendFactor.weight (f : BlendFactor) (src dst : QColor) : ℚ :=
  match f with
  | .zero => 0
  | .one => 1
  | .srcAlpha => src.alphaF
  | .oneMinusSrcAlpha => 1 - src.alphaF
  | .dstAlpha => dst.alphaF
  | .oneMinusDstAlpha => 1 - dst.alphaF

/-- The blend equation of OpenGL (`GL_FUNC_ADD`, the default): each channel of the result
is the source channel times the source factor plus the destination channel times the
destination factor. -/
def glBlend (sfactor dfactor : BlendFactor) (src dst : QColor) : QColor :=
  { redF := src.redF * sfactor.weight src dst + dst.redF * dfactor.weight src dst
    greenF := src.greenF * sfactor.weight src dst + dst.greenF * dfactor.weight src dst
    blueF := src.blueF * sfactor.weight src dst + dst.blueF * dfactor.weight src dst
    alphaF := src.alphaF * sfactor.weight src dst + dst.alphaF * dfactor.weight src dst }

/-- Source-over blend of one color over another as the specification words it, channel
by channel: `src * alpha + dst * (1 - alpha)` with `alpha` the source alpha. -/
def QColor.over (src dst : QColor) : QColor :=
  { redF := src.redF * src.alphaF + dst.redF * (1 - src.alphaF)
    greenF := src.greenF * src.alphaF + dst.greenF * (1 - src.alphaF)
    blueF := src.blueF * src.alphaF + dst.blueF * (1 - src.alphaF)
    alphaF := src.alphaF * src.alphaF + dst.alphaF * (1 - src.alphaF) }

/-- The color read at a point of the content, `none` where it is not defined. -/
def Content.pixelAt : Content → Int → Int → Option QColor
  | .undefined, _, _ => none
  | .uniform c, _, _ => some c
  | .painted base cmd, px, py =>
      if cmd.rect.contains px py then some cmd.color else base.pixelAt px py
  | .quadDrawn sfactor dfactor dst src, px, py =>
      match src.pixelAt px py, dst.pixelAt px py with
      | some s, some d => some (glBlend sfactor dfactor s d)
      | _, _ => none
  | .blended dst src, px, py =>
      match src.pixelAt px py, dst.pixelAt px py with
      | some s, some d => some (s.over d)
      | _, _ => none

/-- Content after a list of painter commands, first command first. -/
def Content.paint (c : Content) (cmds : List PaintCmd) : Content :=
  cmds.foldl Content.painted c

/-- Qt `QPixmap`, by the extent passed to its constructor, its device pixel ratio
and its content. -/
structure QPixmap where
  size : QSize
  devicePixelRatio : ℚ
  content : Content
deriving DecidableEq

/-- Default-constructed `QPixmap()`. -/
def QPixmap.null : QPixmap :=
  { size := ⟨0, 0⟩, devicePixelRatio := 1, content := .undefined }

/-- Constructor `QPixmap(const QSize &)`: storage of that extent, content not yet
defined. -/
def QPixmap.ofSize (s : QSize) : QPixmap :=
  { size := s, devicePixelRatio := 1, content := .undefined }

/-- Method `QPixmap::setDevicePixelRatio`. -/
def QPixmap.setDevicePixelRatio (p : QPixmap) (r : ℚ) : QPixmap :=
  { p with devicePixelRatio := r }

/-- Method `QPixmap::fill`. -/
def QPixmap.fill (p : QPixmap) (c : QColor) : QPixmap :=
  { p with content := .uniform c }

/-- The color read at a point of the pixmap; `none` outside its extent. -/
def QPixmap.pixel (p : QPixmap) (px py : Int) : Option QColor :=
  if (⟨0, 0, p.size.wd, p.size.ht⟩ : QRect).contains px py then p.content.pixelAt px py
  else none

/-- Qt `QImage`, as produced by a frame-buffer readback. -/
structure QImage where
  size : QSize
  devicePixelRatio : ℚ
  content : Content
deriving DecidableEq

/-- Method `QImage::rect`. -/
def QImage.rect (i : QImage) : QRect := ⟨0, 0, i.size.wd, i.size.ht⟩

/-! ## OpenGL objects -/

/-- The attachment kinds of `QOpenGLFramebufferObject` that the code uses. -/
inductive Attachment where
  | NoAttachment
  | CombinedDepthStencil
deriving DecidableEq

/-- Qt `QOpenGLContext`: an identity and the sample count of its format. -/
structure QOpenGLContext where
  id : Nat
  samples : Int
deriving DecidableEq

/-- Qt `QOpenGLPaintDevice`: the shared off-screen paint device. -/
structure QOpenGLPaintDevice where
  size : QSize
  devicePixelRatio : ℚ
deriving DecidableEq

/-- Qt `QOpenGLFramebufferObject`. Its identity `id` is fresh at every creation. -/
structure QOpenGLFramebufferObject where
  id : Nat
  size : QSize
  samples : Int
  attachment : Attachment
  valid : Bool
  content : Content
deriving DecidableEq

/-- Messages written with `qDebug()`. -/
inductive Diag where
  | invalidPainter
  | noPaintDevice
  | noContext
  | noFrameBuffer
  | notBound
  | invalidBuffer
  | invalidDestination
deriving DecidableEq

/-- Calls into Qt and OpenGL that allocate, free, bind, switch, clear, copy or read
back. -/
inductive Call where
  | pixmapCreate (size : QSize)
  | makeCurrent (ctx : Nat)
  | fboCreate (id : Nat) (size : QSize) (samples : Int) (attachment : Attachment)
  | fboDelete (id : Nat)
  | fboBind (id : Nat)
  | fboRelease (id : Nat)
  | fboToImage (id : Nat)
  | glClear (color : QColor) (depth : Bool)
  | blitFramebuffer (target source : Nat)
  | drawQuad (texture : Nat)
  | glPushAttrib
  | glPopAttrib
  | glPushMatrix (projection : Bool)
  | glPopMatrix (projection : Bool)
  | glBlendSetup
deriving DecidableEq

/-- The graphics environment of the calling thread. -/
structure Env where
  /-- Value of `QOpenGLContext::currentContext()`: the identity of the current context. -/
  currentContext : Option Nat
  /-- The frame buffer object bound in the current context, if any. -/
  boundFbo : Option Nat
  /-- Identity given to the next frame buffer object. -/
  nextFboId : Nat
  /-- Whether OpenGL yields a valid object when a frame buffer object is created. -/
  fboCreationValid : Bool
  /-- Calls made so far, oldest first. -/
  calls : List Call
  /-- Diagnostics written so far, oldest first. -/
  diagnostics : List Diag
deriving DecidableEq

/-- Record a call. -/
def Env.call (e : Env) (c : Call) : Env := { e with calls := e.calls ++ [c] }

/-- Write a diagnostic with `qDebug()`. -/
def Env.diag (e : Env) (d : Diag) : Env := { e with diagnostics := e.diagnostics ++ [d] }

/-- Method `QOpenGLContext::makeCurrent(surface)`. -/
def QOpenGLContext.makeCurrent (c : QOpenGLContext) (e : Env) : Env :=
  { e with currentContext := some c.id, calls := e.calls ++ [.makeCurrent c.id] }

/-- The statement `if (QOpenGLContext::currentContext() != context.data())
context->makeCurrent(context->surface());`. -/
def QOpenGLContext.ensureCurrent (c : QOpenGLContext) (e : Env) : Env :=
  if e.currentContext ≠ some c.id then c.makeCurrent e else e

/-- Constructor `QOpenGLFramebufferObject(size, format)`. -/
def QOpenGLFramebufferObject.create (e : Env) (size : QSize) (samples : Int)
    (attachment : Attachment) : Env × QOpenGLFramebufferObject :=
  ({ e with nextFboId := e.nextFboId + 1,
            calls := e.calls ++ [.fboCreate e.nextFboId size samples attachment] },
   { id := e.nextFboId, size := size, samples := samples, attachment := attachment,
     valid := e.fboCreationValid, content := .undefined })

/-- Method `QOpenGLFramebufferObject::isBound`. -/
def QOpenGLFramebufferObject.isBound (f : QOpenGLFramebufferObject) (e : Env) : Bool :=
  decide (e.boundFbo = some f.id)

/-- Method `QOpenGLFramebufferObject::bind`. An object that is not valid cannot be
bound: the call then binds nothing, which is the case `batch_draw` tests for with
`!isValid() || !isBound()` right after its `bind()`. -/
def QOpenGLFramebufferObject.bind (f : QOpenGLFramebufferObject) (e : Env) : Env :=
  if f.valid then { e with boundFbo := some f.id, calls := e.calls ++ [.fboBind f.id] }
  else e.call (.fboBind f.id)

/-- Method `QOpenGLFramebufferObject::release`: back to the default frame buffer. -/
def QOpenGLFramebufferObject.release (f : QOpenGLFramebufferObject) (e : Env) : Env :=
  { e with boundFbo := none, calls := e.calls ++ [.fboRelease f.id] }

/-- The statement `delete mGlFrameBuffer`. -/
def QOpenGLFramebufferObject.delete (f : QOpenGLFramebufferObject) (e : Env) : Env :=
  { e with boundFbo := if e.boundFbo = some f.id then none else e.boundFbo,
           calls := e.calls ++ [.fboDelete f.id] }

/-- Method `QOpenGLFramebufferObject::toImage`: one readback. -/
def QOpenGLFramebufferObject.toImage (f : QOpenGLFramebufferObject) (e : Env) :
    Env × QImage :=
  (e.call (.fboToImage f.id), { size := f.size, devicePixelRatio := 1, content := f.content })

/-! ## Painters -/

/-- What a painter paints on. -/
inductive QPaintDevice where
  | bufferPixmap
  | glPaintDevice (device : QOpenGLPaintDevice)
  | external (id : Nat)
deriving DecidableEq

/-- The draw calls the paint buffers issue on a target painter. -/
inductive PainterOp where
  | drawPixmap (x y : Int) (pixmap : QPixmap)
  | drawImage (target : QRect) (image : QImage) (source : QRect)
deriving DecidableEq

/-- The painter `QCPPainter`: its device, the answer of `isActive()`, and the draw
calls it has received, oldest first. -/
structure QCPPainter where
  device : QPaintDevice
  active : Bool
  ops : List PainterOp
deriving DecidableEq

/-- Constructor `QCPPainter(QPaintDevice *)`. -/
def QCPPainter.onDevice (d : QPaintDevice) : QCPPainter :=
  { device := d, active := true, ops := [] }

/-- Method `isActive`. -/
def QCPPainter.isActive (p : QCPPainter) : Bool := p.active

/-- Method `drawPixmap(x, y, pixmap)`. -/
def QCPPainter.drawPixmap (p : QCPPainter) (x y : Int) (pm : QPixmap) : QCPPainter :=
  { p with ops := p.ops ++ [.drawPixmap x y pm] }

/-- Method `drawImage(targetRect, image, sourceRect)`. -/
def QCPPainter.drawImage (p : QCPPainter) (t : QRect) (i : QImage) (s : QRect) :
    QCPPainter :=
  { p with ops := p.ops ++ [.drawImage t i s] }

/-! ## The abstract paint buffer -/

/-- Data members of class `QCPAbstractPaintBuffer`. -/
structure QCPAbstractPaintBuffer where
  mSize : QSize
  mDevicePixelRatio : ℚ
  mLayerName : String
  mInvalidated : Bool
deriving DecidableEq

/-- Constructor `QCPAbstractPaintBuffer(size, devicePixelRatio, layerName)`. -/
def QCPAbstractPaintBuffer.new (size : QSize) (devicePixelRatio : ℚ) (layerName : String) :
    QCPAbstractPaintBuffer :=
  { mSize := size, mDevicePixelRatio := devicePixelRatio, mLayerName := layerName,
    mInvalidated := true }

/-- Class `QCPPaintBufferPixmap`: the software backend. -/
structure QCPPaintBufferPixmap extends QCPAbstractPaintBuffer where
  mBuffer : QPixmap
deriving DecidableEq

/-- Class `QCPPaintBufferGlFbo`: the hardware backend. The context and the paint
device are weak references; the frame buffer object is an owned pointer, `none` when
null. -/
structure QCPPaintBufferGlFbo extends QCPAbstractPaintBuffer where
  mGlContext : Option QOpenGLContext
  mGlPaintDevice : Option QOpenGLPaintDevice
  mGlFrameBuffer : Option QOpenGLFramebufferObject
deriving DecidableEq

/-- A paint buffer with its dynamic type: the two concrete backends. -/
inductive PaintBuffer where
  | pixmap (b : QCPPaintBufferPixmap)
  | glFbo (b : QCPPaintBufferGlFbo)
deriving DecidableEq

/-- The base-class part of a paint buffer. -/
def PaintBuffer.base : PaintBuffer → QCPAbstractPaintBuffer
  | .pixmap b => b.toQCPAbstractPaintBuffer
  | .glFbo b => b.toQCPAbstractPaintBuffer

/-- Getter `size()`. -/
def PaintBuffer.size (b : PaintBuffer) : QSize := b.base.mSize

/-- Getter `invalidated()`. -/
def PaintBuffer.invalidated (b : PaintBuffer) : Bool := b.base.mInvalidated

/-- Getter `devicePixelRatio()`. -/
def PaintBuffer.devicePixelRatio (b : PaintBuffer) : ℚ := b.base.mDevicePixelRatio

/-- Getter `layerName()`. -/
def PaintBuffer.layerName (b : PaintBuffer) : String := b.base.mLayerName

/-- The assignment `mSize = size`. -/
def PaintBuffer.assignSize : PaintBuffer → QSize → PaintBuffer
  | .pixmap b, s => .pixmap { b with mSize := s }
  | .glFbo b, s => .glFbo { b with mSize := s }

/-- The assignment `mDevicePixelRatio = ratio`. -/
def PaintBuffer.assignDevicePixelRatio : PaintBuffer → ℚ → PaintBuffer
  | .pixmap b, r => .pixmap { b with mDevicePixelRatio := r }
  | .glFbo b, r => .glFbo { b with mDevicePixelRatio := r }

/-- Method `QCPAbstractPaintBuffer::setInvalidated(bool invalidated = true)`. -/
def QCPAbstractPaintBuffer.setInvalidated : PaintBuffer → Bool → PaintBuffer
  | .pixmap b, v => .pixmap { b with mInvalidated := v }
  | .glFbo b, v => .glFbo { b with mInvalidated := v }

/-! ## The software backend -/

/-- Method `QCPPaintBufferPixmap::reallocateBuffer`. -/
def QCPPaintBufferPixmap.reallocateBuffer (b : QCPPaintBufferPixmap) (e : Env) :
    Env × QCPPaintBufferPixmap :=
  let b1 : QCPPaintBufferPixmap := { b with mInvalidated := true }
  if !qFuzzyCompare 1 b1.mDevicePixelRatio then
    let extent := b1.mSize.scale b1.mDevicePixelRatio
    (e.call (.pixmapCreate extent),
     { b1 with mBuffer := (QPixmap.ofSize extent).setDevicePixelRatio b1.mDevicePixelRatio })
  else
    (e.call (.pixmapCreate b1.mSize), { b1 with mBuffer := QPixmap.ofSize b1.mSize })

/-- Constructor `QCPPaintBufferPixmap(size, devicePixelRatio, layerName)`. -/
def QCPPaintBufferPixmap.new (size : QSize) (devicePixelRatio : ℚ) (layerName : String)
    (e : Env) : Env × QCPPaintBufferPixmap :=
  QCPPaintBufferPixmap.reallocateBuffer
    { toQCPAbstractPaintBuffer := QCPAbstractPaintBuffer.new size devicePixelRatio layerName,
      mBuffer := QPixmap.null } e

/-- Method `QCPPaintBufferPixmap::startPainting`: `new QCPPainter(&mBuffer)`. -/
def QCPPaintBufferPixmap.startPainting (b : QCPPaintBufferPixmap) (e : Env) :
    Env × QCPPaintBufferPixmap × Option QCPPainter :=
  (e, b, some (QCPPainter.onDevice .bufferPixmap))

/-- Method `donePainting` of the software backend: the inherited empty body. -/
def QCPPaintBufferPixmap.donePainting (b : QCPPaintBufferPixmap) (e : Env) :
    Env × QCPPaintBufferPixmap :=
  (e, b)

/-- The caller paints through a handle: commands issued on a painter whose device is
the buffer's pixmap land in that pixmap, commands on any other painter do not. -/
def QCPPaintBufferPixmap.paintThrough (b : QCPPaintBufferPixmap) (handle : QCPPainter)
    (cmds : List PaintCmd) : QCPPaintBufferPixmap :=
  if handle.device = .bufferPixmap then
    { b with mBuffer := { b.mBuffer with content := b.mBuffer.content.paint cmds } }
  else b

/-- Outcome of a `draw`: the environment, the buffer (the method is `const`) and the
target painter after the call. -/
structure Drawn (β : Type) where
  env : Env
  buffer : β
  painter : Option QCPPainter
deriving DecidableEq

/-- Undefined behaviour the code can run into. -/
inductive Fault where
  | nullDereference
  | divisionByZero
  | invalidCast
  | conversionOutOfRange
deriving DecidableEq

deriving instance DecidableEq for Except

/-- Method `QCPPaintBufferPixmap::draw`. -/
def QCPPaintBufferPixmap.draw (b : QCPPaintBufferPixmap) (painter : Option QCPPainter)
    (e : Env) : Drawn QCPPaintBufferPixmap :=
  match painter with
  | some p =>
      if p.isActive then
        { env := e, buffer := b, painter := some (p.drawPixmap 0 0 b.mBuffer) }
      else { env := e.diag .invalidPainter, buffer := b, painter := some p }
  | none => { env := e.diag .invalidPainter, buffer := b, painter := none }

/-- Method `QCPPaintBufferPixmap::clear`. -/
def QCPPaintBufferPixmap.clear (b : QCPPaintBufferPixmap) (color : QColor) (e : Env) :
    Env × QCPPaintBufferPixmap :=
  (e, { b with mBuffer := b.mBuffer.fill color })

/-! ## The hardware backend -/

/-- Method `QCPPaintBufferGlFbo::reallocateBuffer`. -/
def QCPPaintBufferGlFbo.reallocateBuffer (b : QCPPaintBufferGlFbo) (e : Env) :
    Env × QCPPaintBufferGlFbo :=
  -- release and delete possibly existing framebuffer
  let released : Env × QCPPaintBufferGlFbo :=
    match b.mGlFrameBuffer with
    | some fbo =>
        let e1 := if fbo.isBound e then fbo.release e else e
        (fbo.delete e1, { b with mGlFrameBuffer := none })
    | none => (e, b)
  let e2 := released.1
  let b2 := released.2
  match b2.mGlPaintDevice with
  | none => (e2.diag .noPaintDevice, b2)
  | some paintDevice =>
      match b2.mGlContext with
      | none => (e2.diag .noContext, b2)
      | some context =>
          -- create new fbo with appropriate size
          let e3 := context.makeCurrent e2
          let extent := b2.mSize.scale b2.mDevicePixelRatio
          let created :=
            QOpenGLFramebufferObject.create e3 extent context.samples .CombinedDepthStencil
          let resized : QOpenGLPaintDevice :=
            if paintDevice.size ≠ extent then { paintDevice with size := extent }
            else paintDevice
          (created.1,
           { b2 with mGlFrameBuffer := some created.2,
                     mGlPaintDevice :=
                       some { resized with devicePixelRatio := b2.mDevicePixelRatio } })

/-- Constructor `QCPPaintBufferGlFbo(size, devicePixelRatio, layerName, glContext,
glPaintDevice)`. -/
def QCPPaintBufferGlFbo.new (size : QSize) (devicePixelRatio : ℚ) (layerName : String)
    (glContext : Option QOpenGLContext) (glPaintDevice : Option QOpenGLPaintDevice)
    (e : Env) : Env × QCPPaintBufferGlFbo :=
  QCPPaintBufferGlFbo.reallocateBuffer
    { toQCPAbstractPaintBuffer := QCPAbstractPaintBuffer.new size devicePixelRatio layerName,
      mGlContext := glContext, mGlPaintDevice := glPaintDevice, mGlFrameBuffer := none } e

/-- Method `QCPPaintBufferGlFbo::startPainting`. -/
def QCPPaintBufferGlFbo.startPainting (b : QCPPaintBufferGlFbo) (e : Env) :
    Env × QCPPaintBufferGlFbo × Option QCPPainter :=
  match b.mGlPaintDevice with
  | none => (e.diag .noPaintDevice, b, none)
  | some paintDevice =>
      match b.mGlContext with
      | none => (e.diag .noContext, b, none)
      | some context =>
          match b.mGlFrameBuffer with
          | none => (e.diag .noFrameBuffer, b, none)
          | some fbo =>
              let e1 := context.ensureCurrent e
              let e2 := fbo.bind e1
              (e2, b, some (QCPPainter.onDevice (.glPaintDevice paintDevice)))

/-- Method `QCPPaintBufferGlFbo::donePainting`. -/
def QCPPaintBufferGlFbo.donePainting (b : QCPPaintBufferGlFbo) (e : Env) :
    Env × QCPPaintBufferGlFbo :=
  match b.mGlFrameBuffer with
  | some fbo => if fbo.isBound e then (fbo.release e, b) else (e.diag .notBound, b)
  | none => (e.diag .notBound, b)

/-- The statements `auto ctx = ctx_ref.data(); if (QOpenGLContext::currentContext() !=
ctx) ctx->makeCurrent(ctx->surface());` where `ctx` may be null. -/
def ensureCurrentUnchecked (ctx : Option QOpenGLContext) (e : Env) : Except Fault Env :=
  match ctx with
  | some c => .ok (c.ensureCurrent e)
  | none => if e.currentContext ≠ none then .error .nullDereference else .ok e

/-- Conversion of a `double` to `int` as C++ defines it: the truncated value when it fits
an `int`, undefined otherwise. -/
def doubleToInt (d : ℚ) : Except Fault Int :=
  if INT_MIN ≤ toInt d ∧ toInt d ≤ INT_MAX then .ok (toInt d)
  else .error .conversionOutOfRange

/-- The initialisation `const int target = extent / mDevicePixelRatio;`: the `int` extent
is converted to `double` (exactly), divided by the ratio in `double` arithmetic, and the
quotient is converted to `int`. -/
def targetExtent (extent : Int) (ratio : ℚ) : Except Fault Int :=
  if ratio = 0 then .error .divisionByZero
  else doubleToInt (roundToDouble (extent / ratio))

/-- Method `QCPPaintBufferGlFbo::draw`. -/
def QCPPaintBufferGlFbo.draw (b : QCPPaintBufferGlFbo) (painter : Option QCPPainter)
    (e : Env) : Except Fault (Drawn QCPPaintBufferGlFbo) :=
  match painter with
  | none => .ok { env := e.diag .invalidPainter, buffer := b, painter := none }
  | some p =>
      if !p.isActive then
        .ok { env := e.diag .invalidPainter, buffer := b, painter := some p }
      else
        match b.mGlFrameBuffer with
        | none => .ok { env := e.diag .noFrameBuffer, buffer := b, painter := some p }
        | some fbo => do
            let e1 ← ensureCurrentUnchecked b.mGlContext e
            let targetWidth ← targetExtent fbo.size.wd b.mDevicePixelRatio
            let targetHeight ← targetExtent fbo.size.ht b.mDevicePixelRatio
            let targetRect : QRect := ⟨0, 0, targetWidth, targetHeight⟩
            let read := fbo.toImage e1
            let image : QImage := { read.2 with devicePixelRatio := b.mDevicePixelRatio }
            pure { env := read.1, buffer := b,
                   painter := some (p.drawImage targetRect image image.rect) }

/-- The call `glClear` on whatever frame buffer is bound: the content of `fbo`
becomes the clear color when `fbo` is the bound one. -/
def QOpenGLFramebufferObject.cleared (fbo : QOpenGLFramebufferObject) (e : Env)
    (color : QColor) : QOpenGLFramebufferObject :=
  if fbo.isBound e then { fbo with content := .uniform color } else fbo

/-- Method `QCPPaintBufferGlFbo::clear`. -/
def QCPPaintBufferGlFbo.clear (b : QCPPaintBufferGlFbo) (color : QColor) (e : Env) :
    Env × QCPPaintBufferGlFbo :=
  match b.mGlContext with
  | none => (e.diag .noContext, b)
  | some context =>
      match b.mGlFrameBuffer with
      | none => (e.diag .noFrameBuffer, b)
      | some fbo =>
          let e1 := context.ensureCurrent e
          let e2 := fbo.bind e1
          let e3 := e2.call (.glClear color true)
          (fbo.release e3, { b with mGlFrameBuffer := some (fbo.cleared e2 color) })

/-! ## Virtual dispatch and the setters of the base class -/

/-- The virtual call `reallocateBuffer()`. -/
def PaintBuffer.reallocateBuffer : PaintBuffer → Env → Env × PaintBuffer
  | .pixmap b, e => let r := b.reallocateBuffer e; (r.1, .pixmap r.2)
  | .glFbo b, e => let r := b.reallocateBuffer e; (r.1, .glFbo r.2)

/-- Method `QCPAbstractPaintBuffer::setSize`. -/
def QCPAbstractPaintBuffer.setSize (self : PaintBuffer) (size : QSize) (e : Env) :
    Env × PaintBuffer :=
  if self.size ≠ size then (self.assignSize size).reallocateBuffer e else (e, self)

/-- Method `QCPAbstractPaintBuffer::setDevicePixelRatio`. -/
def QCPAbstractPaintBuffer.setDevicePixelRatio (self : PaintBuffer) (ratio : ℚ) (e : Env) :
    Env × PaintBuffer :=
  if !qFuzzyCompare ratio self.devicePixelRatio then
    (self.assignDevicePixelRatio ratio).reallocateBuffer e
  else (e, self)

/-- The virtual call `draw(painter)`. -/
def PaintBuffer.draw : PaintBuffer → Option QCPPainter → Env → Except Fault (Drawn PaintBuffer)
  | .pixmap b, p, e =>
      let r := b.draw p e
      .ok { env := r.env, buffer := .pixmap r.buffer, painter := r.painter }
  | .glFbo b, p, e =>
      (b.draw p e).map fun r => { env := r.env, buffer := .glFbo r.buffer, painter := r.painter }

/-- The virtual call `startPainting()`. -/
def PaintBuffer.startPainting : PaintBuffer → Env → Env × PaintBuffer × Option QCPPainter
  | .pixmap b, e => let r := b.startPainting e; (r.1, .pixmap r.2.1, r.2.2)
  | .glFbo b, e => let r := b.startPainting e; (r.1, .glFbo r.2.1, r.2.2)

/-- The virtual call `donePainting()`. -/
def PaintBuffer.donePainting : PaintBuffer → Env → Env × PaintBuffer
  | .pixmap b, e => let r := b.donePainting e; (r.1, .pixmap r.2)
  | .glFbo b, e => let r := b.donePainting e; (r.1, .glFbo r.2)

/-- The virtual call `clear(color)`. -/
def PaintBuffer.clear : PaintBuffer → QColor → Env → Env × PaintBuffer
  | .pixmap b, c, e => let r := b.clear c e; (r.1, .pixmap r.2)
  | .glFbo b, c, e => let r := b.clear c e; (r.1, .glFbo r.2)

/-! ## The batch compositor -/

/-- Class `NeoQCPBatchDrawingHelper`, built without `NEOQCP_MANUAL_GL_IMAGE`. -/
structure NeoQCPBatchDrawingHelper where
  mSize : QSize
  mDevicePixelRatio : ℚ
  mGlContext : Option QOpenGLContext
  mGlPaintDevice : Option QOpenGLPaintDevice
  mGlFrameBuffer : Option QOpenGLFramebufferObject
  mResolveFbo : Option QOpenGLFramebufferObject
deriving DecidableEq

/-- The block `if (fbo) { if (fbo->isBound()) fbo->release(); delete fbo; }`. -/
def releaseAndDelete (fbo : Option QOpenGLFramebufferObject) (e : Env) : Env :=
  match fbo with
  | some f => f.delete (if f.isBound e then f.release e else e)
  | none => e

/-- Method `NeoQCPBatchDrawingHelper::reallocateBuffer`. -/
def NeoQCPBatchDrawingHelper.reallocateBuffer (h : NeoQCPBatchDrawingHelper) (e : Env) :
    Env × NeoQCPBatchDrawingHelper :=
  let e1 := releaseAndDelete h.mGlFrameBuffer e
  let dest :=
    QOpenGLFramebufferObject.create e1 (h.mSize.scale h.mDevicePixelRatio) 0
      .CombinedDepthStencil
  let e2 := releaseAndDelete h.mResolveFbo dest.1
  let resolve :=
    QOpenGLFramebufferObject.create e2 (h.mSize.scale h.mDevicePixelRatio) 0
      .CombinedDepthStencil
  (resolve.1, { h with mGlFrameBuffer := some dest.2, mResolveFbo := some resolve.2 })

/-- Constructor `NeoQCPBatchDrawingHelper(size, devicePixelRatio, glContext,
glPaintDevice)`. -/
def NeoQCPBatchDrawingHelper.new (size : QSize) (devicePixelRatio : ℚ)
    (glContext : Option QOpenGLContext) (glPaintDevice : Option QOpenGLPaintDevice)
    (e : Env) : Env × NeoQCPBatchDrawingHelper :=
  NeoQCPBatchDrawingHelper.reallocateBuffer
    { mSize := size, mDevicePixelRatio := devicePixelRatio, mGlContext := glContext,
      mGlPaintDevice := glPaintDevice, mGlFrameBuffer := none, mResolveFbo := none } e

/-- Method `NeoQCPBatchDrawingHelper::setSize`. -/
def NeoQCPBatchDrawingHelper.setSize (h : NeoQCPBatchDrawingHelper) (size : QSize)
    (e : Env) : Env × NeoQCPBatchDrawingHelper :=
  if h.mSize ≠ size then NeoQCPBatchDrawingHelper.reallocateBuffer { h with mSize := size } e
  else (e, h)

/-- Method `NeoQCPBatchDrawingHelper::setDevicePixelRatio`. -/
def NeoQCPBatchDrawingHelper.setDevicePixelRatio (h : NeoQCPBatchDrawingHelper) (ratio : ℚ)
    (e : Env) : Env × NeoQCPBatchDrawingHelper :=
  if h.mDevicePixelRatio ≠ ratio then
    NeoQCPBatchDrawingHelper.reallocateBuffer { h with mDevicePixelRatio := ratio } e
  else (e, h)

/-- Method `NeoQCPBatchDrawingHelper::setSizeAndDevicePixelRatio`. -/
def NeoQCPBatchDrawingHelper.setSizeAndDevicePixelRatio (h : NeoQCPBatchDrawingHelper)
    (size : QSize) (ratio : ℚ) (e : Env) : Env × NeoQCPBatchDrawingHelper :=
  if h.mSize ≠ size ∨ h.mDevicePixelRatio ≠ ratio then
    NeoQCPBatchDrawingHelper.reallocateBuffer
      { h with mSize := size, mDevicePixelRatio := ratio } e
  else (e, h)

/-- The state the loop of `batch_draw` works on: the environment, the destination
frame buffer object, the resolve frame buffer object, and the two factors that the
statement `glBlendFunc(GL_SRC_ALPHA, GL_ONE_MINUS_SRC_ALPHA)` before the loop has set. -/
structure Compositing where
  env : Env
  dest : QOpenGLFramebufferObject
  resolve : Option QOpenGLFramebufferObject
  sfactor : BlendFactor
  dfactor : BlendFactor
deriving DecidableEq

/-- One pass of the loop `for (auto& buffer : buffers)` of `batch_draw`.
`qSharedPointerCast` is a static cast: on a buffer that is not a
`QCPPaintBufferGlFbo` the member access that follows is undefined. -/
def compositeOne (st : Compositing) (buffer : PaintBuffer) : Except Fault Compositing :=
  match buffer with
  | .pixmap _ => .error .invalidCast
  | .glFbo glBuffer =>
      match glBuffer.mGlFrameBuffer with
      | none => .ok { st with env := st.env.diag .invalidBuffer }
      | some source =>
          if !source.valid then .ok { st with env := st.env.diag .invalidBuffer }
          else
            match st.resolve with
            | none => .error .nullDereference
            | some resolve =>
                let e1 := st.env.call (.blitFramebuffer resolve.id source.id)
                let resolved : QOpenGLFramebufferObject :=
                  { resolve with content := source.content }
                let e2 := st.dest.bind e1
                -- the quad covers the destination and is blended with the factors in force
                let e3 := e2.call (.drawQuad resolved.id)
                let dest : QOpenGLFramebufferObject :=
                  if st.dest.isBound e2 then
                    { st.dest with
                        content :=
                          .quadDrawn st.sfactor st.dfactor st.dest.content resolved.content }
                  else st.dest
                .ok { st with env := e3, dest := dest, resolve := some resolved }

/-- The loop `for (auto& buffer : buffers)` of `batch_draw`, in list order. -/
def compositeAll : Compositing → List PaintBuffer → Except Fault Compositing
  | st, [] => .ok st
  | st, buffer :: rest =>
      match compositeOne st buffer with
      | .error f => .error f
      | .ok st1 => compositeAll st1 rest

/-- Outcome of a `batch_draw`: the environment, the compositor and the target painter
after the call. -/
structure BatchDrawn where
  env : Env
  helper : NeoQCPBatchDrawingHelper
  painter : Option QCPPainter
deriving DecidableEq

/-- The fully transparent color of `glClearColor(0, 0, 0, 0)`. -/
def transparent : QColor := ⟨0, 0, 0, 0⟩

/-- Method `NeoQCPBatchDrawingHelper::batch_draw`. -/
def NeoQCPBatchDrawingHelper.batch_draw (h : NeoQCPBatchDrawingHelper)
    (buffers : List PaintBuffer) (painter : Option QCPPainter) (e : Env) :
    Except Fault BatchDrawn :=
  match painter with
  | none => .ok { env := e.diag .invalidPainter, helper := h, painter := none }
  | some p =>
      if !p.isActive then
        .ok { env := e.diag .invalidPainter, helper := h, painter := some p }
      else
        match buffers with
        | [only] =>
            -- If we are the only buffer, just draw ourselves
            (only.draw (some p) e).map fun r =>
              { env := r.env, helper := h, painter := r.painter }
        | _ => do
            let e1 ← ensureCurrentUnchecked h.mGlContext e
            match h.mGlFrameBuffer with
            | none => .error .nullDereference
            | some dest =>
                let targetWidth ← targetExtent dest.size.wd h.mDevicePixelRatio
                let targetHeight ← targetExtent dest.size.ht h.mDevicePixelRatio
                let targetRect : QRect := ⟨0, 0, targetWidth, targetHeight⟩
                let e2 := dest.bind e1
                if !dest.valid || !dest.isBound e2 then
                  pure { env := e2.diag .invalidDestination, helper := h, painter := some p }
                else
                  let e3 :=
                    ((((e2.call .glPushAttrib).call (.glPushMatrix true)).call
                      (.glPushMatrix false)).call .glBlendSetup).call
                      (.glClear transparent false)
                  -- `.glBlendSetup` records `glEnable(GL_BLEND); glBlendFunc(GL_SRC_ALPHA,
                  -- GL_ONE_MINUS_SRC_ALPHA); glEnable(GL_TEXTURE_2D); glColor4f(1, 1, 1, 1)`;
                  -- the two factors go into the state of the loop
                  let start : Compositing :=
                    { env := e3, dest := { dest with content := .uniform transparent },
                      resolve := h.mResolveFbo,
                      sfactor := .srcAlpha, dfactor := .oneMinusSrcAlpha }
                  let done ← compositeAll start buffers
                  let e4 :=
                    ((done.env.call (.glPopMatrix true)).call (.glPopMatrix false)).call
                      .glPopAttrib
                  let read := done.dest.toImage e4
                  let image : QImage := { read.2 with devicePixelRatio := h.mDevicePixelRatio }
                  pure { env := read.1,
                         helper := { h with mGlFrameBuffer := some done.dest,
                                            mResolveFbo := done.resolve },
                         painter := some (p.drawImage targetRect image image.rect) }

/-! ## The copy of the hardware backend in `src/paintbuffer.cpp` -/

/-- A `QSharedPointer<QCPAbstractPaintBuffer>`: the address it holds and the object at
that address. -/
structure BufferPointer where
  address : Nat
  object : PaintBuffer
deriving DecidableEq

/-- Class `QCPPaintBufferGlFbo` as `src/paintbuffer.cpp` has it: the members of the
hardware backend and the cached image `mGlImage`, a `mutable` member that is null
after construction. -/
structure PaintBufferCpp.QCPPaintBufferGlFbo extends NeoQCP.QCPPaintBufferGlFbo where
  mGlImage : Option QImage
deriving DecidableEq

/-- Outcome of the member `batch_draw` of `src/paintbuffer.cpp`: the environment, the
object it was invoked on and the target painter after the call. -/
structure PaintBufferCpp.BatchDrawn where
  env : Env
  self : PaintBufferCpp.QCPPaintBufferGlFbo
  painter : Option QCPPainter
deriving DecidableEq

/-- The part of `QCPPaintBufferGlFbo::batch_draw` of `src/paintbuffer.cpp` after its
two early returns, from `auto ctx_ref = mGlContext.toStrongRef();` to the end. The
destination and the resolve frame buffer objects are locals, destroyed when their
scope ends. -/
def PaintBufferCpp.QCPPaintBufferGlFbo.batch_draw_all (self : PaintBufferCpp.QCPPaintBufferGlFbo)
    (buffers : List BufferPointer) (p : QCPPainter) (e : Env) :
    Except Fault PaintBufferCpp.BatchDrawn := do
  let e1 ← ensureCurrentUnchecked self.mGlContext e
  match self.mGlFrameBuffer with
  | none => .error .nullDereference
  | some own =>
      let targetWidth ← targetExtent own.size.wd self.mDevicePixelRatio
      let targetHeight ← targetExtent own.size.ht self.mDevicePixelRatio
      let targetRect : QRect := ⟨0, 0, targetWidth, targetHeight⟩
      let fresh : QImage :=
        { size := own.size, devicePixelRatio := self.mDevicePixelRatio, content := .undefined }
      let cached : QImage :=
        match self.mGlImage with
        | none => fresh
        | some image => if image.size ≠ own.size then fresh else image
      let self1 : PaintBufferCpp.QCPPaintBufferGlFbo := { self with mGlImage := some cached }
      let created := QOpenGLFramebufferObject.create e1 own.size 0 .CombinedDepthStencil
      let destFbo := created.2
      let e2 := destFbo.bind created.1
      if !destFbo.valid || !destFbo.isBound e2 then
        pure { env := releaseAndDelete (some destFbo) (e2.diag .invalidDestination),
               self := self1, painter := some p }
      else
        let e3 :=
          ((((e2.call .glPushAttrib).call (.glPushMatrix true)).call
            (.glPushMatrix false)).call .glBlendSetup).call
            (.glClear transparent false)
        -- FBO to retrieve non multi-sampled buffers texture
        let createdResolve :=
          QOpenGLFramebufferObject.create e3 own.size 0 .CombinedDepthStencil
        -- the factors are those of `glBlendFunc(GL_SRC_ALPHA, GL_ONE_MINUS_SRC_ALPHA)`
        let start : Compositing :=
          { env := createdResolve.1, dest := { destFbo with content := .uniform transparent },
            resolve := some createdResolve.2,
            sfactor := .srcAlpha, dfactor := .oneMinusSrcAlpha }
        let done ← compositeAll start (buffers.map fun pointer => pointer.object)
        let e4 :=
          ((done.env.call (.glPopMatrix true)).call (.glPopMatrix false)).call .glPopAttrib
        let e5 := releaseAndDelete done.resolve e4
        let read := done.dest.toImage e5
        let image : QImage := { read.2 with devicePixelRatio := self.mDevicePixelRatio }
        pure { env := releaseAndDelete (some done.dest) read.1, self := self1,
               painter := some (p.drawImage targetRect image image.rect) }

/-- Method `QCPPaintBufferGlFbo::batch_draw` of `src/paintbuffer.cpp`, invoked on the
object at address `this`. Its `draw` is, statement for statement, the `draw` of
`src/painting/paintbuffer-glfbo.cpp`. -/
def PaintBufferCpp.QCPPaintBufferGlFbo.batch_draw (self : PaintBufferCpp.QCPPaintBufferGlFbo)
    (this : Nat) (buffers : List BufferPointer) (painter : Option QCPPainter) (e : Env) :
    Except Fault PaintBufferCpp.BatchDrawn :=
  match painter with
  | none => .ok { env := e.diag .invalidPainter, self := self, painter := none }
  | some p =>
      if !p.isActive then
        .ok { env := e.diag .invalidPainter, self := self, painter := some p }
      else if buffers.length = 1 ∧ (buffers.head?.map fun pointer => pointer.address) = some this
      then
        -- If we are the only buffer, just draw ourselves
        (self.toQCPPaintBufferGlFbo.draw (some p) e).map fun r =>
          { env := r.env, self := self, painter := r.painter }
      else
        -- If we are not the only buffer, we need to draw all buffers
        self.batch_draw_all buffers p e

/-- Method `QCPPaintBufferGlFbo::startPainting` of `src/paintbuffer.cpp`. -/
def PaintBufferCpp.QCPPaintBufferGlFbo.startPainting (self : PaintBufferCpp.QCPPaintBufferGlFbo)
    (e : Env) : Env × PaintBufferCpp.QCPPaintBufferGlFbo × Option QCPPainter :=
  match self.mGlPaintDevice with
  | none => (e.diag .noPaintDevice, self, none)
  | some paintDevice =>
      match self.mGlContext with
      | none => (e.diag .noContext, self, none)
      | some context =>
          match self.mGlFrameBuffer with
          | none => (e.diag .noFrameBuffer, self, none)
          | some fbo =>
              let e1 := if e.currentContext ≠ some context.id then context.makeCurrent e else e
              let e2 := fbo.bind e1
              (e2, self, some (QCPPainter.onDevice (.glPaintDevice paintDevice)))

/-- Method `QCPPaintBufferGlFbo::donePainting` of `src/paintbuffer.cpp`. -/
def PaintBufferCpp.QCPPaintBufferGlFbo.donePainting (self : PaintBufferCpp.QCPPaintBufferGlFbo)
    (e : Env) : Env × PaintBufferCpp.QCPPaintBufferGlFbo :=
  match self.mGlFrameBuffer with
  | none => (e.diag .notBound, self)
  | some fbo => if fbo.isBound e then (fbo.release e, self) else (e.diag .notBound, self)

/-- Method `QCPPaintBufferGlFbo::draw` of `src/paintbuffer.cpp`. -/
def PaintBufferCpp.QCPPaintBufferGlFbo.draw (self : PaintBufferCpp.QCPPaintBufferGlFbo)
    (painter : Option QCPPainter) (e : Env) :
    Except Fault (Drawn PaintBufferCpp.QCPPaintBufferGlFbo) :=
  match painter with
  | none => .ok { env := e.diag .invalidPainter, buffer := self, painter := none }
  | some p =>
      if !p.isActive then
        .ok { env := e.diag .invalidPainter, buffer := self, painter := some p }
      else
        match self.mGlFrameBuffer with
        | none => .ok { env := e.diag .noFrameBuffer, buffer := self, painter := some p }
        | some fbo => do
            let e1 ← ensureCurrentUnchecked self.mGlContext e
            let targetWidth ← targetExtent fbo.size.wd self.mDevicePixelRatio
            let targetHeight ← targetExtent fbo.size.ht self.mDevicePixelRatio
            let read := fbo.toImage e1
            let image : QImage := { read.2 with devicePixelRatio := self.mDevicePixelRatio }
            pure { env := read.1, buffer := self,
                   painter := some (p.drawImage ⟨0, 0, targetWidth, targetHeight⟩ image
                     image.rect) }

/-- Method `QCPPaintBufferGlFbo::clear` of `src/paintbuffer.cpp`. -/
def PaintBufferCpp.QCPPaintBufferGlFbo.clear (self : PaintBufferCpp.QCPPaintBufferGlFbo)
    (color : QColor) (e : Env) : Env × PaintBufferCpp.QCPPaintBufferGlFbo :=
  match self.mGlContext with
  | none => (e.diag .noContext, self)
  | some context =>
      match self.mGlFrameBuffer with
      | none => (e.diag .noFrameBuffer, self)
      | some fbo =>
          let e1 := if e.currentContext ≠ some context.id then context.makeCurrent e else e
          let e2 := fbo.bind e1
          let e3 := e2.call (.glClear color true)
          (fbo.release e3, { self with mGlFrameBuffer := some (fbo.cleared e2 color) })

/-- Method `QCPPaintBufferGlFbo::reallocateBuffer` of `src/paintbuffer.cpp`. -/
def PaintBufferCpp.QCPPaintBufferGlFbo.reallocateBuffer
    (self : PaintBufferCpp.QCPPaintBufferGlFbo) (e : Env) :
    Env × PaintBufferCpp.QCPPaintBufferGlFbo :=
  -- release and delete possibly existing framebuffer
  let e1 := releaseAndDelete self.mGlFrameBuffer e
  let self1 : PaintBufferCpp.QCPPaintBufferGlFbo := { self with mGlFrameBuffer := none }
  match self1.mGlPaintDevice with
  | none => (e1.diag .noPaintDevice, self1)
  | some paintDevice =>
      match self1.mGlContext with
      | none => (e1.diag .noContext, self1)
      | some context =>
          -- create new fbo with appropriate size
          let e2 := context.makeCurrent e1
          let extent := self1.mSize.scale self1.mDevicePixelRatio
          let created :=
            QOpenGLFramebufferObject.create e2 extent context.samples .CombinedDepthStencil
          let resized : QOpenGLPaintDevice :=
            if paintDevice.size ≠ extent then { paintDevice with size := extent }
            else paintDevice
          (created.1,
           { self1 with mGlFrameBuffer := some created.2,
                        mGlPaintDevice :=
                          some { resized with devicePixelRatio := self1.mDevicePixelRatio } })

/-- Method `QCPPaintBufferPixmap::startPainting` of `src/paintbuffer.cpp`. -/
def PaintBufferCpp.QCPPaintBufferPixmap.startPainting (self : QCPPaintBufferPixmap) (e : Env) :
    Env × QCPPaintBufferPixmap × Option QCPPainter :=
  (e, self, some (QCPPainter.onDevice .bufferPixmap))

/-- Method `QCPPaintBufferPixmap::draw` of `src/paintbuffer.cpp`. -/
def PaintBufferCpp.QCPPaintBufferPixmap.draw (self : QCPPaintBufferPixmap)
    (painter : Option QCPPainter) (e : Env) : Drawn QCPPaintBufferPixmap :=
  match painter with
  | none => { env := e.diag .invalidPainter, buffer := self, painter := none }
  | some p =>
      if p.isActive then
        { env := e, buffer := self, painter := some (p.drawPixmap 0 0 self.mBuffer) }
      else { env := e.diag .invalidPainter, buffer := self, painter := some p }

/-- Method `QCPPaintBufferPixmap::clear` of `src/paintbuffer.cpp`. -/
def PaintBufferCpp.QCPPaintBufferPixmap.clear (self : QCPPaintBufferPixmap) (color : QColor)
    (e : Env) : Env × QCPPaintBufferPixmap :=
  (e, { self with mBuffer := self.mBuffer.fill color })

/-- Method `QCPPaintBufferPixmap::reallocateBuffer` of `src/paintbuffer.cpp`. -/
def PaintBufferCpp.QCPPaintBufferPixmap.reallocateBuffer (self : QCPPaintBufferPixmap)
    (e : Env) : Env × QCPPaintBufferPixmap :=
  let self1 : QCPPaintBufferPixmap := { self with mInvalidated := true }
  if !qFuzzyCompare 1 self1.mDevicePixelRatio then
    let created := QPixmap.ofSize (self1.mSize.scale self1.mDevicePixelRatio)
    (e.call (.pixmapCreate created.size),
     { self1 with mBuffer := created.setDevicePixelRatio self1.mDevicePixelRatio })
  else
    (e.call (.pixmapCreate self1.mSize), { self1 with mBuffer := QPixmap.ofSize self1.mSize })

/-- A layer name. -/
def mainLayer : String := "main"

/-- An environment with no current context, nothing bound and nothing done yet. -/
def idleEnv : Env :=
  { currentContext := none, boundFbo := none, nextFboId := 0, fboCreationValid := true,
    calls := [], diagnostics := [] }

/-- A live shared context with four samples per pixel. -/
def sharedContext : QOpenGLContext := { id := 1, samples := 4 }

/-- A live shared paint device. -/
def sharedDevice : QOpenGLPaintDevice := { size := ⟨100, 100⟩, devicePixelRatio := 1 }

/-- Opaque red. -/
def opaqueRed : QColor := ⟨1, 0, 0, 1⟩

/-- Opaque blue. -/
def opaqueBlue : QColor := ⟨0, 0, 1, 1⟩

/-- The software buffer of the scenario: size (100,100), ratio 1. -/
def scenarioPixmapBuffer : QCPPaintBufferPixmap :=
  (QCPPaintBufferPixmap.new ⟨100, 100⟩ 1 mainLayer idleEnv).2

/-- The scenario software buffer after its flag was reset with `setInvalidated(false)`. -/
def resetPixmapBuffer : QCPPaintBufferPixmap :=
  { scenarioPixmapBuffer with mInvalidated := false }

/-- A hardware buffer built with live context and paint device: size (100,100),
ratio 1. -/
def scenarioGlBuffer : QCPPaintBufferGlFbo :=
  (QCPPaintBufferGlFbo.new ⟨100, 100⟩ 1 mainLayer (some sharedContext) (some sharedDevice)
    idleEnv).2

/-- The environment after `scenarioGlBuffer` was built. -/
def scenarioGlEnv : Env :=
  (QCPPaintBufferGlFbo.new ⟨100, 100⟩ 1 mainLayer (some sharedContext) (some sharedDevice)
    idleEnv).1

/-- The batch compositor built at (100,100) with ratio 1 after `scenarioGlBuffer`. -/
def scenarioHelper : NeoQCPBatchDrawingHelper :=
  (NeoQCPBatchDrawingHelper.new ⟨100, 100⟩ 1 (some sharedContext) (some sharedDevice)
    scenarioGlEnv).2

/-- A target painter on some widget that is active and has drawn nothing yet. -/
def activeTarget : QCPPainter := { device := .external 7, active := true, ops := [] }

/-- A target painter on some widget that is not active. -/
def inactiveTarget : QCPPainter := { device := .external 7, active := false, ops := [] }

/-- Two painter commands: a red square, then a smaller blue square on top. -/
def twoSquares : List PaintCmd :=
  [{ rect := ⟨10, 10, 50, 50⟩, color := opaqueRed }, { rect := ⟨20, 20, 10, 10⟩, color := opaqueBlue }]

/-- The scenario hardware buffer after its context was destroyed by its owner. -/
def orphanedGlBuffer : QCPPaintBufferGlFbo := { scenarioGlBuffer with mGlContext := none }

/-- The frame buffer object of `scenarioGlBuffer`. -/
def scenarioFbo : QOpenGLFramebufferObject :=
  { id := 0, size := ⟨100, 100⟩, samples := 4, attachment := .CombinedDepthStencil,
    valid := true, content := .undefined }

/-- An environment in which OpenGL fails to create frame buffer objects. -/
def failingEnv : Env := { idleEnv with fboCreationValid := false }

/-- A hardware buffer built, with live context and paint device, while OpenGL failed to
create its frame buffer object: the object is allocated but not valid. -/
def invalidFboGlBuffer : QCPPaintBufferGlFbo :=
  (QCPPaintBufferGlFbo.new ⟨100, 100⟩ 1 mainLayer (some sharedContext) (some sharedDevice)
    failingEnv).2

/-- The environment after `invalidFboGlBuffer` was built. -/
def invalidFboGlEnv : Env :=
  (QCPPaintBufferGlFbo.new ⟨100, 100⟩ 1 mainLayer (some sharedContext) (some sharedDevice)
    failingEnv).1

/-- The environment after `scenarioHelper` was built. -/
def scenarioHelperEnv : Env :=
  (NeoQCPBatchDrawingHelper.new ⟨100, 100⟩ 1 (some sharedContext) (some sharedDevice)
    scenarioGlEnv).1

/-- The environment after the shared context was destroyed while the context of another
widget, with identity 2, is the current one. -/
def otherContextEnv : Env := { scenarioHelperEnv with currentContext := some 2 }

/-- The environment after the shared context was destroyed and no context is current. -/
def noContextEnv : Env := { scenarioHelperEnv with currentContext := none }

/-- The scenario compositor after its context was destroyed by its owner. -/
def orphanedHelper : NeoQCPBatchDrawingHelper := { scenarioHelper with mGlContext := none }

/-- A scene for batch drawing: after `scenarioGlBuffer`, a second hardware buffer is
built, the first is cleared to opaque red, the second to opaque blue, and a batch
compositor is built. The environment after all that, the two buffers, the compositor. -/
def batchScene : Env × QCPPaintBufferGlFbo × QCPPaintBufferGlFbo × NeoQCPBatchDrawingHelper :=
  let second :=
    QCPPaintBufferGlFbo.new ⟨100, 100⟩ 1 mainLayer (some sharedContext) (some sharedDevice)
      scenarioGlEnv
  let red := scenarioGlBuffer.clear opaqueRed second.1
  let blue := second.2.clear opaqueBlue red.1
  let helper :=
    NeoQCPBatchDrawingHelper.new ⟨100, 100⟩ 1 (some sharedContext) (some sharedDevice) blue.1
  (helper.1, red.2, blue.2, helper.2)

/-- The environment of the batch scene. -/
def batchEnv : Env := batchScene.1

/-- The hardware buffer of the batch scene that holds opaque red. -/
def redGlBuffer : QCPPaintBufferGlFbo := batchScene.2.1

/-- The hardware buffer of the batch scene that holds opaque blue. -/
def blueGlBuffer : QCPPaintBufferGlFbo := batchScene.2.2.1

/-- The batch compositor of the batch scene. -/
def batchHelper : NeoQCPBatchDrawingHelper := batchScene.2.2.2

/-- The red buffer of the batch scene as an object of the class in `src/paintbuffer.cpp`,
its cached image still null. -/
def redGlBufferCpp : PaintBufferCpp.QCPPaintBufferGlFbo :=
  { toQCPPaintBufferGlFbo := redGlBuffer, mGlImage := none }

/-- A hardware buffer that lost its frame buffer object. -/
def emptyGlBuffer : QCPPaintBufferGlFbo := { redGlBuffer with mGlFrameBuffer := none }

/-- A hardware buffer built at size (101,100) with ratio 5/4, live context and paint
device. -/
def oddGlBuffer : QCPPaintBufferGlFbo :=
  (QCPPaintBufferGlFbo.new ⟨101, 100⟩ (5 / 4) mainLayer (some sharedContext) (some sharedDevice)
    idleEnv).2

/-- The environment after `oddGlBuffer` was built. -/
def oddGlEnv : Env :=
  (QCPPaintBufferGlFbo.new ⟨101, 100⟩ (5 / 4) mainLayer (some sharedContext) (some sharedDevice)
    idleEnv).1

/-- A ratio that differs from 1 by one part in ten to the thirteenth: within the
tolerance of `qFuzzyCompare`, yet not equal to 1. -/
def nearlyOne : ℚ := 1 + 1 / 10000000000000

/-- A hardware buffer built at size (100,100) with ratio 0, live context and paint
device. -/
def zeroRatioGlBuffer : QCPPaintBufferGlFbo :=
  (QCPPaintBufferGlFbo.new ⟨100, 100⟩ 0 mainLayer (some sharedContext) (some sharedDevice)
    idleEnv).2

/-- The environment after `zeroRatioGlBuffer` was built. -/
def zeroRatioGlEnv : Env :=
  (QCPPaintBufferGlFbo.new ⟨100, 100⟩ 0 mainLayer (some sharedContext) (some sharedDevice)
    idleEnv).1

/-- The compositor of the batch scene after `setDevicePixelRatio(0)`. -/
def zeroRatioHelper : NeoQCPBatchDrawingHelper := (batchHelper.setDevicePixelRatio 0 batchEnv).2

/-- The environment after `zeroRatioHelper` was reallocated. -/
def zeroRatioHelperEnv : Env := (batchHelper.setDevicePixelRatio 0 batchEnv).1

/-- The outcome of batch drawing the red and the blue buffer of the batch scene on the
active target painter. -/
def batchDrawn : BatchDrawn :=
  match batchHelper.batch_draw [.glFbo redGlBuffer, .glFbo blueGlBuffer] (some activeTarget)
      batchEnv with
  | .ok r => r
  | .error _ => { env := batchEnv, helper := batchHelper, painter := none }

/-- The `double` nearest to 1.1, which is what the literal `1.1` denotes. -/
def doubleOnePointOne : ℚ := 2476979795053773 / 2251799813685248

/-- A hardware buffer built at size (10,10) with the ratio 1.1, live context and paint
device. -/
def tenthGlBuffer : QCPPaintBufferGlFbo :=
  (QCPPaintBufferGlFbo.new ⟨10, 10⟩ doubleOnePointOne mainLayer (some sharedContext)
    (some sharedDevice) idleEnv).2

/-- The environment after `tenthGlBuffer` was built. -/
def tenthGlEnv : Env :=
  (QCPPaintBufferGlFbo.new ⟨10, 10⟩ doubleOnePointOne mainLayer (some sharedContext)
    (some sharedDevice) idleEnv).1

/-- A hardware buffer built at size (2147483647,8) with ratio 1/2, live context and paint
device. Its frame buffer object is 1073741824 wide, the product 1073741823.5 rounded, and
the quotient of that width by the ratio is 2147483648, one more than the largest `int`. -/
def wideGlBuffer : QCPPaintBufferGlFbo :=
  (QCPPaintBufferGlFbo.new ⟨2147483647, 8⟩ (1 / 2) mainLayer (some sharedContext)
    (some sharedDevice) idleEnv).2

/-- The environment after `wideGlBuffer` was built. -/
def wideGlEnv : Env :=
  (QCPPaintBufferGlFbo.new ⟨2147483647, 8⟩ (1 / 2) mainLayer (some sharedContext)
    (some sharedDevice) idleEnv).1

/-! ## Properties used in the statements -/

/-- The call is a `makeCurrent`. -/
def Call.isMakeCurrent : Call → Bool
  | .makeCurrent _ => true
  | _ => false

/-- The call is a readback `toImage`. -/
def Call.isReadback : Call → Bool
  | .fboToImage _ => true
  | _ => false

/-- The call is one of the three made per buffer by the loop of `batch_draw`: a blit, a
bind of the destination, a textured quad. -/
def Call.isCompositeStep : Call → Bool
  | .blitFramebuffer _ _ => true
  | .fboBind _ => true
  | .drawQuad _ => true
  | _ => false

/-- Number of `makeCurrent` calls made so far. -/
def Env.makeCurrentCalls (e : Env) : Nat := e.calls.countP Call.isMakeCurrent

/-- Depth of the attribute stack relative to its depth before the first recorded call:
pushes minus pops. -/
def Env.attribDepth (e : Env) : Int :=
  (e.calls.count .glPushAttrib : Int) - e.calls.count .glPopAttrib

/-- Depth of the projection matrix stack relative to its depth before the first recorded
call: pushes minus pops. -/
def Env.projectionDepth (e : Env) : Int :=
  (e.calls.count (.glPushMatrix true) : Int) - e.calls.count (.glPopMatrix true)

/-- Depth of the model-view matrix stack relative to its depth before the first recorded
call: pushes minus pops. -/
def Env.modelViewDepth (e : Env) : Int :=
  (e.calls.count (.glPushMatrix false) : Int) - e.calls.count (.glPopMatrix false)

/-- The call pushes onto or pops from one of the three OpenGL stacks. -/
def Call.isStackOp : Call → Bool
  | .glPushAttrib => true
  | .glPopAttrib => true
  | .glPushMatrix _ => true
  | .glPopMatrix _ => true
  | _ => false

/-- The sizing invariant of the batch compositor: the destination and the resolve frame
buffer objects exist and each has the extent of the configured size times the configured
ratio, rounded component by component. -/
def NeoQCPBatchDrawingHelper.storageMatches (h : NeoQCPBatchDrawingHelper) : Prop :=
  (h.mGlFrameBuffer.map fun f => f.size) = some (h.mSize.scale h.mDevicePixelRatio) ∧
  (h.mResolveFbo.map fun f => f.size) = some (h.mSize.scale h.mDevicePixelRatio)

/-- The sizing invariant is decidable. -/
instance NeoQCPBatchDrawingHelper.decidableStorageMatches (h : NeoQCPBatchDrawingHelper) :
    Decidable h.storageMatches := by
  unfold NeoQCPBatchDrawingHelper.storageMatches
  infer_instance


/-- The state `Bound` of a hardware buffer: it has a frame buffer object and that
object is the one bound in the environment. Without a frame buffer object the buffer
is `Unbound`. -/
def QCPPaintBufferGlFbo.isBound (b : QCPPaintBufferGlFbo) (e : Env) : Bool :=
  match b.mGlFrameBuffer with
  | some fbo => fbo.isBound e
  | none => false

/-- The state `Bound` of a paint buffer; a software buffer is never bound. -/
def PaintBuffer.isBound : PaintBuffer → Env → Bool
  | .pixmap _, _ => false
  | .glFbo b, e => b.isBound e

/-- The identity bound in the environment, if any, was handed out earlier: it is below
the identity that the next frame buffer object will get. -/
def Env.consistent (e : Env) : Prop :=
  match e.boundFbo with
  | some id => id < e.nextFboId
  | none => True

/-- Consistency of an environment is decidable. -/
instance Env.decidableConsistent (e : Env) : Decidable e.consistent := by
  unfold Env.consistent
  cases e.boundFbo <;> infer_instance

/-- The environment without what `qDebug()` wrote: current context, binding, identities,
creation oracle and calls. -/
def Env.withoutDiagnostics (e : Env) : Env := { e with diagnostics := [] }

/-- The content of the frame buffer object of a hardware buffer; undefined when it has
none. -/
def QCPPaintBufferGlFbo.content (b : QCPPaintBufferGlFbo) : Content :=
  match b.mGlFrameBuffer with
  | some fbo => fbo.content
  | none => .undefined

/-- A hardware buffer is valid for batch drawing: it has a frame buffer object and that
object is valid. -/
def QCPPaintBufferGlFbo.hasValidFbo (b : QCPPaintBufferGlFbo) : Bool :=
  match b.mGlFrameBuffer with
  | some fbo => fbo.valid
  | none => false

/-- The target rectangle of a draw call on a painter, for `drawImage`. -/
def PainterOp.targetRect : PainterOp → Option QRect
  | .drawImage target _ _ => some target
  | .drawPixmap _ _ _ => none

/-- The extent of the physical storage of a paint buffer: of the pixmap for the software
backend, of the frame buffer object (if one is allocated) for the hardware backend. -/
def PaintBuffer.storageSize : PaintBuffer → Option QSize
  | .pixmap b => some b.mBuffer.size
  | .glFbo b => b.mGlFrameBuffer.map fun f => f.size

/-- The range check is decidable. -/
instance QSize.decidableInIntRange (s : QSize) : Decidable s.inIntRange := by
  unfold QSize.inIntRange
  infer_instance

/-- The storage of a software buffer has the dimensions that its size and ratio call
for: exactly the size when the ratio passes the tolerance test against 1; otherwise the
rounded products, with the surface tagged with the ratio; and in both cases the size
times the ratio, rounded component by component. -/
def QCPPaintBufferPixmap.storageMatches (b : QCPPaintBufferPixmap) : Prop :=
  (qFuzzyCompare 1 b.mDevicePixelRatio = true → b.mBuffer.size = b.mSize) ∧
  (qFuzzyCompare 1 b.mDevicePixelRatio = false →
    b.mBuffer.size
        = ⟨qRound (b.mSize.wd * b.mDevicePixelRatio), qRound (b.mSize.ht * b.mDevicePixelRatio)⟩ ∧
      b.mBuffer.devicePixelRatio = b.mDevicePixelRatio) ∧
  b.mBuffer.size = b.mSize.scale b.mDevicePixelRatio

/-- The storage check is decidable. -/
instance QCPPaintBufferPixmap.decidableStorageMatches (b : QCPPaintBufferPixmap) :
    Decidable b.storageMatches := by
  unfold QCPPaintBufferPixmap.storageMatches
  infer_instance

/-- The helper `qAbs` is the absolute value. -/
theorem qAbs_eq_abs (t : ℚ) : qAbs t = |t| := by
  unfold qAbs
  split_ifs with h
  · exact (abs_of_nonneg h).symm
  · exact (abs_of_neg (not_le.mp h)).symm

/-- The helper `qMin` is the minimum. -/
theorem qMin_eq_min (a b : ℚ) : qMin a b = min a b := by
  unfold qMin
  split_ifs with h
  · exact (min_eq_left h.le).symm
  · exact (min_eq_right (not_lt.mp h)).symm

/-- The test `qFuzzyCompare` written with absolute value and minimum. -/
theorem qFuzzyCompare_iff (p1 p2 : ℚ) :
    qFuzzyCompare p1 p2 = true ↔ |p1 - p2| * 1000000000000 ≤ min |p1| |p2| := by
  simp [qFuzzyCompare, qAbs_eq_abs, qMin_eq_min]

/-- Every value passes the tolerance test against itself. -/
theorem qFuzzyCompare_self (d : ℚ) : qFuzzyCompare d d = true := by
  rw [qFuzzyCompare_iff]
  simp

/-- Rounding an integer plus less than a half gives the integer back. -/
theorem qRound_add_small (w : Int) (t : ℚ) (ht : |t| < 1 / 2) : qRound (w + t) = w := by
  obtain ⟨h1, h2⟩ := abs_lt.mp ht
  unfold qRound toInt
  split_ifs with a b c
  · rw [Int.floor_eq_iff]; constructor <;> linarith
  · exfalso; linarith
  · exfalso; linarith
  · rw [Int.ceil_eq_iff]; constructor <;> linarith

/-- Claim C1. For a paint buffer of either backend in any state and any environment,
`setSize` called with the buffer's current size returns the environment and the
buffer exactly as they were: no call is recorded (so nothing is allocated or freed),
and size, ratio, invalidated flag, storage, content and binding are all as before. -/
theorem setSize_current_size_is_noop (b : PaintBuffer) (e : Env) :
    QCPAbstractPaintBuffer.setSize b b.size e = (e, b) := by
  simp [QCPAbstractPaintBuffer.setSize]

/-- Claim C2. When the new ratio `r` passes the tolerance test against the current
ratio `d`, that is `|r - d| * 10^12 ≤ min |r| |d|`, `setDevicePixelRatio r` returns the
environment and the buffer exactly as they were: no call is recorded, the stored ratio
stays `d`, and flag, storage and content are untouched. The test holds for `r = d`
whatever `d` is, zero included, so the setter called with the current ratio is a
no-op too. -/
theorem setDevicePixelRatio_within_tolerance_is_noop (b : PaintBuffer) (r : ℚ) (e : Env)
    (h : |r - b.devicePixelRatio| * 1000000000000 ≤ min |r| |b.devicePixelRatio|) :
    QCPAbstractPaintBuffer.setDevicePixelRatio b r e = (e, b) ∧
      (QCPAbstractPaintBuffer.setDevicePixelRatio b r e).2.devicePixelRatio
        = b.devicePixelRatio ∧
      qFuzzyCompare b.devicePixelRatio b.devicePixelRatio = true ∧
      QCPAbstractPaintBuffer.setDevicePixelRatio b b.devicePixelRatio e = (e, b) := by
  have hr : qFuzzyCompare r b.devicePixelRatio = true := (qFuzzyCompare_iff _ _).mpr h
  have hd := qFuzzyCompare_self b.devicePixelRatio
  simp [QCPAbstractPaintBuffer.setDevicePixelRatio, hr, hd]

/-- Witness for C2 on the scenario hardware buffer with its ratio set to zero: the
ratio 0 against the current ratio 0 passes the test and the setter changes nothing. -/
theorem setDevicePixelRatio_within_tolerance_is_noop_witness :
    (|(0 : ℚ) - (PaintBuffer.glFbo { scenarioGlBuffer with mDevicePixelRatio := 0 }).devicePixelRatio|
        * 1000000000000
      ≤ min |(0 : ℚ)|
          |(PaintBuffer.glFbo { scenarioGlBuffer with mDevicePixelRatio := 0 }).devicePixelRatio|) ∧
    QCPAbstractPaintBuffer.setDevicePixelRatio
        (.glFbo { scenarioGlBuffer with mDevicePixelRatio := 0 }) 0 scenarioGlEnv
      = (scenarioGlEnv, .glFbo { scenarioGlBuffer with mDevicePixelRatio := 0 }) :=
  have h : |(0 : ℚ) - (PaintBuffer.glFbo { scenarioGlBuffer with mDevicePixelRatio := 0 }).devicePixelRatio|
        * 1000000000000
      ≤ min |(0 : ℚ)|
          |(PaintBuffer.glFbo { scenarioGlBuffer with mDevicePixelRatio := 0 }).devicePixelRatio| := by
    simp [PaintBuffer.devicePixelRatio, PaintBuffer.base]
  ⟨h, (setDevicePixelRatio_within_tolerance_is_noop _ 0 scenarioGlEnv h).1⟩

/-! ## Setters called with a differing value -/

/-- Claim C3. For a software buffer with size `s0` and any size `s` different from it,
whatever the invalidated flag was, `setSize s` leaves a software buffer whose `size()`
is `s`, whose `invalidated()` is true, and whose storage is a newly constructed pixmap
(content not yet defined, one `QPixmap` construction recorded) of extent `s` when the
ratio passes the tolerance test against 1 and of extent `s` times the ratio, rounded,
otherwise. -/
theorem pixmap_setSize_differing_reallocates (b : QCPPaintBufferPixmap) (s : QSize) (e : Env)
    (h : s ≠ b.mSize) :
    ∃ pb : QCPPaintBufferPixmap,
      (QCPAbstractPaintBuffer.setSize (.pixmap b) s e).2 = .pixmap pb ∧
      (PaintBuffer.pixmap pb).size = s ∧
      (PaintBuffer.pixmap pb).invalidated = true ∧
      (PaintBuffer.pixmap pb).devicePixelRatio = b.mDevicePixelRatio ∧
      pb.mBuffer.content = .undefined ∧
      pb.mBuffer.size
        = (if qFuzzyCompare 1 b.mDevicePixelRatio then s else s.scale b.mDevicePixelRatio) ∧
      (QCPAbstractPaintBuffer.setSize (.pixmap b) s e).1.calls
        = e.calls ++ [.pixmapCreate pb.mBuffer.size] := by
  have hne : b.mSize ≠ s := fun hh => h hh.symm
  cases hf : qFuzzyCompare 1 b.mDevicePixelRatio <;>
    simp [QCPAbstractPaintBuffer.setSize, PaintBuffer.size, PaintBuffer.base, hne,
      PaintBuffer.assignSize, PaintBuffer.reallocateBuffer,
      QCPPaintBufferPixmap.reallocateBuffer, hf, PaintBuffer.invalidated,
      PaintBuffer.devicePixelRatio, QPixmap.ofSize, QPixmap.setDevicePixelRatio, Env.call]

/-- Witness for C3, the scenario of the specification: the buffer built at (100,100)
with ratio 1 has 100x100 storage; (200,100) differs from its size; after
`setSize (200,100)` the storage is 200x100 and `invalidated()` is true, also when the
flag had been reset before. -/
theorem pixmap_setSize_differing_reallocates_witness :
    (PaintBuffer.pixmap scenarioPixmapBuffer).storageSize = some ⟨100, 100⟩ ∧
    (⟨200, 100⟩ : QSize) ≠ resetPixmapBuffer.mSize ∧
    (∃ pb : QCPPaintBufferPixmap,
      (QCPAbstractPaintBuffer.setSize (.pixmap resetPixmapBuffer) ⟨200, 100⟩ idleEnv).2
        = .pixmap pb ∧
      (PaintBuffer.pixmap pb).size = ⟨200, 100⟩ ∧
      (PaintBuffer.pixmap pb).invalidated = true ∧
      (PaintBuffer.pixmap pb).devicePixelRatio = resetPixmapBuffer.mDevicePixelRatio ∧
      pb.mBuffer.content = .undefined ∧
      pb.mBuffer.size
        = (if qFuzzyCompare 1 resetPixmapBuffer.mDevicePixelRatio then ⟨200, 100⟩
           else QSize.scale ⟨200, 100⟩ resetPixmapBuffer.mDevicePixelRatio) ∧
      (QCPAbstractPaintBuffer.setSize (.pixmap resetPixmapBuffer) ⟨200, 100⟩ idleEnv).1.calls
        = idleEnv.calls ++ [.pixmapCreate pb.mBuffer.size]) ∧
    (QCPAbstractPaintBuffer.setSize (.pixmap resetPixmapBuffer) ⟨200, 100⟩ idleEnv).2.storageSize
      = some ⟨200, 100⟩ ∧
    (QCPAbstractPaintBuffer.setSize (.pixmap resetPixmapBuffer) ⟨200, 100⟩ idleEnv).2.invalidated
      = true :=
  ⟨by decide!, by decide!,
   pixmap_setSize_differing_reallocates resetPixmapBuffer ⟨200, 100⟩ idleEnv (by decide!),
   by decide!, by decide!⟩

/-- Claim C4, evaluated on the code. A hardware buffer built at (100,100) with ratio 1,
live context and live paint device has its flag reset with `setInvalidated(false)`.
`setSize (200,100)` then reallocates (the new frame buffer object is 200x100) and
`setDevicePixelRatio 2` reallocates (the new one is 200x200), yet `invalidated()` is
still false after either call: `QCPPaintBufferGlFbo::reallocateBuffer` never sets the
flag, while `QCPPaintBufferPixmap::reallocateBuffer` sets it on the same calls. -/
theorem glFbo_reallocation_leaves_invalidated_false :
    ((QCPAbstractPaintBuffer.setSize
        (QCPAbstractPaintBuffer.setInvalidated (.glFbo scenarioGlBuffer) false)
        ⟨200, 100⟩ scenarioGlEnv).2.invalidated = false ∧
     (QCPAbstractPaintBuffer.setSize
        (QCPAbstractPaintBuffer.setInvalidated (.glFbo scenarioGlBuffer) false)
        ⟨200, 100⟩ scenarioGlEnv).2.storageSize = some ⟨200, 100⟩) ∧
    ((QCPAbstractPaintBuffer.setDevicePixelRatio
        (QCPAbstractPaintBuffer.setInvalidated (.glFbo scenarioGlBuffer) false)
        2 scenarioGlEnv).2.invalidated = false ∧
     (QCPAbstractPaintBuffer.setDevicePixelRatio
        (QCPAbstractPaintBuffer.setInvalidated (.glFbo scenarioGlBuffer) false)
        2 scenarioGlEnv).2.storageSize = some ⟨200, 200⟩) ∧
    (QCPAbstractPaintBuffer.setSize
        (QCPAbstractPaintBuffer.setInvalidated (.pixmap scenarioPixmapBuffer) false)
        ⟨200, 100⟩ idleEnv).2.invalidated = true := by
  decide!

/-- Claim C7. For a software buffer and a color `c`, after `clear c` every point
inside the storage extent reads `c` (and nothing is read outside it); the storage
extent and ratio, the base fields (size, ratio, layer name, invalidated flag) and the
environment are unchanged; `clear c` twice is `clear c` once, and `clear c1` followed
by `clear c2` is `clear c2`. -/
theorem pixmap_clear_fills_uniformly (b : QCPPaintBufferPixmap) (c c1 c2 : QColor) (e : Env) :
    (∀ px py : Int,
      (b.clear c e).2.mBuffer.pixel px py
        = if (⟨0, 0, b.mBuffer.size.wd, b.mBuffer.size.ht⟩ : QRect).contains px py then some c
          else none) ∧
    (b.clear c e).2.mBuffer.size = b.mBuffer.size ∧
    (b.clear c e).2.mBuffer.devicePixelRatio = b.mBuffer.devicePixelRatio ∧
    (b.clear c e).2.toQCPAbstractPaintBuffer = b.toQCPAbstractPaintBuffer ∧
    (b.clear c e).1 = e ∧
    (b.clear c e).2.clear c (b.clear c e).1 = b.clear c e ∧
    (b.clear c1 e).2.clear c2 (b.clear c1 e).1 = b.clear c2 e := by
  refine ⟨?_, rfl, rfl, rfl, rfl, rfl, rfl⟩
  intro px py
  simp [QCPPaintBufferPixmap.clear, QPixmap.fill, QPixmap.pixel, Content.pixelAt]

/-- Claim C8. When the painter handed over is null or answers `isActive()` with false,
`draw` of a buffer of either backend and `batch_draw` of the batch compositor on any
list of buffers return normally with the painter, the buffer and the compositor exactly
as they were, and with an environment that differs only by the diagnostic written: no
call is recorded (no readback, no `makeCurrent`, no bind), and current context and
binding are as before. -/
theorem draw_with_unusable_painter_is_noop (b : PaintBuffer) (helper : NeoQCPBatchDrawingHelper)
    (buffers : List PaintBuffer) (p : Option QCPPainter) (e : Env)
    (hp : p = none ∨ ∃ q : QCPPainter, p = some q ∧ q.isActive = false) :
    b.draw p e
      = .ok { env := { e with diagnostics := e.diagnostics ++ [.invalidPainter] },
              buffer := b, painter := p } ∧
    helper.batch_draw buffers p e
      = .ok { env := { e with diagnostics := e.diagnostics ++ [.invalidPainter] },
              helper := helper, painter := p } := by
  rcases hp with rfl | ⟨q, rfl, hq⟩
  · cases b <;>
      simp [PaintBuffer.draw, QCPPaintBufferPixmap.draw, QCPPaintBufferGlFbo.draw,
        NeoQCPBatchDrawingHelper.batch_draw, Env.diag, Except.map]
  · cases b <;>
      simp [PaintBuffer.draw, QCPPaintBufferPixmap.draw, QCPPaintBufferGlFbo.draw,
        NeoQCPBatchDrawingHelper.batch_draw, Env.diag, Except.map, hq]

/-- Witness for C8: the scenario hardware buffer, the scenario compositor, a list of
one hardware and one software buffer, and a painter that is not active. -/
theorem draw_with_unusable_painter_is_noop_witness :
    (some inactiveTarget = none ∨
      ∃ q : QCPPainter, some inactiveTarget = some q ∧ q.isActive = false) ∧
    (PaintBuffer.glFbo scenarioGlBuffer).draw (some inactiveTarget) scenarioGlEnv
      = .ok { env := { scenarioGlEnv with
                        diagnostics := scenarioGlEnv.diagnostics ++ [.invalidPainter] },
              buffer := .glFbo scenarioGlBuffer, painter := some inactiveTarget } ∧
    scenarioHelper.batch_draw [.glFbo scenarioGlBuffer, .pixmap scenarioPixmapBuffer]
        (some inactiveTarget) scenarioGlEnv
      = .ok { env := { scenarioGlEnv with
                        diagnostics := scenarioGlEnv.diagnostics ++ [.invalidPainter] },
              helper := scenarioHelper, painter := some inactiveTarget } :=
  ⟨Or.inr ⟨inactiveTarget, rfl, rfl⟩,
   draw_with_unusable_painter_is_noop (.glFbo scenarioGlBuffer) scenarioHelper
     [.glFbo scenarioGlBuffer, .pixmap scenarioPixmapBuffer] (some inactiveTarget)
     scenarioGlEnv (Or.inr ⟨inactiveTarget, rfl, rfl⟩)⟩

/-- Claim C9. For a software buffer, `startPainting` returns a handle (never null) whose
device is the buffer's pixmap and changes neither buffer nor environment. After any
list of commands painted through that handle and `donePainting`, `draw` on an active
target appends exactly one `drawPixmap` at offset (0,0) to the target, and the pixmap
drawn is the storage carrying the painted content; `draw` returns the buffer and the
environment as they were. -/
theorem pixmap_round_trip (b : QCPPaintBufferPixmap) (cmds : List PaintCmd)
    (target : QCPPainter) (e : Env) (ht : target.isActive = true) :
    ∃ handle : QCPPainter,
      b.startPainting e = (e, b, some handle) ∧
      handle.device = .bufferPixmap ∧
      ((b.paintThrough handle cmds).donePainting e).2.draw (some target)
          ((b.paintThrough handle cmds).donePainting e).1
        = { env := e,
            buffer := b.paintThrough handle cmds,
            painter := some { target with
              ops := target.ops ++
                [.drawPixmap 0 0
                  { size := b.mBuffer.size, devicePixelRatio := b.mBuffer.devicePixelRatio,
                    content := b.mBuffer.content.paint cmds }] } } := by
  refine ⟨QCPPainter.onDevice .bufferPixmap, rfl, rfl, ?_⟩
  simp [QCPPaintBufferPixmap.paintThrough, QCPPaintBufferPixmap.donePainting,
    QCPPaintBufferPixmap.draw, QCPPainter.onDevice, ht, QCPPainter.drawPixmap]

/-- Witness for C9: the scenario buffer cleared to red, two squares painted through
the handle, drawn on an active target. -/
theorem pixmap_round_trip_witness :
    activeTarget.isActive = true ∧
    ∃ handle : QCPPainter,
      (scenarioPixmapBuffer.clear opaqueRed idleEnv).2.startPainting idleEnv
        = (idleEnv, (scenarioPixmapBuffer.clear opaqueRed idleEnv).2, some handle) ∧
      handle.device = .bufferPixmap ∧
      ((((scenarioPixmapBuffer.clear opaqueRed idleEnv).2.paintThrough handle
            twoSquares).donePainting idleEnv).2.draw (some activeTarget)
          ((((scenarioPixmapBuffer.clear opaqueRed idleEnv).2.paintThrough handle
            twoSquares).donePainting idleEnv).1)
        = { env := idleEnv,
            buffer := (scenarioPixmapBuffer.clear opaqueRed idleEnv).2.paintThrough handle
              twoSquares,
            painter := some { activeTarget with
              ops := activeTarget.ops ++
                [.drawPixmap 0 0
                  { size := (scenarioPixmapBuffer.clear opaqueRed idleEnv).2.mBuffer.size,
                    devicePixelRatio :=
                      (scenarioPixmapBuffer.clear opaqueRed idleEnv).2.mBuffer.devicePixelRatio,
                    content :=
                      (scenarioPixmapBuffer.clear opaqueRed idleEnv).2.mBuffer.content.paint
                        twoSquares }] } }) :=
  ⟨rfl, pixmap_round_trip (scenarioPixmapBuffer.clear opaqueRed idleEnv).2 twoSquares
    activeTarget idleEnv rfl⟩

/-! ## The hardware backend: startPainting -/

/-- Claim C10. For a hardware buffer in any environment, `startPainting` returns null
exactly when the paint device reference resolves to nothing, or the context reference
resolves to nothing, or no frame buffer object is allocated. The buffer is returned
as it was in every case, and when the result is null no call is recorded (no
`makeCurrent`, no bind) and current context and binding are as before. -/
theorem glFbo_startPainting_null_iff (b : QCPPaintBufferGlFbo) (e : Env) :
    ((b.startPainting e).2.2 = none ↔
      (b.mGlPaintDevice = none ∨ b.mGlContext = none ∨ b.mGlFrameBuffer = none)) ∧
    (b.startPainting e).2.1 = b ∧
    ((b.startPainting e).2.2 = none →
      (b.startPainting e).1.calls = e.calls ∧
      (b.startPainting e).1.currentContext = e.currentContext ∧
      (b.startPainting e).1.boundFbo = e.boundFbo ∧
      (b.startPainting e).1.nextFboId = e.nextFboId) := by
  unfold QCPPaintBufferGlFbo.startPainting
  cases b.mGlPaintDevice <;> cases b.mGlContext <;> cases b.mGlFrameBuffer <;>
    simp [Env.diag]

/-- Witness for C10: the scenario hardware buffer whose context was destroyed. Its
`startPainting` returns null and leaves calls, current context and binding alone. -/
theorem glFbo_startPainting_null_iff_witness :
    (orphanedGlBuffer.startPainting scenarioGlEnv).2.2 = none ∧
    (orphanedGlBuffer.startPainting scenarioGlEnv).1.calls = scenarioGlEnv.calls ∧
    (orphanedGlBuffer.startPainting scenarioGlEnv).1.currentContext
      = scenarioGlEnv.currentContext ∧
    (orphanedGlBuffer.startPainting scenarioGlEnv).1.boundFbo = scenarioGlEnv.boundFbo ∧
    (orphanedGlBuffer.startPainting scenarioGlEnv).1.nextFboId = scenarioGlEnv.nextFboId :=
  have hnull : (orphanedGlBuffer.startPainting scenarioGlEnv).2.2 = none := by decide!
  ⟨hnull, (glFbo_startPainting_null_iff orphanedGlBuffer scenarioGlEnv).2.2 hnull⟩

/-! ## The hardware backend: bound state -/

/-- In a consistent environment a hardware buffer is Unbound after `reallocateBuffer`,
whatever it was before: the old object is released, the new one has a fresh identity. -/
theorem glFbo_reallocate_unbound (b : QCPPaintBufferGlFbo) (e : Env) (he : e.consistent) :
    (b.reallocateBuffer e).2.isBound (b.reallocateBuffer e).1 = false := by
  obtain ⟨base, ctx, dev, fbo⟩ := b
  obtain ⟨cur, bound, next, ok, calls, diags⟩ := e
  unfold Env.consistent at he
  cases fbo <;> cases dev <;> cases ctx <;> cases bound <;>
    simp_all [QCPPaintBufferGlFbo.reallocateBuffer, QCPPaintBufferGlFbo.isBound,
      QOpenGLFramebufferObject.isBound, QOpenGLFramebufferObject.create,
      QOpenGLContext.makeCurrent, QOpenGLFramebufferObject.delete,
      QOpenGLFramebufferObject.release, Env.diag]
  all_goals first
    | omega
    | (split_ifs <;> simp; omega)

/-- A `draw` of a hardware buffer that returns leaves the binding of the environment
and the buffer as they were. -/
theorem glFbo_draw_keeps_binding (b : QCPPaintBufferGlFbo) (painter : Option QCPPainter)
    (e : Env) (r : Drawn QCPPaintBufferGlFbo) (h : b.draw painter e = .ok r) :
    r.buffer = b ∧ r.env.boundFbo = e.boundFbo := by
  unfold QCPPaintBufferGlFbo.draw at h
  cases painter with
  | none => simp [Env.diag] at h; subst h; exact ⟨rfl, rfl⟩
  | some p =>
    cases hp : p.isActive
    · simp [hp, Env.diag] at h; subst h; exact ⟨rfl, rfl⟩
    · cases hf : b.mGlFrameBuffer with
      | none => simp [hp, hf, Env.diag] at h; subst h; exact ⟨rfl, rfl⟩
      | some fbo =>
        simp only [hp, hf, Bool.not_true, Bool.false_eq_true, if_false] at h
        cases h1 : ensureCurrentUnchecked b.mGlContext e with
        | error f => simp [h1, bind, Except.bind] at h
        | ok e1 =>
          cases h2 : targetExtent fbo.size.wd b.mDevicePixelRatio with
          | error f => simp [h1, h2, bind, Except.bind] at h
          | ok tw =>
            cases h3 : targetExtent fbo.size.ht b.mDevicePixelRatio with
            | error f => simp [h1, h2, h3, bind, Except.bind] at h
            | ok th =>
              simp [h1, h2, h3, bind, Except.bind, pure, Except.pure] at h
              subst h
              refine ⟨rfl, ?_⟩
              have hb : e1.boundFbo = e.boundFbo := by
                unfold ensureCurrentUnchecked at h1
                cases hc : b.mGlContext with
                | none =>
                  simp only [hc] at h1
                  split_ifs at h1
                  simp at h1; rw [← h1]
                | some c =>
                  simp [hc, QOpenGLContext.ensureCurrent] at h1
                  rw [← h1]; split_ifs <;> simp [QOpenGLContext.makeCurrent]
              simp [QOpenGLFramebufferObject.toImage, Env.call, hb]

/-- Claim C11 as stated fails. The hardware buffer built while OpenGL could not create
its frame buffer object is Unbound and has live context, live paint device and an
allocated frame buffer object; its `startPainting` returns a handle, yet the buffer is
not Bound afterwards, because an invalid frame buffer object cannot be bound. -/
theorem glFbo_startPainting_invalid_fbo_not_bound :
    invalidFboGlBuffer.isBound invalidFboGlEnv = false ∧
    invalidFboGlBuffer.mGlContext = some sharedContext ∧
    invalidFboGlBuffer.mGlPaintDevice = some sharedDevice ∧
    invalidFboGlBuffer.mGlFrameBuffer.isSome = true ∧
    (invalidFboGlBuffer.startPainting invalidFboGlEnv).2.2
      = some (QCPPainter.onDevice (.glPaintDevice sharedDevice)) ∧
    (invalidFboGlBuffer.startPainting invalidFboGlEnv).2.1.isBound
        (invalidFboGlBuffer.startPainting invalidFboGlEnv).1 = false := by
  decide!

/-- Claim C11 as amended. For a hardware buffer that is Unbound, with live context,
live paint device and an allocated frame buffer object that is valid, in a consistent
environment: `startPainting` returns a handle on the shared paint device and leaves the
buffer Bound, and the `donePainting` that follows leaves it Unbound. Started on that
Unbound buffer, no `draw` that returns, no `clear`, no `setSize` and no
`setDevicePixelRatio` ends with the buffer Bound. -/
theorem glFbo_bound_state_machine (b : QCPPaintBufferGlFbo) (context : QOpenGLContext)
    (device : QOpenGLPaintDevice) (fbo : QOpenGLFramebufferObject) (e : Env)
    (painter : Option QCPPainter) (color : QColor) (size : QSize) (ratio : ℚ)
    (hc : b.mGlContext = some context) (hd : b.mGlPaintDevice = some device)
    (hf : b.mGlFrameBuffer = some fbo) (hv : fbo.valid = true)
    (hu : b.isBound e = false) (he : e.consistent) :
    (b.startPainting e).2.2 = some (QCPPainter.onDevice (.glPaintDevice device)) ∧
    (b.startPainting e).2.1.isBound (b.startPainting e).1 = true ∧
    ((b.startPainting e).2.1.donePainting (b.startPainting e).1).2.isBound
        ((b.startPainting e).2.1.donePainting (b.startPainting e).1).1 = false ∧
    (∀ r : Drawn QCPPaintBufferGlFbo, b.draw painter e = .ok r →
      r.buffer.isBound r.env = false) ∧
    (b.clear color e).2.isBound (b.clear color e).1 = false ∧
    (QCPAbstractPaintBuffer.setSize (.glFbo b) size e).2.isBound
        (QCPAbstractPaintBuffer.setSize (.glFbo b) size e).1 = false ∧
    (QCPAbstractPaintBuffer.setDevicePixelRatio (.glFbo b) ratio e).2.isBound
        (QCPAbstractPaintBuffer.setDevicePixelRatio (.glFbo b) ratio e).1 = false := by
  refine ⟨?_, ?_, ?_, ?_, ?_, ?_, ?_⟩
  · simp [QCPPaintBufferGlFbo.startPainting, hc, hd, hf]
  · simp [QCPPaintBufferGlFbo.startPainting, hc, hd, hf, QCPPaintBufferGlFbo.isBound,
      QOpenGLFramebufferObject.bind, hv, QOpenGLFramebufferObject.isBound]
  · simp [QCPPaintBufferGlFbo.startPainting, hc, hd, hf, QCPPaintBufferGlFbo.isBound,
      QOpenGLFramebufferObject.bind, hv, QOpenGLFramebufferObject.isBound,
      QCPPaintBufferGlFbo.donePainting, QOpenGLFramebufferObject.release]
  · intro r hr
    obtain ⟨h1, h2⟩ := glFbo_draw_keeps_binding b painter e r hr
    rw [h1]
    simpa [QCPPaintBufferGlFbo.isBound, hf, QOpenGLFramebufferObject.isBound, h2] using hu
  · simp [QCPPaintBufferGlFbo.clear, hc, hf, QCPPaintBufferGlFbo.isBound,
      QOpenGLFramebufferObject.release, QOpenGLFramebufferObject.isBound,
      QOpenGLFramebufferObject.cleared]
  · unfold QCPAbstractPaintBuffer.setSize
    split_ifs
    · exact glFbo_reallocate_unbound _ e he
    · exact hu
  · unfold QCPAbstractPaintBuffer.setDevicePixelRatio
    split_ifs
    · exact glFbo_reallocate_unbound _ e he
    · exact hu

/-- Witness for C11 as amended: the scenario hardware buffer right after construction,
drawn on an active target, cleared to red, resized to (200,100) and rescaled to 2. -/
theorem glFbo_bound_state_machine_witness :
    scenarioGlBuffer.mGlContext = some sharedContext ∧
    scenarioGlBuffer.mGlPaintDevice = some sharedDevice ∧
    scenarioGlBuffer.mGlFrameBuffer = some scenarioFbo ∧
    scenarioFbo.valid = true ∧
    scenarioGlBuffer.isBound scenarioGlEnv = false ∧
    scenarioGlEnv.consistent ∧
    ((scenarioGlBuffer.startPainting scenarioGlEnv).2.2
        = some (QCPPainter.onDevice (.glPaintDevice sharedDevice)) ∧
      (scenarioGlBuffer.startPainting scenarioGlEnv).2.1.isBound
          (scenarioGlBuffer.startPainting scenarioGlEnv).1 = true ∧
      ((scenarioGlBuffer.startPainting scenarioGlEnv).2.1.donePainting
          (scenarioGlBuffer.startPainting scenarioGlEnv).1).2.isBound
          ((scenarioGlBuffer.startPainting scenarioGlEnv).2.1.donePainting
            (scenarioGlBuffer.startPainting scenarioGlEnv).1).1 = false ∧
      (∀ r : Drawn QCPPaintBufferGlFbo,
        scenarioGlBuffer.draw (some activeTarget) scenarioGlEnv = .ok r →
        r.buffer.isBound r.env = false) ∧
      (scenarioGlBuffer.clear opaqueRed scenarioGlEnv).2.isBound
          (scenarioGlBuffer.clear opaqueRed scenarioGlEnv).1 = false ∧
      (QCPAbstractPaintBuffer.setSize (.glFbo scenarioGlBuffer) ⟨200, 100⟩
          scenarioGlEnv).2.isBound
          (QCPAbstractPaintBuffer.setSize (.glFbo scenarioGlBuffer) ⟨200, 100⟩
            scenarioGlEnv).1 = false ∧
      (QCPAbstractPaintBuffer.setDevicePixelRatio (.glFbo scenarioGlBuffer) 2
          scenarioGlEnv).2.isBound
          (QCPAbstractPaintBuffer.setDevicePixelRatio (.glFbo scenarioGlBuffer) 2
            scenarioGlEnv).1 = false) :=
  ⟨by decide!, by decide!, by decide!, by decide!, by decide!, by decide!,
   glFbo_bound_state_machine scenarioGlBuffer sharedContext sharedDevice scenarioFbo
     scenarioGlEnv (some activeTarget) opaqueRed ⟨200, 100⟩ 2
     (by decide!) (by decide!) (by decide!) (by decide!) (by decide!) (by decide!)⟩

/-- Claim C12. For a hardware buffer that is Unbound (which includes one without a
frame buffer object), `donePainting` returns the buffer as it was and an environment
that differs only by the diagnostic written: no call, current context and binding as
before. Hence `donePainting` twice leaves the same buffer and, diagnostics apart, the
same environment as `donePainting` once; this holds from every state, Bound included.
For a software buffer `donePainting` is the inherited empty body: nothing changes. -/
theorem donePainting_unbound_changes_nothing (b : QCPPaintBufferGlFbo) (e : Env)
    (g : QCPPaintBufferGlFbo) (eg : Env) (soft : QCPPaintBufferPixmap)
    (hu : b.isBound e = false) :
    b.donePainting e = ({ e with diagnostics := e.diagnostics ++ [.notBound] }, b) ∧
    ((b.donePainting e).2.donePainting (b.donePainting e).1).2 = (b.donePainting e).2 ∧
    ((b.donePainting e).2.donePainting (b.donePainting e).1).1.withoutDiagnostics
      = (b.donePainting e).1.withoutDiagnostics ∧
    ((g.donePainting eg).2.donePainting (g.donePainting eg).1).2 = (g.donePainting eg).2 ∧
    ((g.donePainting eg).2.donePainting (g.donePainting eg).1).1.withoutDiagnostics
      = (g.donePainting eg).1.withoutDiagnostics ∧
    soft.donePainting e = (e, soft) := by
  have hfirst : b.donePainting e
      = ({ e with diagnostics := e.diagnostics ++ [.notBound] }, b) := by
    unfold QCPPaintBufferGlFbo.donePainting
    unfold QCPPaintBufferGlFbo.isBound at hu
    cases hf : b.mGlFrameBuffer with
    | none => simp [Env.diag]
    | some fbo =>
      rw [hf] at hu
      simp only at hu
      simp [hu, Env.diag]
  have hidem : ∀ (x : QCPPaintBufferGlFbo) (ex : Env),
      ((x.donePainting ex).2.donePainting (x.donePainting ex).1).2 = (x.donePainting ex).2 ∧
      ((x.donePainting ex).2.donePainting (x.donePainting ex).1).1.withoutDiagnostics
        = (x.donePainting ex).1.withoutDiagnostics := by
    intro x ex
    cases hf : x.mGlFrameBuffer with
    | none =>
      have h1 : ∀ env : Env, x.donePainting env = (env.diag .notBound, x) := by
        intro env
        simp [QCPPaintBufferGlFbo.donePainting, hf]
      rw [h1 ex, h1 (ex.diag .notBound)]
      simp [Env.diag, Env.withoutDiagnostics]
    | some fbo =>
      cases hb : fbo.isBound ex
      · have hb2 : fbo.isBound (ex.diag .notBound) = false := by
          simpa [QOpenGLFramebufferObject.isBound, Env.diag] using hb
        have h1 : x.donePainting ex = (ex.diag .notBound, x) := by
          simp [QCPPaintBufferGlFbo.donePainting, hf, hb]
        have h2 : x.donePainting (ex.diag .notBound)
            = ((ex.diag .notBound).diag .notBound, x) := by
          simp [QCPPaintBufferGlFbo.donePainting, hf, hb2]
        rw [h1, h2]
        simp [Env.diag, Env.withoutDiagnostics]
      · have hb2 : fbo.isBound (fbo.release ex) = false := by
          simp [QOpenGLFramebufferObject.isBound, QOpenGLFramebufferObject.release]
        have h1 : x.donePainting ex = (fbo.release ex, x) := by
          simp [QCPPaintBufferGlFbo.donePainting, hf, hb]
        have h2 : x.donePainting (fbo.release ex) = ((fbo.release ex).diag .notBound, x) := by
          simp [QCPPaintBufferGlFbo.donePainting, hf, hb2]
        rw [h1, h2]
        simp [Env.diag, Env.withoutDiagnostics]
  exact ⟨hfirst, (hidem b e).1, (hidem b e).2, (hidem g eg).1, (hidem g eg).2, rfl⟩

/-- Witness for C12: the scenario hardware buffer, Unbound after construction; the same
buffer right after `startPainting`, hence Bound; and the scenario software buffer. -/
theorem donePainting_unbound_changes_nothing_witness :
    scenarioGlBuffer.isBound scenarioGlEnv = false ∧
    (scenarioGlBuffer.startPainting scenarioGlEnv).2.1.isBound
      (scenarioGlBuffer.startPainting scenarioGlEnv).1 = true ∧
    (scenarioGlBuffer.donePainting scenarioGlEnv
        = ({ scenarioGlEnv with diagnostics := scenarioGlEnv.diagnostics ++ [.notBound] },
           scenarioGlBuffer) ∧
      ((scenarioGlBuffer.donePainting scenarioGlEnv).2.donePainting
          (scenarioGlBuffer.donePainting scenarioGlEnv).1).2
        = (scenarioGlBuffer.donePainting scenarioGlEnv).2 ∧
      ((scenarioGlBuffer.donePainting scenarioGlEnv).2.donePainting
          (scenarioGlBuffer.donePainting scenarioGlEnv).1).1.withoutDiagnostics
        = (scenarioGlBuffer.donePainting scenarioGlEnv).1.withoutDiagnostics ∧
      (((scenarioGlBuffer.startPainting scenarioGlEnv).2.1.donePainting
            (scenarioGlBuffer.startPainting scenarioGlEnv).1).2.donePainting
          ((scenarioGlBuffer.startPainting scenarioGlEnv).2.1.donePainting
            (scenarioGlBuffer.startPainting scenarioGlEnv).1).1).2
        = ((scenarioGlBuffer.startPainting scenarioGlEnv).2.1.donePainting
            (scenarioGlBuffer.startPainting scenarioGlEnv).1).2 ∧
      (((scenarioGlBuffer.startPainting scenarioGlEnv).2.1.donePainting
            (scenarioGlBuffer.startPainting scenarioGlEnv).1).2.donePainting
          ((scenarioGlBuffer.startPainting scenarioGlEnv).2.1.donePainting
            (scenarioGlBuffer.startPainting scenarioGlEnv).1).1).1.withoutDiagnostics
        = ((scenarioGlBuffer.startPainting scenarioGlEnv).2.1.donePainting
            (scenarioGlBuffer.startPainting scenarioGlEnv).1).1.withoutDiagnostics ∧
      scenarioPixmapBuffer.donePainting scenarioGlEnv = (scenarioGlEnv, scenarioPixmapBuffer)) :=
  ⟨by decide!, by decide!,
   donePainting_unbound_changes_nothing scenarioGlBuffer scenarioGlEnv
     (scenarioGlBuffer.startPainting scenarioGlEnv).2.1
     (scenarioGlBuffer.startPainting scenarioGlEnv).1 scenarioPixmapBuffer (by decide!)⟩

/-! ## The hardware backend: clear -/

/-- Claim C13 as stated fails. The hardware buffer built while OpenGL could not create
its frame buffer object has a live context and an allocated frame buffer object; after
`clear` with opaque red the content of that object is still undefined, not red, since
the invalid object could not be bound for the clear. -/
theorem glFbo_clear_invalid_fbo_not_cleared :
    invalidFboGlBuffer.mGlContext = some sharedContext ∧
    invalidFboGlBuffer.mGlFrameBuffer.isSome = true ∧
    (invalidFboGlBuffer.clear opaqueRed invalidFboGlEnv).2.mGlFrameBuffer.map
        (fun f => f.content) = some .undefined ∧
    (invalidFboGlBuffer.clear opaqueRed invalidFboGlEnv).2.mGlFrameBuffer.map
        (fun f => f.content) ≠ some (.uniform opaqueRed) := by
  decide!

/-- Claim C13 as amended. For a hardware buffer `b` with live context and an allocated
frame buffer object that is valid, `clear c` changes nothing of the buffer but the
content of that object, which becomes `c` at every point, and leaves the buffer Unbound
whatever its binding was before. For a hardware buffer `g` whose context is gone or
which has no frame buffer object, `clear c` returns the buffer as it was and an
environment that differs only by the diagnostic. In both cases the paint device
reference plays no part: with any other reference the outcome is the same. -/
theorem glFbo_clear_fills_and_unbinds (b : QCPPaintBufferGlFbo) (context : QOpenGLContext)
    (fbo : QOpenGLFramebufferObject) (g : QCPPaintBufferGlFbo)
    (device : Option QOpenGLPaintDevice) (color : QColor) (e : Env)
    (hc : b.mGlContext = some context) (hf : b.mGlFrameBuffer = some fbo)
    (hv : fbo.valid = true) (hg : g.mGlContext = none ∨ g.mGlFrameBuffer = none) :
    (b.clear color e).2
      = { b with mGlFrameBuffer := some { fbo with content := .uniform color } } ∧
    (∀ px py : Int,
      (b.clear color e).2.mGlFrameBuffer.map (fun f => f.content.pixelAt px py)
        = some (some color)) ∧
    (b.clear color e).2.isBound (b.clear color e).1 = false ∧
    (g.clear color e).2 = g ∧
    (g.clear color e).1.withoutDiagnostics = e.withoutDiagnostics ∧
    ({ b with mGlPaintDevice := device } : QCPPaintBufferGlFbo).clear color e
      = ((b.clear color e).1, { (b.clear color e).2 with mGlPaintDevice := device }) ∧
    ({ g with mGlPaintDevice := device } : QCPPaintBufferGlFbo).clear color e
      = ((g.clear color e).1, { (g.clear color e).2 with mGlPaintDevice := device }) := by
  have hb : (b.clear color e).2
      = { b with mGlFrameBuffer := some { fbo with content := .uniform color } } := by
    simp [QCPPaintBufferGlFbo.clear, hc, hf, QOpenGLFramebufferObject.cleared,
      QOpenGLFramebufferObject.bind, hv, QOpenGLFramebufferObject.isBound]
  refine ⟨hb, ?_, ?_, ?_, ?_, ?_, ?_⟩
  · intro px py
    rw [hb]
    simp [Content.pixelAt]
  · simp [QCPPaintBufferGlFbo.clear, hc, hf, QCPPaintBufferGlFbo.isBound,
      QOpenGLFramebufferObject.release, QOpenGLFramebufferObject.isBound,
      QOpenGLFramebufferObject.cleared]
  · unfold QCPPaintBufferGlFbo.clear
    rcases hg with h | h
    · simp [h]
    · cases g.mGlContext <;> simp [h]
  · unfold QCPPaintBufferGlFbo.clear
    rcases hg with h | h
    · simp [h, Env.diag, Env.withoutDiagnostics]
    · cases g.mGlContext <;> simp [h, Env.diag, Env.withoutDiagnostics]
  · simp [QCPPaintBufferGlFbo.clear, hc, hf]
  · obtain ⟨base, ctx, dev, fb⟩ := g
    cases ctx <;> cases fb <;> simp [QCPPaintBufferGlFbo.clear]

/-- Witness for C13 as amended: the scenario hardware buffer cleared to red, the same
buffer after its context was destroyed, and a paint device reference that resolves to
nothing. -/
theorem glFbo_clear_fills_and_unbinds_witness :
    scenarioGlBuffer.mGlContext = some sharedContext ∧
    scenarioGlBuffer.mGlFrameBuffer = some scenarioFbo ∧
    scenarioFbo.valid = true ∧
    (orphanedGlBuffer.mGlContext = none ∨ orphanedGlBuffer.mGlFrameBuffer = none) ∧
    ((scenarioGlBuffer.clear opaqueRed scenarioGlEnv).2
        = { scenarioGlBuffer with
            mGlFrameBuffer := some { scenarioFbo with content := .uniform opaqueRed } } ∧
      (∀ px py : Int,
        (scenarioGlBuffer.clear opaqueRed scenarioGlEnv).2.mGlFrameBuffer.map
            (fun f => f.content.pixelAt px py)
          = some (some opaqueRed)) ∧
      (scenarioGlBuffer.clear opaqueRed scenarioGlEnv).2.isBound
          (scenarioGlBuffer.clear opaqueRed scenarioGlEnv).1 = false ∧
      (orphanedGlBuffer.clear opaqueRed scenarioGlEnv).2 = orphanedGlBuffer ∧
      (orphanedGlBuffer.clear opaqueRed scenarioGlEnv).1.withoutDiagnostics
        = scenarioGlEnv.withoutDiagnostics ∧
      ({ scenarioGlBuffer with mGlPaintDevice := none } : QCPPaintBufferGlFbo).clear opaqueRed
          scenarioGlEnv
        = ((scenarioGlBuffer.clear opaqueRed scenarioGlEnv).1,
           { (scenarioGlBuffer.clear opaqueRed scenarioGlEnv).2 with mGlPaintDevice := none }) ∧
      ({ orphanedGlBuffer with mGlPaintDevice := none } : QCPPaintBufferGlFbo).clear opaqueRed
          scenarioGlEnv
        = ((orphanedGlBuffer.clear opaqueRed scenarioGlEnv).1,
           { (orphanedGlBuffer.clear opaqueRed scenarioGlEnv).2 with mGlPaintDevice := none })) :=
  ⟨by decide!, by decide!, by decide!, by decide!,
   glFbo_clear_fills_and_unbinds scenarioGlBuffer sharedContext scenarioFbo orphanedGlBuffer
     none opaqueRed scenarioGlEnv (by decide!) (by decide!) (by decide!) (by decide!)⟩

/-! ## The hardware backend: setters and draw without the external resources -/

/-- Claim C14 as stated fails. The scenario hardware buffer, size (100,100) with a
100x100 frame buffer object, has lost its context. `setSize (200,100)` does not leave
it as it was: `size()` is (200,100) afterwards and the frame buffer object is gone. -/
theorem glFbo_setSize_without_context_changes_state :
    (PaintBuffer.glFbo orphanedGlBuffer).size = ⟨100, 100⟩ ∧
    (PaintBuffer.glFbo orphanedGlBuffer).storageSize = some ⟨100, 100⟩ ∧
    orphanedGlBuffer.mGlContext = none ∧
    (QCPAbstractPaintBuffer.setSize (.glFbo orphanedGlBuffer) ⟨200, 100⟩ scenarioGlEnv).2.size
      = ⟨200, 100⟩ ∧
    (QCPAbstractPaintBuffer.setSize (.glFbo orphanedGlBuffer) ⟨200, 100⟩
        scenarioGlEnv).2.storageSize = none ∧
    (QCPAbstractPaintBuffer.setSize (.glFbo orphanedGlBuffer) ⟨200, 100⟩ scenarioGlEnv).2
      ≠ .glFbo orphanedGlBuffer := by
  decide!

/-- Claim C14 as amended. For a hardware buffer whose context or paint device reference
resolves to nothing: `setSize` with a differing size stores the new size, and
`setDevicePixelRatio` with a ratio that fails the tolerance test stores the new ratio;
either call releases and deletes the frame buffer object the buffer had and allocates
no new one. Everything else of the buffer, the invalidated flag included, is as
before, and the environment differs from the one after that release and deletion only
by the diagnostic. -/
theorem glFbo_setters_without_resource (b : QCPPaintBufferGlFbo) (size : QSize) (ratio : ℚ)
    (e : Env) (hm : b.mGlContext = none ∨ b.mGlPaintDevice = none) (hs : size ≠ b.mSize)
    (hr : qFuzzyCompare ratio b.mDevicePixelRatio = false) :
    (QCPAbstractPaintBuffer.setSize (.glFbo b) size e).2
      = .glFbo { b with mSize := size, mGlFrameBuffer := none } ∧
    (QCPAbstractPaintBuffer.setSize (.glFbo b) size e).1.withoutDiagnostics
      = (releaseAndDelete b.mGlFrameBuffer e).withoutDiagnostics ∧
    (QCPAbstractPaintBuffer.setDevicePixelRatio (.glFbo b) ratio e).2
      = .glFbo { b with mDevicePixelRatio := ratio, mGlFrameBuffer := none } ∧
    (QCPAbstractPaintBuffer.setDevicePixelRatio (.glFbo b) ratio e).1.withoutDiagnostics
      = (releaseAndDelete b.mGlFrameBuffer e).withoutDiagnostics := by
  have hne : b.mSize ≠ size := fun hh => hs hh.symm
  obtain ⟨base, ctx, dev, fbo⟩ := b
  simp only at hm hne hr
  cases fbo <;> cases dev <;> cases ctx <;>
    simp_all [QCPAbstractPaintBuffer.setSize, QCPAbstractPaintBuffer.setDevicePixelRatio,
      PaintBuffer.size, PaintBuffer.devicePixelRatio, PaintBuffer.base,
      PaintBuffer.assignSize, PaintBuffer.assignDevicePixelRatio,
      PaintBuffer.reallocateBuffer, QCPPaintBufferGlFbo.reallocateBuffer, releaseAndDelete,
      Env.diag, Env.withoutDiagnostics]

/-- Witness for C14 as amended: the scenario hardware buffer after its context was
destroyed, resized to (200,100) and rescaled to 2. -/
theorem glFbo_setters_without_resource_witness :
    (orphanedGlBuffer.mGlContext = none ∨ orphanedGlBuffer.mGlPaintDevice = none) ∧
    (⟨200, 100⟩ : QSize) ≠ orphanedGlBuffer.mSize ∧
    qFuzzyCompare 2 orphanedGlBuffer.mDevicePixelRatio = false ∧
    ((QCPAbstractPaintBuffer.setSize (.glFbo orphanedGlBuffer) ⟨200, 100⟩ scenarioGlEnv).2
        = .glFbo { orphanedGlBuffer with mSize := ⟨200, 100⟩, mGlFrameBuffer := none } ∧
      (QCPAbstractPaintBuffer.setSize (.glFbo orphanedGlBuffer) ⟨200, 100⟩
          scenarioGlEnv).1.withoutDiagnostics
        = (releaseAndDelete orphanedGlBuffer.mGlFrameBuffer scenarioGlEnv).withoutDiagnostics ∧
      (QCPAbstractPaintBuffer.setDevicePixelRatio (.glFbo orphanedGlBuffer) 2 scenarioGlEnv).2
        = .glFbo { orphanedGlBuffer with mDevicePixelRatio := 2, mGlFrameBuffer := none } ∧
      (QCPAbstractPaintBuffer.setDevicePixelRatio (.glFbo orphanedGlBuffer) 2
          scenarioGlEnv).1.withoutDiagnostics
        = (releaseAndDelete orphanedGlBuffer.mGlFrameBuffer scenarioGlEnv).withoutDiagnostics) :=
  ⟨by decide!, by decide!, by decide!,
   glFbo_setters_without_resource orphanedGlBuffer ⟨200, 100⟩ 2 scenarioGlEnv
     (by decide!) (by decide!) (by decide!)⟩

/-- Claim C15, evaluated on the code. The scenario hardware buffer has its frame buffer
object but its context reference resolves to nothing. With the context of another
widget current, `draw` on an active painter dereferences the null context: the result
is a fault, not a soft failure. With no context current, `draw` does not fault but
goes on to read the frame buffer back and issues one `drawImage` on the target. The
batch compositor whose context is gone faults in the same way on a list of two
buffers. -/
theorem draw_with_destroyed_context_faults :
    orphanedGlBuffer.mGlFrameBuffer.isSome = true ∧
    orphanedGlBuffer.mGlContext = none ∧
    (PaintBuffer.glFbo orphanedGlBuffer).draw (some activeTarget) otherContextEnv
      = .error .nullDereference ∧
    ((PaintBuffer.glFbo orphanedGlBuffer).draw (some activeTarget) noContextEnv).toOption.map
        (fun r => r.painter.map fun p => p.ops.length) = some (some 1) ∧
    orphanedHelper.mGlContext = none ∧
    orphanedHelper.batch_draw [.glFbo scenarioGlBuffer, .glFbo scenarioGlBuffer]
        (some activeTarget) otherContextEnv
      = .error .nullDereference := by
  decide!

/-! ## Batch drawing of a single buffer -/

/-- Claim C16 as stated fails for `QCPPaintBufferGlFbo::batch_draw` of
`src/paintbuffer.cpp`. It is invoked on the red buffer (at address 1) with an active
painter and a list holding only the blue buffer (at address 2). The blue buffer's own
`draw` makes one readback and draws its content. `batch_draw` instead runs the batching
steps (it creates and binds a destination, clears it, creates a resolve object, blits
and draws a quad) and draws a different image, the blend of blue over transparent. When
the only buffer is a software buffer at another address, `batch_draw` ends in the
undefined cast, while that buffer's own `draw` draws its pixmap. -/
theorem batch_draw_cpp_single_other_buffer_batches :
    ((PaintBuffer.glFbo blueGlBuffer).draw (some activeTarget) batchEnv).toOption.map
        (fun r => r.env.calls.drop batchEnv.calls.length)
      = some [.fboToImage 1] ∧
    (redGlBufferCpp.batch_draw 1 [⟨2, .glFbo blueGlBuffer⟩] (some activeTarget)
        batchEnv).toOption.map (fun r => r.env.calls.drop batchEnv.calls.length)
      = some [.fboCreate 4 ⟨100, 100⟩ 0 .CombinedDepthStencil, .fboBind 4, .glPushAttrib,
          .glPushMatrix true, .glPushMatrix false, .glBlendSetup, .glClear transparent false,
          .fboCreate 5 ⟨100, 100⟩ 0 .CombinedDepthStencil, .blitFramebuffer 5 1, .fboBind 4,
          .drawQuad 5, .glPopMatrix true, .glPopMatrix false, .glPopAttrib, .fboDelete 5,
          .fboToImage 4, .fboRelease 4, .fboDelete 4] ∧
    (redGlBufferCpp.batch_draw 1 [⟨2, .glFbo blueGlBuffer⟩] (some activeTarget)
        batchEnv).toOption.map (fun r => r.painter)
      ≠ ((PaintBuffer.glFbo blueGlBuffer).draw (some activeTarget) batchEnv).toOption.map
          (fun r => r.painter) ∧
    redGlBufferCpp.batch_draw 1 [⟨2, .pixmap scenarioPixmapBuffer⟩] (some activeTarget) batchEnv
      = .error .invalidCast ∧
    ((PaintBuffer.pixmap scenarioPixmapBuffer).draw (some activeTarget) batchEnv).toOption.map
        (fun r => r.painter)
      = some (some (activeTarget.drawPixmap 0 0 scenarioPixmapBuffer.mBuffer)) := by
  decide!

/-- Claim C16 as amended. For an active target painter and a list holding exactly one
buffer `b` of either backend, `NeoQCPBatchDrawingHelper::batch_draw` gives the target
painter and the environment of `b.draw` (so no call beyond those of `draw`: no context
switch, bind, clear or blit by the compositor) and leaves the compositor as it was,
whether or not `b` has anything to do with the compositor. The member `batch_draw` of
`src/paintbuffer.cpp` does the same when the one pointer in the list is the address of
the object it is invoked on. -/
theorem batch_draw_single_buffer_is_draw (helper : NeoQCPBatchDrawingHelper) (b : PaintBuffer)
    (self : PaintBufferCpp.QCPPaintBufferGlFbo) (this : Nat) (p : QCPPainter) (e : Env)
    (hp : p.isActive = true) :
    helper.batch_draw [b] (some p) e
      = (b.draw (some p) e).map
          (fun r => { env := r.env, helper := helper, painter := r.painter }) ∧
    self.batch_draw this [⟨this, .glFbo self.toQCPPaintBufferGlFbo⟩] (some p) e
      = ((PaintBuffer.glFbo self.toQCPPaintBufferGlFbo).draw (some p) e).map
          (fun r => { env := r.env, self := self, painter := r.painter }) := by
  constructor
  · simp [NeoQCPBatchDrawingHelper.batch_draw, hp]
  · simp only [PaintBufferCpp.QCPPaintBufferGlFbo.batch_draw, hp, PaintBuffer.draw]
    cases self.toQCPPaintBufferGlFbo.draw (some p) e <;> simp [Except.map]

/-- Witness for C16 as amended: the compositor of the batch scene on the blue buffer
alone, and the member `batch_draw` invoked on the red buffer with the red buffer
alone. -/
theorem batch_draw_single_buffer_is_draw_witness :
    activeTarget.isActive = true ∧
    (batchHelper.batch_draw [.glFbo blueGlBuffer] (some activeTarget) batchEnv
        = ((PaintBuffer.glFbo blueGlBuffer).draw (some activeTarget) batchEnv).map
            (fun r => { env := r.env, helper := batchHelper, painter := r.painter }) ∧
      redGlBufferCpp.batch_draw 1 [⟨1, .glFbo redGlBufferCpp.toQCPPaintBufferGlFbo⟩]
          (some activeTarget) batchEnv
        = ((PaintBuffer.glFbo redGlBufferCpp.toQCPPaintBufferGlFbo).draw (some activeTarget)
            batchEnv).map
            (fun r => { env := r.env, self := redGlBufferCpp, painter := r.painter })) :=
  ⟨rfl, batch_draw_single_buffer_is_draw batchHelper (.glFbo blueGlBuffer) redGlBufferCpp 1
    activeTarget batchEnv rfl⟩

/-! ## Batch drawing of several buffers -/

/-- Claim C18, evaluated on the code. The compositor of the batch scene draws, on an
active painter, a list of the red hardware buffer, a software buffer and the blue
hardware buffer. The software buffer is not skipped: the loop casts every element to the
hardware class with a static cast and then reads its frame buffer member, which is
undefined for the software buffer; the batch ends in that fault. Hardware elements
whose frame buffer object is absent or invalid are skipped as claimed: with two such
elements between red and blue the painter receives what it receives for red and blue
alone, and two diagnostics are written. -/
theorem batch_draw_software_element_faults :
    batchHelper.batch_draw
        [.glFbo redGlBuffer, .pixmap scenarioPixmapBuffer, .glFbo blueGlBuffer]
        (some activeTarget) batchEnv
      = .error .invalidCast ∧
    emptyGlBuffer.mGlFrameBuffer = none ∧
    invalidFboGlBuffer.hasValidFbo = false ∧
    (batchHelper.batch_draw
        [.glFbo redGlBuffer, .glFbo emptyGlBuffer, .glFbo invalidFboGlBuffer,
          .glFbo blueGlBuffer]
        (some activeTarget) batchEnv).toOption.map (fun r => r.painter)
      = (batchHelper.batch_draw [.glFbo redGlBuffer, .glFbo blueGlBuffer]
          (some activeTarget) batchEnv).toOption.map (fun r => r.painter) ∧
    (batchHelper.batch_draw
        [.glFbo redGlBuffer, .glFbo emptyGlBuffer, .glFbo invalidFboGlBuffer,
          .glFbo blueGlBuffer]
        (some activeTarget) batchEnv).toOption.map
        (fun r => (r.painter.map fun q => q.ops.length, r.env.diagnostics))
      = some (some 1, [.invalidBuffer, .invalidBuffer]) := by
  decide!

/-! ## The hardware backend: target rectangle of draw -/

/-- The conversion to `int` of a whole number is that number. -/
theorem toInt_intCast (k : Int) : toInt (k : ℚ) = k := by
  unfold toInt
  split_ifs <;> simp

/-- Rounding a whole number within the range of `int` with `qRound` gives that number:
the sum with one half is exact in a `double` and its conversion is defined. -/
theorem qRound_intCast (k : Int) (_hk : INT_MIN ≤ k ∧ k ≤ INT_MAX) : qRound (k : ℚ) = k := by
  have h := qRound_add_small k 0 (by norm_num)
  simpa using h

/-- The nearest whole number to a whole number is that number. -/
theorem roundHalfEven_intCast (m : Int) : roundHalfEven (m : ℚ) = m := by
  simp [roundHalfEven]

/-- With enough fuel the halving count is the number of binary digits. -/
theorem bitLengthAux_spec : ∀ (fuel n : Nat), n ≤ fuel → 0 < n →
    2 ^ (bitLengthAux fuel n - 1) ≤ n ∧ n < 2 ^ bitLengthAux fuel n := by
  intro fuel
  induction fuel with
  | zero => intro n h1 h2; omega
  | succ fuel ih =>
    intro n h1 h2
    have hn : n ≠ 0 := by omega
    simp only [bitLengthAux, hn, if_false, Nat.add_sub_cancel]
    by_cases h3 : n / 2 = 0
    · have hn1 : n = 1 := by omega
      subst hn1
      cases fuel <;> simp [bitLengthAux]
    · obtain ⟨h4, h5⟩ := ih (n / 2) (by omega) (by omega)
      have h6 : 1 ≤ bitLengthAux fuel (n / 2) := by
        cases fuel with
        | zero => omega
        | succ f => simp [bitLengthAux, h3]
      constructor
      · have : 2 ^ bitLengthAux fuel (n / 2) = 2 ^ (bitLengthAux fuel (n / 2) - 1) * 2 := by
          rw [← pow_succ]
          congr 1
          omega
        rw [this]
        omega
      · rw [pow_succ]
        omega

/-- The digit count `k` of a positive number `n` satisfies `2 ^ (k - 1) ≤ n < 2 ^ k`. -/
theorem bitLength_spec (n : Nat) (hn : 0 < n) :
    2 ^ (bitLength n - 1) ≤ n ∧ n < 2 ^ bitLength n :=
  bitLengthAux_spec n n le_rfl hn

/-- A positive number has at least one binary digit. -/
theorem bitLength_pos (n : Nat) (hn : 0 < n) : 0 < bitLength n := by
  have h := (bitLength_spec n hn).2
  by_contra h0
  have : bitLength n = 0 := by omega
  rw [this] at h
  simp at h
  omega

/-- The binary exponent of a rational other than zero is the `e` with
`2 ^ e ≤ |q| < 2 ^ (e + 1)`. -/
theorem binaryExponent_spec (q : ℚ) (hq : q ≠ 0) :
    (2 : ℚ) ^ binaryExponent q ≤ |q| ∧ |q| < (2 : ℚ) ^ (binaryExponent q + 1) := by
  have hnum : 0 < q.num.natAbs := Int.natAbs_pos.mpr (Rat.num_ne_zero.mpr hq)
  have hden : 0 < q.den := q.den_pos
  obtain ⟨a1, a2⟩ := bitLength_spec _ hnum
  obtain ⟨b1, b2⟩ := bitLength_spec _ hden
  have ha := bitLength_pos _ hnum
  have hb := bitLength_pos _ hden
  have habs : |q| = (q.num.natAbs : ℚ) / (q.den : ℚ) := by
    calc |q| = |(q.num : ℚ) / (q.den : ℚ)| := by rw [Rat.num_div_den]
      _ = (q.num.natAbs : ℚ) / (q.den : ℚ) := by
          rw [abs_div, Nat.abs_cast, Nat.cast_natAbs, Int.cast_abs]
  have hdq : (0 : ℚ) < q.den := by exact_mod_cast hden
  have a1q : (2 : ℚ) ^ ((bitLength q.num.natAbs : Int) - 1) ≤ (q.num.natAbs : ℚ) := by
    have : ((2 ^ (bitLength q.num.natAbs - 1) : Nat) : ℚ) ≤ (q.num.natAbs : ℚ) := by
      exact_mod_cast a1
    have e : ((bitLength q.num.natAbs : Int) - 1)
        = ((bitLength q.num.natAbs - 1 : Nat) : Int) := by
      omega
    rw [e, zpow_natCast]
    simpa using this
  have a2q : (q.num.natAbs : ℚ) < (2 : ℚ) ^ (bitLength q.num.natAbs : Int) := by
    have : (q.num.natAbs : ℚ) < ((2 ^ bitLength q.num.natAbs : Nat) : ℚ) := by exact_mod_cast a2
    rw [zpow_natCast]
    simpa using this
  have b1q : (2 : ℚ) ^ ((bitLength q.den : Int) - 1) ≤ (q.den : ℚ) := by
    have : ((2 ^ (bitLength q.den - 1) : Nat) : ℚ) ≤ (q.den : ℚ) := by exact_mod_cast b1
    have e : ((bitLength q.den : Int) - 1) = ((bitLength q.den - 1 : Nat) : Int) := by omega
    rw [e, zpow_natCast]
    simpa using this
  have b2q : (q.den : ℚ) < (2 : ℚ) ^ (bitLength q.den : Int) := by
    have : (q.den : ℚ) < ((2 ^ bitLength q.den : Nat) : ℚ) := by exact_mod_cast b2
    rw [zpow_natCast]
    simpa using this
  have two : (0 : ℚ) < 2 := by norm_num
  have hlow : (2 : ℚ) ^ ((bitLength q.num.natAbs : Int) - bitLength q.den - 1) ≤ |q| := by
    rw [habs, le_div_iff₀ hdq]
    calc (2 : ℚ) ^ ((bitLength q.num.natAbs : Int) - bitLength q.den - 1) * (q.den : ℚ)
        ≤ (2 : ℚ) ^ ((bitLength q.num.natAbs : Int) - bitLength q.den - 1)
            * (2 : ℚ) ^ (bitLength q.den : Int) :=
          mul_le_mul_of_nonneg_left b2q.le (zpow_nonneg two.le _)
      _ = (2 : ℚ) ^ ((bitLength q.num.natAbs : Int) - 1) := by
          rw [← zpow_add₀ two.ne']
          congr 1
          ring
      _ ≤ (q.num.natAbs : ℚ) := a1q
  have hhigh : |q| < (2 : ℚ) ^ ((bitLength q.num.natAbs : Int) - bitLength q.den + 1) := by
    rw [habs, div_lt_iff₀ hdq]
    calc (q.num.natAbs : ℚ) < (2 : ℚ) ^ (bitLength q.num.natAbs : Int) := a2q
      _ = (2 : ℚ) ^ ((bitLength q.num.natAbs : Int) - bitLength q.den + 1)
            * (2 : ℚ) ^ ((bitLength q.den : Int) - 1) := by
          rw [← zpow_add₀ two.ne']
          congr 1
          ring
      _ ≤ (2 : ℚ) ^ ((bitLength q.num.natAbs : Int) - bitLength q.den + 1) * (q.den : ℚ) :=
          mul_le_mul_of_nonneg_left b1q (zpow_nonneg two.le _)
  unfold binaryExponent
  split_ifs with h
  · exact ⟨h, hhigh⟩
  · refine ⟨hlow, ?_⟩
    have : (bitLength q.num.natAbs : Int) - bitLength q.den - 1 + 1
        = (bitLength q.num.natAbs : Int) - bitLength q.den := by ring
    rw [this]
    exact lt_of_not_le h

/-- The binary exponent is the floor of the logarithm to base two. -/
theorem binaryExponent_eq_log (q : ℚ) (hq : q ≠ 0) : binaryExponent q = Int.log 2 |q| := by
  obtain ⟨h1, h2⟩ := binaryExponent_spec q hq
  have hpos : (0 : ℚ) < |q| := abs_pos.mpr hq
  have h3 : binaryExponent q ≤ Int.log 2 |q| :=
    (Int.zpow_le_iff_le_log (by norm_num) hpos).mp (by exact_mod_cast h1)
  have h4 : Int.log 2 |q| < binaryExponent q + 1 :=
    (Int.lt_zpow_iff_log_lt (by norm_num) hpos).mp (by exact_mod_cast h2)
  omega

/-- A whole number of magnitude below two to the 53 is a `double`: rounding leaves it as
it is. -/
theorem roundToDouble_intCast (n : Int) (hn : |n| < 2 ^ 53) : roundToDouble (n : ℚ) = n := by
  by_cases h0 : n = 0
  · subst h0
    simp [roundToDouble]
  have hq : (n : ℚ) ≠ 0 := by exact_mod_cast h0
  obtain ⟨hle, _⟩ := binaryExponent_spec (n : ℚ) hq
  have hlt : |(n : ℚ)| < (2 : ℚ) ^ (53 : ℤ) := by
    have : ((|n| : Int) : ℚ) < ((2 ^ 53 : Int) : ℚ) := by exact_mod_cast hn
    rw [Int.cast_abs] at this
    calc |(n : ℚ)| < ((2 ^ 53 : Int) : ℚ) := this
      _ = (2 : ℚ) ^ (53 : ℤ) := by norm_num
  have he : binaryExponent (n : ℚ) < 53 := by
    have h2 : (2 : ℚ) ^ binaryExponent (n : ℚ) < (2 : ℚ) ^ (53 : ℤ) := lt_of_le_of_lt hle hlt
    exact (zpow_lt_zpow_iff_right₀ (by norm_num : (1 : ℚ) < 2)).mp h2
  obtain ⟨k, hk⟩ : ∃ k : ℕ, binaryExponent (n : ℚ) - 52 = -(k : ℤ) :=
    ⟨(52 - binaryExponent (n : ℚ)).toNat, by omega⟩
  rw [roundToDouble, if_neg hq, hk, zpow_neg, zpow_natCast, div_inv_eq_mul]
  have hm : (n : ℚ) * 2 ^ k = ((n * 2 ^ k : ℤ) : ℚ) := by push_cast; ring
  rw [hm, roundHalfEven_intCast]
  push_cast
  field_simp

/-- The nearest whole number is at most one half away. -/
theorem roundHalfEven_error (x : ℚ) : |(roundHalfEven x : ℚ) - x| ≤ 1 / 2 := by
  have h1 : (⌊x⌋ : ℚ) ≤ x := Int.floor_le x
  have h2 : x < ⌊x⌋ + 1 := Int.lt_floor_add_one x
  unfold roundHalfEven
  split_ifs with a b c
  · rw [abs_le]; constructor <;> linarith
  · push_cast; rw [abs_le]; constructor <;> linarith
  · rw [abs_le]; constructor <;> linarith
  · push_cast; rw [abs_le]; constructor <;> linarith

/-- Rounding to a `double` gives a number with a significand of at most 53 bits that is
at most half a unit in the last place away. -/
theorem roundToDouble_error (q : ℚ) (hq : q ≠ 0) :
    roundToDouble q
      = roundHalfEven (q / (2 : ℚ) ^ (binaryExponent q - 52)) * (2 : ℚ) ^ (binaryExponent q - 52) ∧
    |roundToDouble q - q| ≤ (2 : ℚ) ^ (binaryExponent q - 52) / 2 := by
  have hu : (0 : ℚ) < (2 : ℚ) ^ (binaryExponent q - 52) := zpow_pos (by norm_num) _
  have hdef : roundToDouble q
      = roundHalfEven (q / (2 : ℚ) ^ (binaryExponent q - 52))
        * (2 : ℚ) ^ (binaryExponent q - 52) := by
    rw [roundToDouble, if_neg hq]
  refine ⟨hdef, ?_⟩
  have h := roundHalfEven_error (q / (2 : ℚ) ^ (binaryExponent q - 52))
  have e : roundToDouble q - q
      = ((roundHalfEven (q / (2 : ℚ) ^ (binaryExponent q - 52)) : ℚ)
          - q / (2 : ℚ) ^ (binaryExponent q - 52)) * (2 : ℚ) ^ (binaryExponent q - 52) := by
    rw [hdef, sub_mul, div_mul_cancel₀ _ hu.ne']
  rw [e, abs_mul, abs_of_pos hu]
  calc |(roundHalfEven (q / (2 : ℚ) ^ (binaryExponent q - 52)) : ℚ)
          - q / (2 : ℚ) ^ (binaryExponent q - 52)| * (2 : ℚ) ^ (binaryExponent q - 52)
      ≤ 1 / 2 * (2 : ℚ) ^ (binaryExponent q - 52) := mul_le_mul_of_nonneg_right h hu.le
    _ = (2 : ℚ) ^ (binaryExponent q - 52) / 2 := by ring

/-- What a defined target extent is: the ratio is not zero and the extent is the quotient,
rounded to a `double` and truncated, which fits an `int`. -/
theorem targetExtent_eq_ok (extent : Int) (ratio : ℚ) (t : Int)
    (h : targetExtent extent ratio = .ok t) :
    ratio ≠ 0 ∧ t = toInt (roundToDouble (extent / ratio)) ∧ INT_MIN ≤ t ∧ t ≤ INT_MAX := by
  unfold targetExtent doubleToInt at h
  split_ifs at h with h1 h2
  simp only [Except.ok.injEq] at h
  subst h
  exact ⟨h1, rfl, h2.1, h2.2⟩

/-- The target extent is defined when the ratio is not zero and the quotient, rounded to
a `double` and truncated, fits an `int`. -/
theorem targetExtent_of_range (extent : Int) (ratio : ℚ) (hr : ratio ≠ 0)
    (h : INT_MIN ≤ toInt (roundToDouble (extent / ratio)) ∧
      toInt (roundToDouble (extent / ratio)) ≤ INT_MAX) :
    targetExtent extent ratio = .ok (toInt (roundToDouble (extent / ratio))) := by
  simp [targetExtent, doubleToInt, hr, h.1, h.2]

/-- Dividing a whole product by the ratio gives the other factor back, when that factor
fits an `int`: the quotient is a whole number, which the division in `double` arithmetic
yields exactly. -/
theorem targetExtent_whole (w : Int) (r : ℚ) (k : Int) (hr : r ≠ 0) (hk : (w : ℚ) * r = k)
    (hw : INT_MIN ≤ w ∧ w ≤ INT_MAX) : targetExtent k r = .ok w := by
  have hq : (k : ℚ) / r = w := by
    rw [← hk, mul_div_assoc, div_self hr, mul_one]
  have habs : |w| < 2 ^ 53 := by
    have h1 := hw.1
    have h2 := hw.2
    simp only [INT_MIN, INT_MAX] at h1 h2
    rw [abs_lt]
    constructor <;> omega
  simp [targetExtent, doubleToInt, hr, hq, roundToDouble_intCast w habs, toInt_intCast, hw.1,
    hw.2]

/-- The method `draw` of a hardware buffer with a frame buffer object, on an active
painter, when making the context current raises no fault and the two divisions of the
target rectangle are defined: one readback and one `drawImage`. -/
theorem glFbo_draw_ok (b : QCPPaintBufferGlFbo) (fbo : QOpenGLFramebufferObject)
    (p : QCPPainter) (e e1 : Env) (tw th : Int)
    (hc : ensureCurrentUnchecked b.mGlContext e = .ok e1) (hf : b.mGlFrameBuffer = some fbo)
    (htw : targetExtent fbo.size.wd b.mDevicePixelRatio = .ok tw)
    (hth : targetExtent fbo.size.ht b.mDevicePixelRatio = .ok th) (hp : p.isActive = true) :
    b.draw (some p) e
      = .ok { env := e1.call (.fboToImage fbo.id),
              buffer := b,
              painter := some (p.drawImage ⟨0, 0, tw, th⟩
                { size := fbo.size, devicePixelRatio := b.mDevicePixelRatio,
                  content := fbo.content }
                ⟨0, 0, fbo.size.wd, fbo.size.ht⟩) } := by
  simp [QCPPaintBufferGlFbo.draw, hp, hf, hc, htw, hth, bind, Except.bind, pure,
    Except.pure, QOpenGLFramebufferObject.toImage, QImage.rect]

/-- Claim C19 as stated fails. The hardware buffer built at logical size (101,100) with
ratio 5/4 has a frame buffer object of 126x125, created by `reallocateBuffer` at size
times ratio. Its `draw` passes the target rectangle (0,0,100,100) to `drawImage`: the
width is 100, not the logical width 101. -/
theorem glFbo_draw_target_rect_not_logical_size :
    (PaintBuffer.glFbo oddGlBuffer).size = ⟨101, 100⟩ ∧
    (PaintBuffer.glFbo oddGlBuffer).devicePixelRatio = 5 / 4 ∧
    (PaintBuffer.glFbo oddGlBuffer).storageSize = some (QSize.scale ⟨101, 100⟩ (5 / 4)) ∧
    (PaintBuffer.glFbo oddGlBuffer).storageSize = some ⟨126, 125⟩ ∧
    ((PaintBuffer.glFbo oddGlBuffer).draw (some activeTarget) oddGlEnv).toOption.map
        (fun r => r.painter.map fun q => q.ops.map PainterOp.targetRect)
      = some (some [some ⟨0, 0, 100, 100⟩]) := by
  decide!

/-- Claim C19 as amended. For a hardware buffer with ratio r > 0 and a frame buffer
object of physical extent (W,H), `draw` on an active painter, when making the context
current raises no fault (as with a live context) and the two divisions of the target
rectangle are defined (their quotients fit an `int`), returns normally after one readback
and issues one `drawImage` whose target rectangle has origin (0,0) and extent
(int(W / r), int(H / r)): the quotient of the division in `double` arithmetic, truncated.
When the frame buffer object has the extent that `reallocateBuffer` requests for the
logical size (w,h), size times r rounded by Qt, a component of the rectangle is the
logical one whenever the logical component fits an `int` and its product with the ratio
is a whole number that fits an `int`. -/
theorem glFbo_draw_target_rect (b : QCPPaintBufferGlFbo) (fbo : QOpenGLFramebufferObject)
    (p : QCPPainter) (e e1 : Env) (tw th : Int)
    (hc : ensureCurrentUnchecked b.mGlContext e = .ok e1) (hf : b.mGlFrameBuffer = some fbo)
    (hr : 0 < b.mDevicePixelRatio) (hp : p.isActive = true)
    (htw : targetExtent fbo.size.wd b.mDevicePixelRatio = .ok tw)
    (hth : targetExtent fbo.size.ht b.mDevicePixelRatio = .ok th) :
    b.draw (some p) e
      = .ok { env := e1.call (.fboToImage fbo.id),
              buffer := b,
              painter := some (p.drawImage ⟨0, 0, tw, th⟩
                { size := fbo.size, devicePixelRatio := b.mDevicePixelRatio,
                  content := fbo.content }
                ⟨0, 0, fbo.size.wd, fbo.size.ht⟩) } ∧
    tw = toInt (roundToDouble (fbo.size.wd / b.mDevicePixelRatio)) ∧
    th = toInt (roundToDouble (fbo.size.ht / b.mDevicePixelRatio)) ∧
    (fbo.size = b.mSize.scale b.mDevicePixelRatio →
      (∀ k : Int, (b.mSize.wd : ℚ) * b.mDevicePixelRatio = k → INT_MIN ≤ k ∧ k ≤ INT_MAX →
        INT_MIN ≤ b.mSize.wd ∧ b.mSize.wd ≤ INT_MAX → tw = b.mSize.wd) ∧
      (∀ k : Int, (b.mSize.ht : ℚ) * b.mDevicePixelRatio = k → INT_MIN ≤ k ∧ k ≤ INT_MAX →
        INT_MIN ≤ b.mSize.ht ∧ b.mSize.ht ≤ INT_MAX → th = b.mSize.ht)) := by
  have hne : b.mDevicePixelRatio ≠ 0 := ne_of_gt hr
  refine ⟨glFbo_draw_ok b fbo p e e1 tw th hc hf htw hth hp,
    (targetExtent_eq_ok _ _ _ htw).2.1, (targetExtent_eq_ok _ _ _ hth).2.1, ?_⟩
  intro hs
  have hw : fbo.size.wd = qRound (b.mSize.wd * b.mDevicePixelRatio) := by
    rw [hs]; rfl
  have hh : fbo.size.ht = qRound (b.mSize.ht * b.mDevicePixelRatio) := by
    rw [hs]; rfl
  constructor
  · intro k hk hkr hwr
    have h1 := targetExtent_whole b.mSize.wd b.mDevicePixelRatio k hne hk hwr
    rw [hw, hk, qRound_intCast k hkr, h1] at htw
    simp only [Except.ok.injEq] at htw
    exact htw.symm
  · intro k hk hkr hhr
    have h1 := targetExtent_whole b.mSize.ht b.mDevicePixelRatio k hne hk hhr
    rw [hh, hk, qRound_intCast k hkr, h1] at hth
    simp only [Except.ok.injEq] at hth
    exact hth.symm

/-- Witness for C19 as amended: the buffer of size (10,10) built with the ratio 1.1, a
`double` just above eleven tenths. Its frame buffer object is 11x11; the quotient of 11 by
the ratio is just below 10 and rounds to the `double` 10, so `draw` passes the target
rectangle (0,0,10,10). -/
theorem glFbo_draw_target_rect_witness :
    ensureCurrentUnchecked tenthGlBuffer.mGlContext tenthGlEnv = .ok tenthGlEnv ∧
    tenthGlBuffer.mGlFrameBuffer
      = some { id := 0, size := ⟨11, 11⟩, samples := 4, attachment := .CombinedDepthStencil,
               valid := true, content := .undefined } ∧
    0 < tenthGlBuffer.mDevicePixelRatio ∧
    activeTarget.isActive = true ∧
    targetExtent 11 tenthGlBuffer.mDevicePixelRatio = .ok 10 ∧
    toInt ((11 : ℚ) / tenthGlBuffer.mDevicePixelRatio) = 9 ∧
    tenthGlBuffer.draw (some activeTarget) tenthGlEnv
      = .ok { env := tenthGlEnv.call (.fboToImage 0),
              buffer := tenthGlBuffer,
              painter := some (activeTarget.drawImage ⟨0, 0, 10, 10⟩
                { size := ⟨11, 11⟩, devicePixelRatio := tenthGlBuffer.mDevicePixelRatio,
                  content := .undefined }
                ⟨0, 0, 11, 11⟩) } :=
  have h := glFbo_draw_target_rect tenthGlBuffer
    { id := 0, size := ⟨11, 11⟩, samples := 4, attachment := .CombinedDepthStencil,
      valid := true, content := .undefined }
    activeTarget tenthGlEnv tenthGlEnv 10 10 (by decide!) (by decide!) (by decide!) rfl
    (by decide!) (by decide!)
  ⟨by decide!, by decide!, by decide!, rfl, by decide!, by decide!, h.1⟩

/-! ## The hardware backend: reallocation with live resources -/

/-- The hardware `reallocateBuffer` leaves the base fields, the flag included, alone. -/
theorem glFbo_reallocate_keeps_base (b : QCPPaintBufferGlFbo) (e : Env) :
    (b.reallocateBuffer e).2.toQCPAbstractPaintBuffer = b.toQCPAbstractPaintBuffer := by
  obtain ⟨base, ctx, dev, fbo⟩ := b
  cases fbo <;> cases dev <;> cases ctx <;> simp [QCPPaintBufferGlFbo.reallocateBuffer]

/-- The software `reallocateBuffer` sets the flag. -/
theorem pixmap_reallocate_sets_invalidated (b : QCPPaintBufferPixmap) (e : Env) :
    (b.reallocateBuffer e).2.mInvalidated = true := by
  cases hf : qFuzzyCompare 1 b.mDevicePixelRatio <;>
    simp [QCPPaintBufferPixmap.reallocateBuffer, hf]

/-- The virtual `reallocateBuffer` never clears a flag that is set. -/
theorem reallocate_keeps_invalidated_true (b : PaintBuffer) (e : Env)
    (hb : b.invalidated = true) : (b.reallocateBuffer e).2.invalidated = true := by
  cases b with
  | pixmap x =>
    simpa [PaintBuffer.reallocateBuffer, PaintBuffer.invalidated, PaintBuffer.base] using
      pixmap_reallocate_sets_invalidated x e
  | glFbo x =>
    have h := glFbo_reallocate_keeps_base x e
    simp only [PaintBuffer.reallocateBuffer, PaintBuffer.invalidated, PaintBuffer.base] at hb ⊢
    rw [h]
    exact hb

/-- Claim C30. A freshly constructed buffer of either backend reports
`invalidated() = true`, for the hardware backend whatever the two weak references
resolve to. `setInvalidated(v)` sets the flag to `v` and nothing else: setting the flag
back gives the buffer as it was, and the call has no access to the environment, so it
cannot reallocate. No other operation clears the flag: on a buffer whose flag is set,
`setSize`, `setDevicePixelRatio`, `reallocateBuffer`, `startPainting`, `donePainting`,
`clear`, every `draw` that returns, and `setInvalidated(true)` leave it set. So
`setInvalidated(false)` is the only operation that can make `invalidated()` false. -/
theorem invalidated_only_cleared_by_setInvalidated (size : QSize) (ratio : ℚ)
    (layerName : String) (glContext : Option QOpenGLContext)
    (glPaintDevice : Option QOpenGLPaintDevice) (b : PaintBuffer) (v : Bool) (e : Env)
    (s : QSize) (r : ℚ) (color : QColor) (painter : Option QCPPainter)
    (hb : b.invalidated = true) :
    (PaintBuffer.pixmap (QCPPaintBufferPixmap.new size ratio layerName e).2).invalidated = true ∧
    (PaintBuffer.glFbo
      (QCPPaintBufferGlFbo.new size ratio layerName glContext glPaintDevice e).2).invalidated
      = true ∧
    (QCPAbstractPaintBuffer.setInvalidated b v).invalidated = v ∧
    QCPAbstractPaintBuffer.setInvalidated (QCPAbstractPaintBuffer.setInvalidated b v)
      b.invalidated = b ∧
    (QCPAbstractPaintBuffer.setInvalidated b v).storageSize = b.storageSize ∧
    (QCPAbstractPaintBuffer.setInvalidated b true).invalidated = true ∧
    (QCPAbstractPaintBuffer.setSize b s e).2.invalidated = true ∧
    (QCPAbstractPaintBuffer.setDevicePixelRatio b r e).2.invalidated = true ∧
    (b.reallocateBuffer e).2.invalidated = true ∧
    (b.startPainting e).2.1.invalidated = true ∧
    (b.donePainting e).2.invalidated = true ∧
    (b.clear color e).2.invalidated = true ∧
    (∀ d : Drawn PaintBuffer, b.draw painter e = .ok d → d.buffer.invalidated = true) := by
  refine ⟨?_, ?_, ?_, ?_, ?_, ?_, ?_, ?_, reallocate_keeps_invalidated_true b e hb,
    ?_, ?_, ?_, ?_⟩
  · simpa [PaintBuffer.invalidated, PaintBuffer.base] using
      pixmap_reallocate_sets_invalidated _ e
  · simp only [PaintBuffer.invalidated, PaintBuffer.base, QCPPaintBufferGlFbo.new]
    rw [glFbo_reallocate_keeps_base]
    rfl
  · cases b <;> rfl
  · cases b <;> rfl
  · cases b <;> rfl
  · cases b <;> rfl
  · unfold QCPAbstractPaintBuffer.setSize
    split_ifs
    · apply reallocate_keeps_invalidated_true
      cases b <;> exact hb
    · exact hb
  · unfold QCPAbstractPaintBuffer.setDevicePixelRatio
    split_ifs
    · apply reallocate_keeps_invalidated_true
      cases b <;> exact hb
    · exact hb
  · cases b with
    | pixmap x => exact hb
    | glFbo x =>
      simp only [PaintBuffer.startPainting, PaintBuffer.invalidated, PaintBuffer.base,
        QCPPaintBufferGlFbo.startPainting] at hb ⊢
      cases x.mGlPaintDevice <;> cases x.mGlContext <;> cases x.mGlFrameBuffer <;> exact hb
  · cases b with
    | pixmap x => exact hb
    | glFbo x =>
      simp only [PaintBuffer.donePainting, PaintBuffer.invalidated, PaintBuffer.base,
        QCPPaintBufferGlFbo.donePainting] at hb ⊢
      cases x.mGlFrameBuffer with
      | none => exact hb
      | some f => simp only []; split_ifs <;> exact hb
  · cases b with
    | pixmap x => exact hb
    | glFbo x =>
      simp only [PaintBuffer.clear, PaintBuffer.invalidated, PaintBuffer.base,
        QCPPaintBufferGlFbo.clear] at hb ⊢
      cases x.mGlContext <;> cases x.mGlFrameBuffer <;> exact hb
  · intro d hd
    cases b with
    | pixmap x =>
      simp only [PaintBuffer.draw, Except.ok.injEq] at hd
      rw [← hd]
      simp only [PaintBuffer.invalidated, PaintBuffer.base, QCPPaintBufferPixmap.draw] at hb ⊢
      cases painter with
      | none => exact hb
      | some q => simp only []; split_ifs <;> exact hb
    | glFbo x =>
      simp only [PaintBuffer.draw] at hd
      cases hx : x.draw painter e with
      | error f => simp [hx, Except.map] at hd
      | ok dx =>
        simp only [hx, Except.map, Except.ok.injEq] at hd
        rw [← hd]
        have h1 := (glFbo_draw_keeps_binding x painter e dx hx).1
        simp only [PaintBuffer.invalidated, PaintBuffer.base] at hb ⊢
        rw [h1]
        exact hb

/-- Witness for C30: the scenario hardware buffer, whose flag is set, resized; a
hardware buffer built with both references gone; and the flag cleared by
`setInvalidated(false)`. -/
theorem invalidated_only_cleared_by_setInvalidated_witness :
    (PaintBuffer.glFbo scenarioGlBuffer).invalidated = true ∧
    (QCPAbstractPaintBuffer.setSize (.glFbo scenarioGlBuffer) ⟨200, 100⟩
        scenarioGlEnv).2.invalidated = true ∧
    (PaintBuffer.glFbo
      (QCPPaintBufferGlFbo.new ⟨100, 100⟩ 1 mainLayer none none scenarioGlEnv).2).invalidated
      = true ∧
    (QCPAbstractPaintBuffer.setInvalidated (.glFbo scenarioGlBuffer) false).invalidated
      = false :=
  have h := invalidated_only_cleared_by_setInvalidated ⟨100, 100⟩ 1 mainLayer none none
    (.glFbo scenarioGlBuffer) false scenarioGlEnv ⟨200, 100⟩ 2 opaqueRed (some activeTarget)
    (by decide!)
  ⟨by decide!, h.2.2.2.2.2.2.1, h.2.1, h.2.2.1⟩

/-! ## The batch compositor: sizing -/

/-- The block that releases and deletes a frame buffer object creates none. -/
theorem releaseAndDelete_nextFboId (fbo : Option QOpenGLFramebufferObject) (e : Env) :
    (releaseAndDelete fbo e).nextFboId = e.nextFboId := by
  cases fbo with
  | none => rfl
  | some f =>
    simp only [releaseAndDelete]
    split_ifs <;> rfl

/-- One reallocation of the compositor creates exactly two frame buffer objects. -/
theorem helper_reallocate_nextFboId (h : NeoQCPBatchDrawingHelper) (e : Env) :
    (h.reallocateBuffer e).1.nextFboId = e.nextFboId + 2 := by
  simp [NeoQCPBatchDrawingHelper.reallocateBuffer, QOpenGLFramebufferObject.create,
    releaseAndDelete_nextFboId]

/-- Fields of the compositor after one reallocation. -/
theorem helper_reallocate_fields (h : NeoQCPBatchDrawingHelper) (e : Env) :
    (h.reallocateBuffer e).2.mSize = h.mSize ∧
    (h.reallocateBuffer e).2.mDevicePixelRatio = h.mDevicePixelRatio ∧
    (h.reallocateBuffer e).2.mGlFrameBuffer.map (·.size)
      = some (h.mSize.scale h.mDevicePixelRatio) ∧
    (h.reallocateBuffer e).2.mResolveFbo.map (·.size)
      = some (h.mSize.scale h.mDevicePixelRatio) := by
  simp [NeoQCPBatchDrawingHelper.reallocateBuffer, QOpenGLFramebufferObject.create]

/-- Claim C28. For every state of the batch compositor, every size `s` and every ratio
`r`, the call `setSizeAndDevicePixelRatio(s, r)` ends with the same configured size, the
same configured ratio and the same extents of the destination and of the resolve frame
buffer object as `setSize(s)` followed by `setDevicePixelRatio(r)`, and as
`setDevicePixelRatio(r)` followed by `setSize(s)`. The combined call creates at most two
frame buffer objects (one reallocation), never more than either sequence, and each
sequence creates at most four (two reallocations). When `s` and `r` equal the current
values, all three leave the environment and the compositor as they were. -/
theorem helper_combined_setter_agrees (h : NeoQCPBatchDrawingHelper) (s : QSize) (r : ℚ)
    (e : Env) :
    ((h.setSizeAndDevicePixelRatio s r e).2.mSize = s ∧
     (h.setSizeAndDevicePixelRatio s r e).2.mDevicePixelRatio = r) ∧
    (((h.setSize s e).2.setDevicePixelRatio r (h.setSize s e).1).2.mSize = s ∧
     ((h.setSize s e).2.setDevicePixelRatio r (h.setSize s e).1).2.mDevicePixelRatio = r ∧
     ((h.setSize s e).2.setDevicePixelRatio r (h.setSize s e).1).2.mGlFrameBuffer.map (·.size)
       = (h.setSizeAndDevicePixelRatio s r e).2.mGlFrameBuffer.map (·.size) ∧
     ((h.setSize s e).2.setDevicePixelRatio r (h.setSize s e).1).2.mResolveFbo.map (·.size)
       = (h.setSizeAndDevicePixelRatio s r e).2.mResolveFbo.map (·.size)) ∧
    (((h.setDevicePixelRatio r e).2.setSize s (h.setDevicePixelRatio r e).1).2.mSize = s ∧
     ((h.setDevicePixelRatio r e).2.setSize s (h.setDevicePixelRatio r e).1).2.mDevicePixelRatio
       = r ∧
     ((h.setDevicePixelRatio r e).2.setSize s
        (h.setDevicePixelRatio r e).1).2.mGlFrameBuffer.map (·.size)
       = (h.setSizeAndDevicePixelRatio s r e).2.mGlFrameBuffer.map (·.size) ∧
     ((h.setDevicePixelRatio r e).2.setSize s
        (h.setDevicePixelRatio r e).1).2.mResolveFbo.map (·.size)
       = (h.setSizeAndDevicePixelRatio s r e).2.mResolveFbo.map (·.size)) ∧
    ((h.setSizeAndDevicePixelRatio s r e).1.nextFboId ≤ e.nextFboId + 2 ∧
     (h.setSizeAndDevicePixelRatio s r e).1.nextFboId
       ≤ ((h.setSize s e).2.setDevicePixelRatio r (h.setSize s e).1).1.nextFboId ∧
     (h.setSizeAndDevicePixelRatio s r e).1.nextFboId
       ≤ ((h.setDevicePixelRatio r e).2.setSize s (h.setDevicePixelRatio r e).1).1.nextFboId ∧
     ((h.setSize s e).2.setDevicePixelRatio r (h.setSize s e).1).1.nextFboId
       ≤ e.nextFboId + 4 ∧
     ((h.setDevicePixelRatio r e).2.setSize s (h.setDevicePixelRatio r e).1).1.nextFboId
       ≤ e.nextFboId + 4) ∧
    (h.mSize = s ∧ h.mDevicePixelRatio = r →
      h.setSizeAndDevicePixelRatio s r e = (e, h) ∧
      (h.setSize s e).2.setDevicePixelRatio r (h.setSize s e).1 = (e, h) ∧
      (h.setDevicePixelRatio r e).2.setSize s (h.setDevicePixelRatio r e).1 = (e, h)) := by
  by_cases hs : h.mSize = s <;> by_cases hr : h.mDevicePixelRatio = r <;>
    simp [NeoQCPBatchDrawingHelper.setSizeAndDevicePixelRatio,
      NeoQCPBatchDrawingHelper.setSize, NeoQCPBatchDrawingHelper.setDevicePixelRatio, hs, hr,
      helper_reallocate_nextFboId, helper_reallocate_fields]

/-! ## The batch compositor: the ratio setter against the buffer's -/

/-- Claim C24, evaluated on the code. The ratio `1 + 10⁻¹³` differs from 1 and passes the
tolerance test of `qFuzzyCompare` against 1. On the scenario hardware buffer, whose ratio
is 1, `QCPAbstractPaintBuffer::setDevicePixelRatio` with that ratio changes nothing. On
the scenario compositor, whose ratio is 1 too, `NeoQCPBatchDrawingHelper::
setDevicePixelRatio` with that ratio stores it and reallocates: the destination and the
resolve frame buffer objects are deleted and two new ones are created. -/
theorem helper_setDevicePixelRatio_ignores_tolerance :
    nearlyOne ≠ 1 ∧
    qFuzzyCompare nearlyOne 1 = true ∧
    scenarioGlBuffer.mDevicePixelRatio = 1 ∧
    scenarioHelper.mDevicePixelRatio = 1 ∧
    QCPAbstractPaintBuffer.setDevicePixelRatio (.glFbo scenarioGlBuffer) nearlyOne
        scenarioHelperEnv
      = (scenarioHelperEnv, .glFbo scenarioGlBuffer) ∧
    (scenarioHelper.setDevicePixelRatio nearlyOne scenarioHelperEnv).2.mDevicePixelRatio
      = nearlyOne ∧
    (scenarioHelper.setDevicePixelRatio nearlyOne scenarioHelperEnv).1.calls
      = scenarioHelperEnv.calls ++
          [.fboDelete 1, .fboCreate 3 ⟨100, 100⟩ 0 .CombinedDepthStencil,
           .fboDelete 2, .fboCreate 4 ⟨100, 100⟩ 0 .CombinedDepthStencil] ∧
    (scenarioHelper.setDevicePixelRatio nearlyOne scenarioHelperEnv).2.mGlFrameBuffer
      ≠ scenarioHelper.mGlFrameBuffer := by
  decide!

/-! ## The hardware backend: switching to the shared context -/

/-- Claim C21, evaluated on the code. In the environment left by the construction of the
scenario hardware buffer the shared context is the current one. There `startPainting`,
`draw` and `clear` make no `makeCurrent` call, and `reallocateBuffer` makes one; while the
context of another widget is current, each of the four makes exactly one. -/
theorem glFbo_reallocate_switches_unconditionally :
    scenarioGlEnv.currentContext = some sharedContext.id ∧
    scenarioGlBuffer.mGlContext = some sharedContext ∧
    (scenarioGlBuffer.startPainting scenarioGlEnv).1.makeCurrentCalls
      = scenarioGlEnv.makeCurrentCalls ∧
    (scenarioGlBuffer.draw (some activeTarget) scenarioGlEnv).toOption.map
        (fun d => d.env.makeCurrentCalls)
      = some scenarioGlEnv.makeCurrentCalls ∧
    (scenarioGlBuffer.clear opaqueRed scenarioGlEnv).1.makeCurrentCalls
      = scenarioGlEnv.makeCurrentCalls ∧
    (scenarioGlBuffer.reallocateBuffer scenarioGlEnv).1.makeCurrentCalls
      = scenarioGlEnv.makeCurrentCalls + 1 ∧
    otherContextEnv.currentContext = some 2 ∧
    (scenarioGlBuffer.startPainting otherContextEnv).1.makeCurrentCalls
      = otherContextEnv.makeCurrentCalls + 1 ∧
    (scenarioGlBuffer.draw (some activeTarget) otherContextEnv).toOption.map
        (fun d => d.env.makeCurrentCalls)
      = some (otherContextEnv.makeCurrentCalls + 1) ∧
    (scenarioGlBuffer.clear opaqueRed otherContextEnv).1.makeCurrentCalls
      = otherContextEnv.makeCurrentCalls + 1 ∧
    (scenarioGlBuffer.reallocateBuffer otherContextEnv).1.makeCurrentCalls
      = otherContextEnv.makeCurrentCalls + 1 := by
  decide!

/-! ## The hardware backend: whole ratios -/

/-- Claim C29. The methods of the two backends in `src/paintbuffer.cpp` behave as their
counterparts in `src/painting/paintbuffer-glfbo.cpp` and
`src/painting/paintbuffer-pixmap.cpp`. For every hardware buffer state, painter, color and
environment, `startPainting`, `donePainting`, `draw`, `clear` and `reallocateBuffer` of the
copy give the same environment, the same result (the handle, the draw calls on the target
painter, or the same fault) and the same successor state of the members the two classes
share, and leave alone the member `mGlImage` that only the copy has. For every software
buffer state, `startPainting`, `draw`, `clear` and `reallocateBuffer` of the copy equal
those of `paintbuffer-pixmap.cpp`. -/
theorem backend_copies_agree (self : PaintBufferCpp.QCPPaintBufferGlFbo)
    (b : QCPPaintBufferPixmap) (painter : Option QCPPainter) (color : QColor) (e : Env) :
    (self.startPainting e
      = ((self.toQCPPaintBufferGlFbo.startPainting e).1,
         { toQCPPaintBufferGlFbo := (self.toQCPPaintBufferGlFbo.startPainting e).2.1,
           mGlImage := self.mGlImage },
         (self.toQCPPaintBufferGlFbo.startPainting e).2.2)) ∧
    (self.donePainting e
      = ((self.toQCPPaintBufferGlFbo.donePainting e).1,
         { toQCPPaintBufferGlFbo := (self.toQCPPaintBufferGlFbo.donePainting e).2,
           mGlImage := self.mGlImage })) ∧
    (self.draw painter e
      = (self.toQCPPaintBufferGlFbo.draw painter e).map fun d =>
          { env := d.env,
            buffer := { toQCPPaintBufferGlFbo := d.buffer, mGlImage := self.mGlImage },
            painter := d.painter }) ∧
    (self.clear color e
      = ((self.toQCPPaintBufferGlFbo.clear color e).1,
         { toQCPPaintBufferGlFbo := (self.toQCPPaintBufferGlFbo.clear color e).2,
           mGlImage := self.mGlImage })) ∧
    (self.reallocateBuffer e
      = ((self.toQCPPaintBufferGlFbo.reallocateBuffer e).1,
         { toQCPPaintBufferGlFbo := (self.toQCPPaintBufferGlFbo.reallocateBuffer e).2,
           mGlImage := self.mGlImage })) ∧
    PaintBufferCpp.QCPPaintBufferPixmap.startPainting b e = b.startPainting e ∧
    PaintBufferCpp.QCPPaintBufferPixmap.draw b painter e = b.draw painter e ∧
    PaintBufferCpp.QCPPaintBufferPixmap.clear b color e = b.clear color e ∧
    PaintBufferCpp.QCPPaintBufferPixmap.reallocateBuffer b e = b.reallocateBuffer e := by
  obtain ⟨⟨base, ctx, dev, fbo⟩, img⟩ := self
  refine ⟨?_, ?_, ?_, ?_, ?_, ?_, ?_, ?_, ?_⟩
  · cases dev <;> cases ctx <;> cases fbo <;>
      simp [PaintBufferCpp.QCPPaintBufferGlFbo.startPainting,
        QCPPaintBufferGlFbo.startPainting, QOpenGLContext.ensureCurrent]
  · cases fbo with
    | none =>
      simp [PaintBufferCpp.QCPPaintBufferGlFbo.donePainting, QCPPaintBufferGlFbo.donePainting]
    | some f =>
      simp only [PaintBufferCpp.QCPPaintBufferGlFbo.donePainting,
        QCPPaintBufferGlFbo.donePainting]
      split_ifs <;> rfl
  · cases painter with
    | none =>
      simp [PaintBufferCpp.QCPPaintBufferGlFbo.draw, QCPPaintBufferGlFbo.draw, Except.map]
    | some p =>
      cases hp : p.isActive with
      | false =>
        simp [PaintBufferCpp.QCPPaintBufferGlFbo.draw, QCPPaintBufferGlFbo.draw, Except.map, hp]
      | true =>
        cases fbo with
        | none =>
          simp [PaintBufferCpp.QCPPaintBufferGlFbo.draw, QCPPaintBufferGlFbo.draw, Except.map,
            hp]
        | some f =>
          cases hc : ensureCurrentUnchecked ctx e with
          | error fault =>
            simp [PaintBufferCpp.QCPPaintBufferGlFbo.draw, QCPPaintBufferGlFbo.draw,
              Except.map, hp, hc, bind, Except.bind]
          | ok e1 =>
            cases h1 : targetExtent f.size.wd base.mDevicePixelRatio with
            | error fault =>
              simp [PaintBufferCpp.QCPPaintBufferGlFbo.draw, QCPPaintBufferGlFbo.draw,
                Except.map, hp, hc, bind, Except.bind, h1]
            | ok tw =>
              cases h2 : targetExtent f.size.ht base.mDevicePixelRatio with
              | error fault =>
                simp [PaintBufferCpp.QCPPaintBufferGlFbo.draw, QCPPaintBufferGlFbo.draw,
                  Except.map, hp, hc, bind, Except.bind, h1, h2]
              | ok th =>
                simp [PaintBufferCpp.QCPPaintBufferGlFbo.draw, QCPPaintBufferGlFbo.draw,
                  Except.map, hp, hc, bind, Except.bind, h1, h2, pure, Except.pure,
                  QImage.rect]
  · cases ctx <;> cases fbo <;>
      simp [PaintBufferCpp.QCPPaintBufferGlFbo.clear, QCPPaintBufferGlFbo.clear,
        QOpenGLContext.ensureCurrent]
  · cases fbo <;> cases dev <;> cases ctx <;>
      simp [PaintBufferCpp.QCPPaintBufferGlFbo.reallocateBuffer,
        QCPPaintBufferGlFbo.reallocateBuffer, releaseAndDelete]
  · rfl
  · cases painter with
    | none => rfl
    | some p =>
      cases hp : p.isActive <;>
        simp [PaintBufferCpp.QCPPaintBufferPixmap.draw, QCPPaintBufferPixmap.draw, hp]
  · rfl
  · cases hf : qFuzzyCompare 1 b.mDevicePixelRatio <;>
      simp [PaintBufferCpp.QCPPaintBufferPixmap.reallocateBuffer,
        QCPPaintBufferPixmap.reallocateBuffer, hf, QPixmap.ofSize]

/-! ## Calls made by batch drawing -/

/-- Making the context current, when it raises no fault, adds at most `makeCurrent`
calls. -/
theorem ensureCurrentUnchecked_calls (ctx : Option QOpenGLContext) (e e1 : Env)
    (h : ensureCurrentUnchecked ctx e = .ok e1) :
    ∃ added : List Call, e1.calls = e.calls ++ added ∧
      ∀ c ∈ added, c.isMakeCurrent = true := by
  cases ctx with
  | none =>
    simp only [ensureCurrentUnchecked] at h
    split_ifs at h
    cases h
    exact ⟨[], by simp, by simp⟩
  | some c =>
    simp only [ensureCurrentUnchecked, QOpenGLContext.ensureCurrent, Except.ok.injEq] at h
    split_ifs at h
    · subst h
      exact ⟨[.makeCurrent c.id], by simp [QOpenGLContext.makeCurrent],
        by simp [Call.isMakeCurrent]⟩
    · subst h
      exact ⟨[], by simp, by simp⟩

/-- One pass of the loop of `batch_draw`, when it raises no fault, adds only calls of
the compositing step and keeps the validity of the destination. -/
theorem compositeOne_calls (st st1 : Compositing) (b : PaintBuffer)
    (h : compositeOne st b = .ok st1) :
    ∃ added : List Call, st1.env.calls = st.env.calls ++ added ∧
      ∀ c ∈ added, c.isCompositeStep = true := by
  cases b with
  | pixmap pb => simp [compositeOne] at h
  | glFbo gb =>
    cases hf : gb.mGlFrameBuffer with
    | none =>
      simp only [compositeOne, hf, Except.ok.injEq] at h
      subst h
      exact ⟨[], by simp [Env.diag], by simp⟩
    | some source =>
      cases hv : source.valid with
      | false =>
        simp only [compositeOne, hf, hv, Bool.not_false, if_true, Except.ok.injEq] at h
        subst h
        exact ⟨[], by simp [Env.diag], by simp⟩
      | true =>
        cases hr : st.resolve with
        | none => simp [compositeOne, hf, hv, hr] at h
        | some resolve =>
          simp only [compositeOne, hf, hv, hr, Bool.not_true, Bool.false_eq_true, if_false,
            Except.ok.injEq] at h
          subst h
          refine ⟨[.blitFramebuffer resolve.id source.id, .fboBind st.dest.id,
            .drawQuad resolve.id], ?_, by simp [Call.isCompositeStep]⟩
          simp only [Env.call, QOpenGLFramebufferObject.bind]
          split_ifs <;> simp [Env.call]

/-- The loop of `batch_draw`, when it raises no fault, adds only calls of the compositing
step. -/
theorem compositeAll_calls (buffers : List PaintBuffer) :
    ∀ st st1 : Compositing, compositeAll st buffers = .ok st1 →
      ∃ added : List Call, st1.env.calls = st.env.calls ++ added ∧
        ∀ c ∈ added, c.isCompositeStep = true := by
  induction buffers with
  | nil =>
    intro st st1 h
    simp only [compositeAll, Except.ok.injEq] at h
    subst h
    exact ⟨[], by simp, by simp⟩
  | cons b rest ih =>
    intro st st1 h
    cases h1 : compositeOne st b with
    | error f => simp [compositeAll, h1] at h
    | ok mid =>
      simp only [compositeAll, h1] at h
      obtain ⟨a1, ha1, hc1⟩ := compositeOne_calls st mid b h1
      obtain ⟨a2, ha2, hc2⟩ := ih mid st1 h
      refine ⟨a1 ++ a2, by rw [ha2, ha1, List.append_assoc], ?_⟩
      intro c hc
      rcases List.mem_append.mp hc with h3 | h3
      · exact hc1 c h3
      · exact hc2 c h3

/-- The loop of `batch_draw` never divides by zero. -/
theorem compositeAll_ne_divisionByZero (buffers : List PaintBuffer) :
    ∀ st : Compositing, compositeAll st buffers ≠ .error .divisionByZero := by
  induction buffers with
  | nil => intro st; simp [compositeAll]
  | cons b rest ih =>
    intro st
    cases h1 : compositeOne st b with
    | ok mid =>
      simp only [compositeAll, h1]
      exact ih mid
    | error f =>
      simp only [compositeAll, h1]
      cases b with
      | pixmap pb =>
        simp only [compositeOne, Except.error.injEq] at h1
        subst h1
        simp
      | glFbo gb =>
        cases hf : gb.mGlFrameBuffer with
        | none => simp [compositeOne, hf] at h1
        | some source =>
          cases hv : source.valid with
          | false => simp [compositeOne, hf, hv] at h1
          | true =>
            cases hr : st.resolve with
            | none =>
              simp only [compositeOne, hf, hv, hr, Bool.not_true, Bool.false_eq_true, if_false,
                Except.error.injEq] at h1
              subst h1
              simp
            | some resolve => simp [compositeOne, hf, hv, hr] at h1

/-- The loop of `batch_draw` on hardware buffers, with a resolve object present, runs to
its end whatever the state of the buffers: a buffer without a valid frame buffer object
is skipped. -/
theorem compositeAll_hardware_ok (buffers : List QCPPaintBufferGlFbo) :
    ∀ st : Compositing, st.resolve.isSome = true →
      ∃ st1 : Compositing, compositeAll st (buffers.map PaintBuffer.glFbo) = .ok st1 := by
  induction buffers with
  | nil => intro st _; exact ⟨st, rfl⟩
  | cons b rest ih =>
    intro st hs
    have h1 : ∃ mid : Compositing, compositeOne st (.glFbo b) = .ok mid ∧
        mid.resolve.isSome = true := by
      cases hf : b.mGlFrameBuffer with
      | none =>
        exact ⟨{ st with env := st.env.diag .invalidBuffer }, by simp [compositeOne, hf], hs⟩
      | some source =>
        cases hv : source.valid with
        | false =>
          exact ⟨{ st with env := st.env.diag .invalidBuffer },
            by simp [compositeOne, hf, hv], hs⟩
        | true =>
          cases hr : st.resolve with
          | none => simp [hr] at hs
          | some resolve =>
            refine ⟨{ env := (st.dest.bind (st.env.call
                        (.blitFramebuffer resolve.id source.id))).call (.drawQuad resolve.id),
                      dest := if st.dest.isBound (st.dest.bind (st.env.call
                          (.blitFramebuffer resolve.id source.id))) = true then
                          { st.dest with
                              content :=
                                .quadDrawn st.sfactor st.dfactor st.dest.content
                                  source.content }
                        else st.dest,
                      resolve := some { resolve with content := source.content },
                      sfactor := st.sfactor, dfactor := st.dfactor }, ?_, rfl⟩
            simp [compositeOne, hf, hv, hr]
    obtain ⟨mid, hm, hms⟩ := h1
    obtain ⟨st1, h2⟩ := ih mid hms
    exact ⟨st1, by simp only [List.map_cons, compositeAll, hm]; exact h2⟩

/-- The general path of `batch_draw` (an active painter, a list of any length but one):
whenever it returns normally, the compositor has a destination, the two divisions of the
target rectangle are defined, and the calls it has added are: the `makeCurrent` calls of the switch to the shared
context (none or one), the bind of the destination and, unless the destination is not
valid, the three pushes, the blend setup, the clear, the calls of the compositing loop,
the three pops and one readback, followed by one `drawImage` on the target painter. -/
theorem batch_draw_general_calls (helper : NeoQCPBatchDrawingHelper)
    (buffers : List PaintBuffer) (p : QCPPainter) (e : Env) (r : BatchDrawn)
    (hp : p.isActive = true) (hn : buffers.length ≠ 1)
    (h : helper.batch_draw buffers (some p) e = .ok r) :
    ∃ (dest : QOpenGLFramebufferObject) (switch : List Call) (tw th : Int),
      helper.mGlFrameBuffer = some dest ∧
      targetExtent dest.size.wd helper.mDevicePixelRatio = .ok tw ∧
      targetExtent dest.size.ht helper.mDevicePixelRatio = .ok th ∧
      (∀ c ∈ switch, c.isMakeCurrent = true) ∧
      ((dest.valid = false ∧ r.env.calls = e.calls ++ switch ++ [.fboBind dest.id] ∧
          r.painter = some p) ∨
       (dest.valid = true ∧
        ∃ (loop : List Call) (image : QImage) (readId : Nat),
          (∀ c ∈ loop, c.isCompositeStep = true) ∧
          r.env.calls
            = e.calls ++ switch ++
                [.fboBind dest.id, .glPushAttrib, .glPushMatrix true, .glPushMatrix false,
                 .glBlendSetup, .glClear transparent false] ++
                loop ++
                [.glPopMatrix true, .glPopMatrix false, .glPopAttrib, .fboToImage readId] ∧
          r.painter = some (p.drawImage ⟨0, 0, tw, th⟩ image image.rect))) := by
  cases hc : ensureCurrentUnchecked helper.mGlContext e with
  | error f =>
    rcases buffers with _ | ⟨b1, _ | ⟨b2, rest⟩⟩
    · simp [NeoQCPBatchDrawingHelper.batch_draw, hp, hc, bind, Except.bind] at h
    · simp at hn
    · simp [NeoQCPBatchDrawingHelper.batch_draw, hp, hc, bind, Except.bind] at h
  | ok e1 =>
    obtain ⟨switch, hsw, hswc⟩ := ensureCurrentUnchecked_calls _ _ _ hc
    cases hd : helper.mGlFrameBuffer with
    | none =>
      rcases buffers with _ | ⟨b1, _ | ⟨b2, rest⟩⟩
      · simp [NeoQCPBatchDrawingHelper.batch_draw, hp, hc, hd, bind, Except.bind] at h
      · simp at hn
      · simp [NeoQCPBatchDrawingHelper.batch_draw, hp, hc, hd, bind, Except.bind] at h
    | some dest =>
      cases htw : targetExtent dest.size.wd helper.mDevicePixelRatio with
      | error f =>
        rcases buffers with _ | ⟨b1, _ | ⟨b2, rest⟩⟩
        · simp [NeoQCPBatchDrawingHelper.batch_draw, hp, hc, hd, htw, bind, Except.bind] at h
        · simp at hn
        · simp [NeoQCPBatchDrawingHelper.batch_draw, hp, hc, hd, htw, bind, Except.bind] at h
      | ok tw =>
        cases hth : targetExtent dest.size.ht helper.mDevicePixelRatio with
        | error f =>
          rcases buffers with _ | ⟨b1, _ | ⟨b2, rest⟩⟩
          · simp [NeoQCPBatchDrawingHelper.batch_draw, hp, hc, hd, htw, hth, bind,
              Except.bind] at h
          · simp at hn
          · simp [NeoQCPBatchDrawingHelper.batch_draw, hp, hc, hd, htw, hth, bind,
              Except.bind] at h
        | ok th =>
          refine ⟨dest, switch, tw, th, rfl, htw, hth, hswc, ?_⟩
          cases hv : dest.valid with
          | false =>
            left
            have hcalls : (dest.bind e1).calls = e.calls ++ switch ++ [.fboBind dest.id] := by
              simp [QOpenGLFramebufferObject.bind, hv, Env.call, hsw]
            rcases buffers with _ | ⟨b1, _ | ⟨b2, rest⟩⟩
            · simp only [NeoQCPBatchDrawingHelper.batch_draw, hp, hc, hd, htw, hth, hv,
                bind, Except.bind, pure, Except.pure, Bool.not_true, Bool.not_false,
                Bool.false_eq_true, if_false, if_true, Bool.true_or, Except.ok.injEq] at h
              subst h
              exact ⟨rfl, by simpa [Env.diag] using hcalls, rfl⟩
            · simp at hn
            · simp only [NeoQCPBatchDrawingHelper.batch_draw, hp, hc, hd, htw, hth, hv,
                bind, Except.bind, pure, Except.pure, Bool.not_true, Bool.not_false,
                Bool.false_eq_true, if_false, if_true, Bool.true_or, Except.ok.injEq] at h
              subst h
              exact ⟨rfl, by simpa [Env.diag] using hcalls, rfl⟩
          | true =>
            right
            have hbind : (dest.bind e1).boundFbo = some dest.id := by
              simp [QOpenGLFramebufferObject.bind, hv]
            have hcalls : (dest.bind e1).calls = e.calls ++ switch ++ [.fboBind dest.id] := by
              simp [QOpenGLFramebufferObject.bind, hv, hsw]
            refine ⟨rfl, ?_⟩
            rcases buffers with _ | ⟨b1, _ | ⟨b2, rest⟩⟩
            · simp only [NeoQCPBatchDrawingHelper.batch_draw, hp, hc, hd, htw, hth, hv,
                QOpenGLFramebufferObject.isBound, hbind, bind, Except.bind, pure, Except.pure,
                Bool.not_true, Bool.false_eq_true, if_false, decide_True, Bool.or_self] at h
              split at h
              · cases h
              · rename_i done hcomp
                simp only [Except.ok.injEq] at h
                subst h
                obtain ⟨loop, hl, hlc⟩ := compositeAll_calls _ _ _ hcomp
                refine ⟨loop, _, done.dest.id, hlc, ?_, rfl⟩
                simp [QOpenGLFramebufferObject.toImage, Env.call, hl, hcalls]
            · simp at hn
            · simp only [NeoQCPBatchDrawingHelper.batch_draw, hp, hc, hd, htw, hth, hv,
                QOpenGLFramebufferObject.isBound, hbind, bind, Except.bind, pure, Except.pure,
                Bool.not_true, Bool.false_eq_true, if_false, decide_True, Bool.or_self] at h
              split at h
              · cases h
              · rename_i done hcomp
                simp only [Except.ok.injEq] at h
                subst h
                obtain ⟨loop, hl, hlc⟩ := compositeAll_calls _ _ _ hcomp
                refine ⟨loop, _, done.dest.id, hlc, ?_, rfl⟩
                simp [QOpenGLFramebufferObject.toImage, Env.call, hl, hcalls]

/-- A `makeCurrent` call is no stack operation and no readback. -/
theorem isMakeCurrent_other (c : Call) (h : c.isMakeCurrent = true) :
    c.isStackOp = false ∧ c.isReadback = false := by
  cases c <;> simp_all [Call.isMakeCurrent, Call.isStackOp, Call.isReadback]

/-- A call of the compositing step is no stack operation and no readback. -/
theorem isCompositeStep_other (c : Call) (h : c.isCompositeStep = true) :
    c.isStackOp = false ∧ c.isReadback = false := by
  cases c <;> simp_all [Call.isCompositeStep, Call.isStackOp, Call.isReadback]

/-- A stack operation does not occur among calls that are no stack operations. -/
theorem count_stackOp_eq_zero (l : List Call) (c : Call) (hc : c.isStackOp = true)
    (hl : ∀ x ∈ l, x.isStackOp = false) : l.count c = 0 := by
  rw [List.count_eq_zero]
  intro hmem
  have := hl c hmem
  rw [hc] at this
  cases this

/-- The virtual call `draw`, when it raises no fault, adds no stack operation. -/
theorem draw_calls (b : PaintBuffer) (painter : Option QCPPainter) (e : Env)
    (d : Drawn PaintBuffer) (h : b.draw painter e = .ok d) :
    ∃ added : List Call, d.env.calls = e.calls ++ added ∧
      ∀ c ∈ added, c.isStackOp = false := by
  cases b with
  | pixmap pb =>
    simp only [PaintBuffer.draw, Except.ok.injEq] at h
    subst h
    refine ⟨[], ?_, by simp⟩
    cases painter with
    | none => simp [QCPPaintBufferPixmap.draw, Env.diag]
    | some p =>
      cases hp : p.isActive <;> simp [QCPPaintBufferPixmap.draw, hp, Env.diag]
  | glFbo gb =>
    cases painter with
    | none =>
      simp only [PaintBuffer.draw, QCPPaintBufferGlFbo.draw, Except.map, Except.ok.injEq] at h
      subst h
      exact ⟨[], by simp [Env.diag], by simp⟩
    | some p =>
      cases hp : p.isActive with
      | false =>
        simp [PaintBuffer.draw, QCPPaintBufferGlFbo.draw, Except.map, hp] at h
        subst h
        exact ⟨[], by simp [Env.diag], by simp⟩
      | true =>
        cases hf : gb.mGlFrameBuffer with
        | none =>
          simp [PaintBuffer.draw, QCPPaintBufferGlFbo.draw, Except.map, hp, hf] at h
          subst h
          exact ⟨[], by simp [Env.diag], by simp⟩
        | some fbo =>
          cases hc : ensureCurrentUnchecked gb.mGlContext e with
          | error f =>
            simp [PaintBuffer.draw, QCPPaintBufferGlFbo.draw, Except.map, hp, hf, hc, bind,
              Except.bind] at h
          | ok e1 =>
            cases htw : targetExtent fbo.size.wd gb.mDevicePixelRatio with
            | error f =>
              simp [PaintBuffer.draw, QCPPaintBufferGlFbo.draw, Except.map, hp, hf, hc, bind,
                Except.bind, htw] at h
            | ok tw =>
              cases hth : targetExtent fbo.size.ht gb.mDevicePixelRatio with
              | error f =>
                simp [PaintBuffer.draw, QCPPaintBufferGlFbo.draw, Except.map, hp, hf, hc,
                  bind, Except.bind, htw, hth] at h
              | ok th =>
                rw [PaintBuffer.draw, glFbo_draw_ok gb fbo p e e1 tw th hc hf htw hth hp] at h
                simp only [Except.map, Except.ok.injEq] at h
                subst h
                obtain ⟨switch, hsw, hswc⟩ := ensureCurrentUnchecked_calls _ _ _ hc
                refine ⟨switch ++ [.fboToImage fbo.id], by simp [Env.call, hsw], ?_⟩
                intro c hmem
                rcases List.mem_append.mp hmem with h1 | h1
                · exact (isMakeCurrent_other c (hswc c h1)).1
                · simp only [List.mem_singleton] at h1
                  subst h1
                  rfl

/-- Whenever `batch_draw` returns normally, the calls it has added hold as many attribute
pushes as pops and, for each matrix stack, as many pushes as pops. -/
theorem batch_draw_added_balanced (helper : NeoQCPBatchDrawingHelper)
    (buffers : List PaintBuffer) (painter : Option QCPPainter) (e : Env) (r : BatchDrawn)
    (h : helper.batch_draw buffers painter e = .ok r) :
    ∃ added : List Call, r.env.calls = e.calls ++ added ∧
      added.count .glPushAttrib = added.count .glPopAttrib ∧
      added.count (.glPushMatrix true) = added.count (.glPopMatrix true) ∧
      added.count (.glPushMatrix false) = added.count (.glPopMatrix false) := by
  have plain : ∀ added : List Call, (∀ c ∈ added, c.isStackOp = false) →
      added.count .glPushAttrib = added.count .glPopAttrib ∧
      added.count (.glPushMatrix true) = added.count (.glPopMatrix true) ∧
      added.count (.glPushMatrix false) = added.count (.glPopMatrix false) := by
    intro added ha
    rw [count_stackOp_eq_zero added .glPushAttrib rfl ha,
      count_stackOp_eq_zero added .glPopAttrib rfl ha,
      count_stackOp_eq_zero added (.glPushMatrix true) rfl ha,
      count_stackOp_eq_zero added (.glPopMatrix true) rfl ha,
      count_stackOp_eq_zero added (.glPushMatrix false) rfl ha,
      count_stackOp_eq_zero added (.glPopMatrix false) rfl ha]
    exact ⟨rfl, rfl, rfl⟩
  cases painter with
  | none =>
    simp only [NeoQCPBatchDrawingHelper.batch_draw, Except.ok.injEq] at h
    subst h
    exact ⟨[], by simp [Env.diag], by simp⟩
  | some p =>
    cases hp : p.isActive with
    | false =>
      simp [NeoQCPBatchDrawingHelper.batch_draw, hp] at h
      subst h
      exact ⟨[], by simp [Env.diag], by simp⟩
    | true =>
      by_cases hn : buffers.length = 1
      · obtain ⟨only, rfl⟩ := List.length_eq_one.mp hn
        simp only [NeoQCPBatchDrawingHelper.batch_draw, hp, Bool.not_true, Bool.false_eq_true,
          if_false] at h
        cases hd : only.draw (some p) e with
        | error f => simp [hd, Except.map] at h
        | ok d =>
          simp only [hd, Except.map, Except.ok.injEq] at h
          subst h
          obtain ⟨added, ha, hac⟩ := draw_calls only (some p) e d hd
          exact ⟨added, ha, plain added hac⟩
      · obtain ⟨dest, switch, tw, th, _, _, _, hswc, hcase⟩ :=
          batch_draw_general_calls helper buffers p e r hp hn h
        have hsw0 : ∀ c : Call, c.isStackOp = true → switch.count c = 0 := fun c hc =>
          count_stackOp_eq_zero switch c hc fun x hx => (isMakeCurrent_other x (hswc x hx)).1
        rcases hcase with ⟨_, hcalls, _⟩ | ⟨_, loop, image, readId, hlc, hcalls, _⟩
        · refine ⟨switch ++ [.fboBind dest.id], by rw [hcalls, List.append_assoc], ?_⟩
          apply plain
          intro c hmem
          rcases List.mem_append.mp hmem with h1 | h1
          · exact (isMakeCurrent_other c (hswc c h1)).1
          · simp only [List.mem_singleton] at h1
            subst h1
            rfl
        · have hl0 : ∀ c : Call, c.isStackOp = true → loop.count c = 0 := fun c hc =>
            count_stackOp_eq_zero loop c hc fun x hx => (isCompositeStep_other x (hlc x hx)).1
          refine ⟨switch ++
              [.fboBind dest.id, .glPushAttrib, .glPushMatrix true, .glPushMatrix false,
               .glBlendSetup, .glClear transparent false] ++
              loop ++
              [.glPopMatrix true, .glPopMatrix false, .glPopAttrib, .fboToImage readId],
            by rw [hcalls]; simp only [List.append_assoc], ?_⟩
          simp [List.count_append, List.count_cons, hsw0 .glPushAttrib rfl,
            hsw0 .glPopAttrib rfl, hsw0 (.glPushMatrix true) rfl, hsw0 (.glPopMatrix true) rfl,
            hsw0 (.glPushMatrix false) rfl, hsw0 (.glPopMatrix false) rfl,
            hl0 .glPushAttrib rfl, hl0 .glPopAttrib rfl, hl0 (.glPushMatrix true) rfl,
            hl0 (.glPopMatrix true) rfl, hl0 (.glPushMatrix false) rfl,
            hl0 (.glPopMatrix false) rfl]

/-- With a context that resolves, a destination, a resolve object and defined divisions
of the target rectangle, `batch_draw` on any painter and any list of hardware buffers
whose length is not one returns normally. -/
theorem batch_draw_hardware_ok (helper : NeoQCPBatchDrawingHelper) (context : QOpenGLContext)
    (dest resolve : QOpenGLFramebufferObject) (buffers : List QCPPaintBufferGlFbo)
    (painter : Option QCPPainter) (e : Env) (tw th : Int) (hn : buffers.length ≠ 1)
    (hc : helper.mGlContext = some context) (hd : helper.mGlFrameBuffer = some dest)
    (hs : helper.mResolveFbo = some resolve)
    (htw : targetExtent dest.size.wd helper.mDevicePixelRatio = .ok tw)
    (hth : targetExtent dest.size.ht helper.mDevicePixelRatio = .ok th) :
    ∃ r : BatchDrawn, helper.batch_draw (buffers.map PaintBuffer.glFbo) painter e = .ok r := by
  cases painter with
  | none => exact ⟨_, rfl⟩
  | some p =>
    cases hp : p.isActive with
    | false =>
      simp only [NeoQCPBatchDrawingHelper.batch_draw, hp, Bool.not_false, if_true]
      exact ⟨_, rfl⟩
    | true =>
      have hcur : ensureCurrentUnchecked helper.mGlContext e = .ok (context.ensureCurrent e) := by
        simp [ensureCurrentUnchecked, hc]
      cases hv : dest.valid with
      | false =>
        rcases buffers with _ | ⟨b1, _ | ⟨b2, rest⟩⟩
        · simp only [NeoQCPBatchDrawingHelper.batch_draw, hp, hcur, hd, htw, hth, hv,
            List.map_nil, bind, Except.bind, pure, Except.pure, Bool.not_true, Bool.not_false,
            Bool.false_eq_true, if_false, if_true, Bool.true_or]
          exact ⟨_, rfl⟩
        · simp at hn
        · simp only [NeoQCPBatchDrawingHelper.batch_draw, hp, hcur, hd, htw, hth, hv,
            List.map_cons, bind, Except.bind, pure, Except.pure, Bool.not_true,
            Bool.not_false, Bool.false_eq_true, if_false, if_true, Bool.true_or]
          exact ⟨_, rfl⟩
      | true =>
        have hbind : (dest.bind (context.ensureCurrent e)).boundFbo = some dest.id := by
          simp [QOpenGLFramebufferObject.bind, hv]
        obtain ⟨done, hdone⟩ := compositeAll_hardware_ok buffers
          { env := (((((dest.bind (context.ensureCurrent e)).call .glPushAttrib).call
              (.glPushMatrix true)).call (.glPushMatrix false)).call .glBlendSetup).call
              (.glClear transparent false),
            dest := { dest with content := .uniform transparent },
            resolve := helper.mResolveFbo,
            sfactor := .srcAlpha, dfactor := .oneMinusSrcAlpha } (by simp [hs])
        rw [hv] at hdone
        rcases buffers with _ | ⟨b1, _ | ⟨b2, rest⟩⟩
        · simp only [List.map_nil] at hdone
          simp only [NeoQCPBatchDrawingHelper.batch_draw, hp, hcur, hd, htw, hth, hv,
            List.map_nil, QOpenGLFramebufferObject.isBound, hbind, bind, Except.bind, pure,
            Except.pure, Bool.not_true, Bool.false_eq_true, if_false, decide_True,
            Bool.or_self, hdone]
          exact ⟨_, rfl⟩
        · simp at hn
        · simp only [List.map_cons] at hdone
          simp only [NeoQCPBatchDrawingHelper.batch_draw, hp, hcur, hd, htw, hth, hv,
            List.map_cons, QOpenGLFramebufferObject.isBound, hbind, bind, Except.bind, pure,
            Except.pure, Bool.not_true, Bool.false_eq_true, if_false, decide_True,
            Bool.or_self, hdone]
          exact ⟨_, rfl⟩

/-! ## Batch drawing restores the OpenGL stacks -/

/-- Claim C25. Whenever `batch_draw` returns, on whatever path (invalid or inactive
painter, delegation to the `draw` of a single buffer, early return on a destination that
is not valid, or the general path with any number of skipped buffers, for lists of any
length and buffers of either backend), the calls it has added hold as many attribute
pushes as attribute pops and, for the projection stack and for the model-view stack, as
many matrix pushes as pops; so the depths of the three stacks after the call equal those
before it. It does return, on any painter and any list of hardware buffers of a length
other than one, when the compositor has a context that resolves, a destination, a resolve
object, a ratio other than zero and quotients of the target rectangle that fit an `int`. -/
theorem batch_draw_restores_stacks (helper : NeoQCPBatchDrawingHelper)
    (buffers : List PaintBuffer) (painter : Option QCPPainter) (e : Env) (r : BatchDrawn)
    (h : helper.batch_draw buffers painter e = .ok r) :
    (∃ added : List Call, r.env.calls = e.calls ++ added ∧
      added.count .glPushAttrib = added.count .glPopAttrib ∧
      added.count (.glPushMatrix true) = added.count (.glPopMatrix true) ∧
      added.count (.glPushMatrix false) = added.count (.glPopMatrix false)) ∧
    r.env.attribDepth = e.attribDepth ∧
    r.env.projectionDepth = e.projectionDepth ∧
    r.env.modelViewDepth = e.modelViewDepth ∧
    (∀ (hardware : List QCPPaintBufferGlFbo) (context : QOpenGLContext)
        (dest resolve : QOpenGLFramebufferObject) (target : Option QCPPainter) (e0 : Env),
      hardware.length ≠ 1 → helper.mGlContext = some context →
      helper.mGlFrameBuffer = some dest → helper.mResolveFbo = some resolve →
      helper.mDevicePixelRatio ≠ 0 →
      (INT_MIN ≤ toInt (roundToDouble (dest.size.wd / helper.mDevicePixelRatio)) ∧
        toInt (roundToDouble (dest.size.wd / helper.mDevicePixelRatio)) ≤ INT_MAX) →
      (INT_MIN ≤ toInt (roundToDouble (dest.size.ht / helper.mDevicePixelRatio)) ∧
        toInt (roundToDouble (dest.size.ht / helper.mDevicePixelRatio)) ≤ INT_MAX) →
      ∃ r0 : BatchDrawn,
        helper.batch_draw (hardware.map PaintBuffer.glFbo) target e0 = .ok r0) := by
  obtain ⟨added, ha, h1, h2, h3⟩ := batch_draw_added_balanced helper buffers painter e r h
  refine ⟨⟨added, ha, h1, h2, h3⟩, ?_, ?_, ?_, ?_⟩
  · simp only [Env.attribDepth, ha, List.count_append]
    push_cast
    rw [h1]
    ring
  · simp only [Env.projectionDepth, ha, List.count_append]
    push_cast
    rw [h2]
    ring
  · simp only [Env.modelViewDepth, ha, List.count_append]
    push_cast
    rw [h3]
    ring
  · intro hardware context dest resolve target e0 hn hc hd hs hr hw hh
    exact batch_draw_hardware_ok helper context dest resolve hardware target e0 _ _ hn hc hd hs
      (targetExtent_of_range _ _ hr hw) (targetExtent_of_range _ _ hr hh)

/-- Witness for C25: the compositor of the batch scene draws the red and the blue buffer
on the active target; the call returns and the three stack depths are as before. -/
theorem batch_draw_restores_stacks_witness :
    batchHelper.batch_draw [.glFbo redGlBuffer, .glFbo blueGlBuffer] (some activeTarget)
        batchEnv = .ok batchDrawn ∧
    batchDrawn.env.attribDepth = batchEnv.attribDepth ∧
    batchDrawn.env.projectionDepth = batchEnv.projectionDepth ∧
    batchDrawn.env.modelViewDepth = batchEnv.modelViewDepth ∧
    batchDrawn.env.calls.count .glPushAttrib = batchEnv.calls.count .glPushAttrib + 1 :=
  have h := batch_draw_restores_stacks batchHelper [.glFbo redGlBuffer, .glFbo blueGlBuffer]
    (some activeTarget) batchEnv batchDrawn (by decide!)
  ⟨by decide!, h.2.1, h.2.2.1, h.2.2.2.1, by decide!⟩

/-! ## The target rectangle and the ratio zero -/

/-- Making the context current raises no other fault than a null dereference. -/
theorem ensureCurrentUnchecked_error (ctx : Option QOpenGLContext) (e : Env) (f : Fault)
    (h : ensureCurrentUnchecked ctx e = .error f) : f = .nullDereference := by
  cases ctx with
  | none =>
    simp only [ensureCurrentUnchecked] at h
    split_ifs at h
    cases h
    rfl
  | some c => simp [ensureCurrentUnchecked] at h

/-- With a ratio other than zero the computation of a target extent does not divide by
zero. -/
theorem targetExtent_ne_divisionByZero (extent : Int) (ratio : ℚ) (hr : ratio ≠ 0) :
    targetExtent extent ratio ≠ .error .divisionByZero := by
  unfold targetExtent doubleToInt
  rw [if_neg hr]
  split_ifs <;> simp

/-- The method `draw` of a hardware buffer whose ratio is not zero never divides by
zero. -/
theorem glFbo_draw_ne_divisionByZero (b : QCPPaintBufferGlFbo) (painter : Option QCPPainter)
    (e : Env) (hr : b.mDevicePixelRatio ≠ 0) : b.draw painter e ≠ .error .divisionByZero := by
  cases painter with
  | none => simp [QCPPaintBufferGlFbo.draw]
  | some p =>
    cases hp : p.isActive with
    | false => simp [QCPPaintBufferGlFbo.draw, hp]
    | true =>
      cases hf : b.mGlFrameBuffer with
      | none => simp [QCPPaintBufferGlFbo.draw, hp, hf]
      | some fbo =>
        cases hc : ensureCurrentUnchecked b.mGlContext e with
        | error f =>
          have := ensureCurrentUnchecked_error _ _ _ hc
          subst this
          simp [QCPPaintBufferGlFbo.draw, hp, hf, hc, bind, Except.bind]
        | ok e1 =>
          cases htw : targetExtent fbo.size.wd b.mDevicePixelRatio with
          | error f =>
            have hne := targetExtent_ne_divisionByZero fbo.size.wd b.mDevicePixelRatio hr
            rw [htw] at hne
            simpa [QCPPaintBufferGlFbo.draw, hp, hf, hc, htw, bind, Except.bind] using hne
          | ok tw =>
            cases hth : targetExtent fbo.size.ht b.mDevicePixelRatio with
            | error f =>
              have hne := targetExtent_ne_divisionByZero fbo.size.ht b.mDevicePixelRatio hr
              rw [hth] at hne
              simpa [QCPPaintBufferGlFbo.draw, hp, hf, hc, htw, hth, bind, Except.bind]
                using hne
            | ok th =>
              rw [glFbo_draw_ok b fbo p e e1 tw th hc hf htw hth hp]
              simp

/-- The general path of `batch_draw` of a compositor whose ratio is not zero never divides
by zero. -/
theorem batch_draw_ne_divisionByZero (helper : NeoQCPBatchDrawingHelper)
    (buffers : List PaintBuffer) (painter : Option QCPPainter) (e : Env)
    (hr : helper.mDevicePixelRatio ≠ 0) (hn : buffers.length ≠ 1) :
    helper.batch_draw buffers painter e ≠ .error .divisionByZero := by
  cases painter with
  | none => simp [NeoQCPBatchDrawingHelper.batch_draw]
  | some p =>
    cases hp : p.isActive with
    | false => simp [NeoQCPBatchDrawingHelper.batch_draw, hp]
    | true =>
      intro habs
      cases hc : ensureCurrentUnchecked helper.mGlContext e with
      | error f =>
        have := ensureCurrentUnchecked_error _ _ _ hc
        subst this
        rcases buffers with _ | ⟨b1, _ | ⟨b2, rest⟩⟩
        · simp [NeoQCPBatchDrawingHelper.batch_draw, hp, hc, bind, Except.bind] at habs
        · simp at hn
        · simp [NeoQCPBatchDrawingHelper.batch_draw, hp, hc, bind, Except.bind] at habs
      | ok e1 =>
        cases hd : helper.mGlFrameBuffer with
        | none =>
          rcases buffers with _ | ⟨b1, _ | ⟨b2, rest⟩⟩
          · simp [NeoQCPBatchDrawingHelper.batch_draw, hp, hc, hd, bind, Except.bind] at habs
          · simp at hn
          · simp [NeoQCPBatchDrawingHelper.batch_draw, hp, hc, hd, bind, Except.bind] at habs
        | some dest =>
          cases htw : targetExtent dest.size.wd helper.mDevicePixelRatio with
          | error f =>
            have hne := targetExtent_ne_divisionByZero dest.size.wd helper.mDevicePixelRatio hr
            rw [htw] at hne
            rcases buffers with _ | ⟨b1, _ | ⟨b2, rest⟩⟩
            · simp [NeoQCPBatchDrawingHelper.batch_draw, hp, hc, hd, htw, bind,
                Except.bind] at habs
              exact hne (by rw [habs])
            · simp at hn
            · simp [NeoQCPBatchDrawingHelper.batch_draw, hp, hc, hd, htw, bind,
                Except.bind] at habs
              exact hne (by rw [habs])
          | ok tw =>
            cases hth : targetExtent dest.size.ht helper.mDevicePixelRatio with
            | error f =>
              have hne :=
                targetExtent_ne_divisionByZero dest.size.ht helper.mDevicePixelRatio hr
              rw [hth] at hne
              rcases buffers with _ | ⟨b1, _ | ⟨b2, rest⟩⟩
              · simp [NeoQCPBatchDrawingHelper.batch_draw, hp, hc, hd, htw, hth, bind,
                  Except.bind] at habs
                exact hne (by rw [habs])
              · simp at hn
              · simp [NeoQCPBatchDrawingHelper.batch_draw, hp, hc, hd, htw, hth, bind,
                  Except.bind] at habs
                exact hne (by rw [habs])
            | ok th =>
              cases hv : dest.valid with
              | false =>
                rcases buffers with _ | ⟨b1, _ | ⟨b2, rest⟩⟩
                · simp [NeoQCPBatchDrawingHelper.batch_draw, hp, hc, hd, htw, hth, hv,
                    bind, Except.bind, pure, Except.pure] at habs
                · simp at hn
                · simp [NeoQCPBatchDrawingHelper.batch_draw, hp, hc, hd, htw, hth, hv,
                    bind, Except.bind, pure, Except.pure] at habs
              | true =>
                have hbind : (dest.bind e1).boundFbo = some dest.id := by
                  simp [QOpenGLFramebufferObject.bind, hv]
                rcases buffers with _ | ⟨b1, _ | ⟨b2, rest⟩⟩
                · simp only [NeoQCPBatchDrawingHelper.batch_draw, hp, hc, hd, htw, hth, hv,
                    QOpenGLFramebufferObject.isBound, hbind, bind, Except.bind, pure,
                    Except.pure, Bool.not_true, Bool.false_eq_true, if_false, decide_True,
                    Bool.or_self] at habs
                  split at habs
                  · rename_i err hcomp
                    simp only [Except.error.injEq] at habs
                    subst habs
                    exact compositeAll_ne_divisionByZero _ _ hcomp
                  · cases habs
                · simp at hn
                · simp only [NeoQCPBatchDrawingHelper.batch_draw, hp, hc, hd, htw, hth, hv,
                    QOpenGLFramebufferObject.isBound, hbind, bind, Except.bind, pure,
                    Except.pure, Bool.not_true, Bool.false_eq_true, if_false, decide_True,
                    Bool.or_self] at habs
                  split at habs
                  · rename_i err hcomp
                    simp only [Except.error.injEq] at habs
                    subst habs
                    exact compositeAll_ne_divisionByZero _ _ hcomp
                  · cases habs

/-- Claim C26 as stated fails. The ratio 0 is within the range the data model allows. The
hardware buffer built with ratio 0, live context and paint device has a frame buffer
object; its `draw` on an active painter divides the width of that object by zero. The
compositor of the batch scene after `setDevicePixelRatio(0)` has a destination; its
`batch_draw` on an active painter and two hardware buffers divides by zero too. -/
theorem target_rect_with_zero_ratio_divides_by_zero :
    (PaintBuffer.glFbo zeroRatioGlBuffer).devicePixelRatio = 0 ∧
    zeroRatioGlBuffer.mGlFrameBuffer.isSome = true ∧
    activeTarget.isActive = true ∧
    zeroRatioGlBuffer.draw (some activeTarget) zeroRatioGlEnv = .error .divisionByZero ∧
    zeroRatioHelper.mDevicePixelRatio = 0 ∧
    zeroRatioHelper.mGlFrameBuffer.isSome = true ∧
    zeroRatioHelper.batch_draw [.glFbo redGlBuffer, .glFbo blueGlBuffer] (some activeTarget)
        zeroRatioHelperEnv
      = .error .divisionByZero := by
  decide!

/-- Claim C26 as amended. For every ratio other than zero (every ratio above zero of the
data model) the two divisions of the target rectangle do not divide by zero: neither the
computation of a target extent, nor `draw` of a hardware buffer with such a ratio,
whatever the painter and the environment, nor `batch_draw` of a compositor with such a
ratio on a list of a length other than one (a single buffer is drawn by its own `draw`,
with its own ratio). With the ratio zero, a frame buffer object, an active painter and no
fault on the way to the current context, `draw` does divide by zero. Whether the quotient
fits an `int` is another matter: for the buffer built at size (2147483647,8) with ratio
1/2, whose frame buffer object is 1073741824 wide, it does not, and `draw` ends in the
undefined conversion. -/
theorem target_rect_no_division_by_zero (b : QCPPaintBufferGlFbo)
    (helper : NeoQCPBatchDrawingHelper) (buffers : List PaintBuffer)
    (painter : Option QCPPainter) (e : Env) (hb : b.mDevicePixelRatio ≠ 0)
    (hh : helper.mDevicePixelRatio ≠ 0) (hn : buffers.length ≠ 1) :
    (∀ extent : Int, targetExtent extent b.mDevicePixelRatio ≠ .error .divisionByZero) ∧
    b.draw painter e ≠ .error .divisionByZero ∧
    helper.batch_draw buffers painter e ≠ .error .divisionByZero ∧
    (∀ (zero : QCPPaintBufferGlFbo) (fbo : QOpenGLFramebufferObject) (p : QCPPainter)
        (e1 : Env),
      zero.mDevicePixelRatio = 0 → zero.mGlFrameBuffer = some fbo → p.isActive = true →
      ensureCurrentUnchecked zero.mGlContext e = .ok e1 →
      zero.draw (some p) e = .error .divisionByZero) ∧
    (wideGlBuffer.mSize.inIntRange ∧
      (PaintBuffer.glFbo wideGlBuffer).storageSize = some ⟨1073741824, 4⟩ ∧
      wideGlBuffer.draw (some activeTarget) wideGlEnv = .error .conversionOutOfRange) := by
  refine ⟨fun extent => targetExtent_ne_divisionByZero extent _ hb,
    glFbo_draw_ne_divisionByZero b painter e hb,
    batch_draw_ne_divisionByZero helper buffers painter e hh hn, ?_, by decide!⟩
  intro zero fbo p e1 hz hf hp hc
  simp [QCPPaintBufferGlFbo.draw, hp, hf, hc, targetExtent, hz, bind, Except.bind]

/-- Witness for C26 as amended: the scenario hardware buffer and the compositor of the
batch scene, both of ratio 1, with the red and the blue buffer and the active target. -/
theorem target_rect_no_division_by_zero_witness :
    scenarioGlBuffer.mDevicePixelRatio ≠ 0 ∧
    batchHelper.mDevicePixelRatio ≠ 0 ∧
    [PaintBuffer.glFbo redGlBuffer, PaintBuffer.glFbo blueGlBuffer].length ≠ 1 ∧
    scenarioGlBuffer.draw (some activeTarget) batchEnv ≠ .error .divisionByZero ∧
    batchHelper.batch_draw [PaintBuffer.glFbo redGlBuffer, PaintBuffer.glFbo blueGlBuffer]
        (some activeTarget) batchEnv ≠ .error .divisionByZero :=
  have h := target_rect_no_division_by_zero scenarioGlBuffer batchHelper
    [PaintBuffer.glFbo redGlBuffer, PaintBuffer.glFbo blueGlBuffer] (some activeTarget)
    batchEnv (by decide!) (by decide!) (by decide)
  ⟨by decide!, by decide!, by decide, h.2.1, h.2.2.1⟩

/-! ## Readbacks of batch drawing and of drawing one by one -/

end NeoQCP
